import Mathlib

/-!
Verification development for the QA/refinement pipeline of the wind-analysis
backend (`Backend/utils/refine.py`).  Tabular data is embedded shallowly:
a dataframe is a header (list of column names) together with a list of rows,
each row a list of cell values.  Pure pandas operations used by the source
(`drop_duplicates`, column assignment, `len`) are embedded directly; the
`openoa` helpers the source calls (`qa.convert_datetime_column`,
`qa.duplicate_time_identification`, `qa.gap_time_identification`,
`filters.range_flag`, `filters.unresponsive_flag`) are not part of the
repository's sources and are modelled from the specification.
-/

deriving instance DecidableEq for Except

namespace WindQA

/-- Cell values of a tabular dataset: integers stand for numeric/timestamp
cells (timestamps are minutes since an epoch), strings for text cells,
booleans for flag cells, `vNA` for a missing value. -/
inductive Value where
  | vInt  : Int → Value
  | vStr  : String → Value
  | vBool : Bool → Value
  | vNA   : Value
deriving DecidableEq

abbrev Row := List Value

/-- A dataframe: ordered column names plus ordered rows. -/
structure DataFrame where
  header : List String
  rows : List Row
deriving DecidableEq

/-- Well-formedness of a dataframe: rectangular data. -/
def WF (df : DataFrame) : Prop :=
  ∀ r ∈ df.rows, r.length = df.header.length

instance (df : DataFrame) : Decidable (WF df) := by
  unfold WF; infer_instance

/-- Index of the first column with the given name. -/
def idxOf? (c : String) : List String → Option Nat
  | [] => none
  | h :: t => if h = c then some 0 else (idxOf? c t).map (· + 1)

/-- Membership test on columns, as pandas `col in df.columns`. -/
def DataFrame.hasCol (df : DataFrame) (c : String) : Bool :=
  (idxOf? c df.header).isSome

/-- The values of a named column, one per row (as pandas `df[col]`). -/
def colVals (df : DataFrame) (c : String) : List Value :=
  match idxOf? c df.header with
  | some i => df.rows.map (fun r => r.getD i Value.vNA)
  | none => []

/-- Column assignment `df[name] = flags` for a boolean series: overwrites the
column when the name exists, otherwise appends a new column. -/
def setCol (df : DataFrame) (c : String) (flags : List Bool) : DataFrame :=
  match idxOf? c df.header with
  | some i => ⟨df.header, df.rows.zipWith (fun r b => r.set i (Value.vBool b)) flags⟩
  | none => ⟨df.header ++ [c], df.rows.zipWith (fun r b => r ++ [Value.vBool b]) flags⟩

/-- `_safe_int` from the source: `int(val)`, and `0` when the conversion
raises.  A Python value is embedded as `some n` when `int(val) = n` and as
`none` when `int(val)` raises `TypeError`/`ValueError`. -/
def safe_int : Option Int → Int
  | some n => n
  | none => 0

/-- Numeric reading of a cell, `none` when the cell is not numeric. -/
def asInt? : Value → Option Int
  | .vInt n => some n
  | _ => none

/-- Numeric reading of a whole column: `none` as soon as one cell is not
numeric (the checks of the external library fail on non-numeric data). -/
def allInts? : List Value → Option (List Int)
  | [] => some []
  | v :: vs =>
    match asInt? v, allInts? vs with
    | some n, some ns => some (n :: ns)
    | _, _ => none

/-- Keep, for each key, only the last element of the list carrying that key,
in original order — pandas `drop_duplicates(subset, keep="last")`. -/
def dropDupKeepLast {α β : Type} [DecidableEq β] (key : α → β) : List α → List α
  | [] => []
  | x :: xs =>
    if xs.any (fun y => decide (key y = key x)) then dropDupKeepLast key xs
    else x :: dropDupKeepLast key xs

/-- Number of elements that have a later element with the same key: the size
of the duplicate set, as pandas `duplicated` counting. -/
def countDupBy {α β : Type} [DecidableEq β] (key : α → β) : List α → Nat
  | [] => 0
  | x :: xs =>
    (if xs.any (fun y => decide (key y = key x)) then 1 else 0) + countDupBy key xs

/-- `_drop_duplicates` from the source: drop duplicate timestamps keeping the
last, keyed on the time column when present.  The source's fallback drops by
positional-index duplication; a fresh positional index has no duplicates, so
the fallback leaves the frame unchanged in this embedding. -/
def drop_duplicates (df : DataFrame) (time_col : String) : DataFrame :=
  match idxOf? time_col df.header with
  | some i => ⟨df.header, dropDupKeepLast (fun r => r.getD i Value.vNA) df.rows⟩
  | none => df

/-- Modelled from the spec: `openoa.utils.qa.convert_datetime_column` is not in
the repository sources.  Per §4.1 the raw time column is converted in place to
a canonical timezone-naive UTC representation; parse failure of any value
fails the whole operation with a conversion error.  Timezones are embedded as
integer offsets, so normalization subtracts the local offset. -/
def convert_datetime_column (df : DataFrame) (time_col : String) (local_tz : Int) :
    Except String DataFrame :=
  match idxOf? time_col df.header with
  | none => Except.error ("time column not found: " ++ time_col)
  | some i =>
    if df.rows.all (fun r => (asInt? (r.getD i Value.vNA)).isSome) then
      Except.ok ⟨df.header,
        df.rows.map (fun r =>
          r.set i (Value.vInt ((asInt? (r.getD i Value.vNA)).getD 0 - local_tz)))⟩
    else Except.error "timestamp parsing failed"

/-- Modelled from the spec: `openoa.utils.qa.duplicate_time_identification` is
not in the repository sources.  Per §4.2 it identifies rows sharing an
identical (time, identifier) key; the source reads only the sizes of the
returned duplicate sets, so the model returns those sizes (original and UTC
bases coincide in this embedding), as Python values fed to `int()`. -/
def duplicate_time_identification (df : DataFrame) (time_col id_col : String) :
    Except String (Option Int × Option Int) :=
  match idxOf? time_col df.header, idxOf? id_col df.header with
  | some i, some j =>
    let k := countDupBy (fun r : Row => (r.getD i Value.vNA, r.getD j Value.vNA)) df.rows
    Except.ok (some (k : Int), some (k : Int))
  | _, _ => Except.error "duplicate identification failed: missing column"

def intFold (f : Int → Int → Int) (x : Int) (l : List Int) : Int := l.foldl f x

/-- Modelled from the spec: `openoa.utils.qa.gap_time_identification` is not in
the repository sources.  Per §4.3 it reports the timestamps missing from the
expected sampling grid between the first and last observed timestamps; the
count is advisory and no rows are synthesized.  A non-positive frequency is a
malformed frequency and fails the check. -/
def gap_time_identification (df : DataFrame) (time_col : String) (freq : Int) :
    Except String (Option Int × Option Int × List String) :=
  if freq ≤ 0 then Except.error "malformed frequency" else
  match idxOf? time_col df.header with
  | none => Except.error "gap identification failed: missing time column"
  | some i =>
    match allInts? (df.rows.map (fun r => r.getD i Value.vNA)) with
    | none => Except.error "gap identification failed: unparseable times"
    | some ts =>
      match ts with
      | [] => Except.ok (some 0, some 0, [])
      | t0 :: _ =>
        let mn := intFold min t0 ts
        let mx := intFold max t0 ts
        let grid := (List.range (((mx - mn) / freq).toNat + 1)).map
          (fun k => mn + freq * (k : Int))
        let missing := grid.filter (fun x => !(ts.any (fun y => decide (y = x))))
        Except.ok (some (missing.length : Int), some (missing.length : Int),
          missing.map toString)

/-- Modelled from the spec: `openoa.utils.filters.range_flag` is not in the
repository sources.  Per §4.4 it returns a boolean series marking the rows
whose value lies outside the inclusive `[lower, upper]` bounds; non-numeric
data fails the check (and the caller records the error). -/
def range_flag (vals : List Value) (lower upper : Int) : Except String (List Bool) :=
  match allInts? vals with
  | some ns => Except.ok (ns.map (fun x => decide (x < lower) || decide (upper < x)))
  | none => Except.error "range comparison failed: non-numeric data"

/-- Length of the longest leading run of `v` in a list. -/
def leadCount {α : Type} [DecidableEq α] (v : α) : List α → Nat
  | [] => 0
  | w :: ws => if w = v then leadCount v ws + 1 else 0

/-- Remainder of a list after its leading run of `v`. -/
def dropLead {α : Type} [DecidableEq α] (v : α) : List α → List α
  | [] => []
  | w :: ws => if w = v then dropLead v ws else w :: ws

theorem dropLead_length_le {α : Type} [DecidableEq α] (v : α) (l : List α) :
    (dropLead v l).length ≤ l.length := by
  induction l with
  | nil => simp [dropLead]
  | cons w ws ih =>
    by_cases h : w = v
    · simp only [dropLead, if_pos h, List.length_cons]
      omega
    · simp [dropLead, h]

/-- Modelled from the spec: run detection of `openoa.utils.filters.unresponsive_flag`
is not in the repository sources.  Per §4.5 every sample belonging to a
maximal run of identical consecutive values of length at least `t` is marked
`true`, and no sample of a shorter run is marked. -/
def unresponsiveRuns {α : Type} [DecidableEq α] (t : Nat) : List α → List Bool
  | [] => []
  | v :: vs =>
    List.replicate (leadCount v vs + 1) (decide (t ≤ leadCount v vs + 1)) ++
      unresponsiveRuns t (dropLead v vs)
termination_by l => l.length
decreasing_by
  simp only [List.length_cons]
  exact Nat.lt_succ_of_le (dropLead_length_le _ _)

/-- Modelled from the spec: `openoa.utils.filters.unresponsive_flag` applied to
a column of cells; non-numeric data fails the check. -/
def unresponsive_flag (vals : List Value) (threshold : Nat) : Except String (List Bool) :=
  match allInts? vals with
  | some ns => Except.ok (unresponsiveRuns threshold ns)
  | none => Except.error "unresponsive check failed: non-numeric data"

/-- Values stored in a QA report. -/
inductive RVal where
  | rInt : Int → RVal
  | rBool : Bool → RVal
  | rStr : String → RVal
  | rStrList : List String → RVal
deriving DecidableEq

/-- A QA report: the Python dict, embedded as the association list of writes in
program order. -/
abbrev Report := List (String × RVal)

/-- Dict lookup: the LAST write to a key wins, as in a Python dict. -/
def rget (r : Report) (k : String) : Option RVal :=
  match r with
  | [] => none
  | (k', v) :: rest => (rget rest k).or (if k' = k then some v else none)

/-- One flag application: target column, the flagging function to try on it,
flag-column name, and the report keys used for its count and its error.  The
source's range-flag loop and unresponsive-flag loop share this body. -/
structure FlagSpec where
  col : String
  flagger : List Value → Except String (List Bool)
  fname : String
  countKey : String
  errKey : String

/-- The source's flagging loop: for each spec whose column is present, try the
flagger; on success assign the flag column, record the count of raised flags,
and remember the flag-column name; on failure record the error. -/
def flagFold (df : DataFrame) : List FlagSpec → DataFrame × Report × List String
  | [] => (df, [], [])
  | s :: rest =>
    if df.hasCol s.col then
      match s.flagger (colVals df s.col) with
      | Except.ok flags =>
        let r := flagFold (setCol df s.fname flags) rest
        (r.1, (s.countKey, RVal.rInt ((flags.countP (fun b => b)) : Int)) :: r.2.1,
          s.fname :: r.2.2)
      | Except.error e =>
        let r := flagFold df rest
        (r.1, (s.errKey, RVal.rStr e) :: r.2.1, r.2.2)
    else flagFold df rest

/-- Step 1 of each time-indexed refiner: try the datetime conversion and
record the outcome, keeping the unconverted frame on failure. -/
def convertFragment (df : DataFrame) (time_col : String) (local_tz : Int) :
    DataFrame × Report :=
  match convert_datetime_column df time_col local_tz with
  | Except.ok d => (d, [("datetime_converted", RVal.rBool true)])
  | Except.error e =>
    (df, [("datetime_converted", RVal.rBool false), ("datetime_error", RVal.rStr e)])

/-- Step 2 report entries: duplicate identification, sizes through `safe_int`,
or the captured error. -/
def dupFragment (df : DataFrame) (time_col id_col : String) : Report :=
  match duplicate_time_identification df time_col id_col with
  | Except.ok (d1, d2) =>
    [("duplicate_original_count", RVal.rInt (safe_int d1)),
     ("duplicate_utc_count", RVal.rInt (safe_int d2))]
  | Except.error e => [("duplicate_check_error", RVal.rStr e)]

/-- Step 3 report entries for SCADA: gap counts through `safe_int`, the list
of missing UTC timestamps when non-empty, or the captured error. -/
def gapFragmentScada (df : DataFrame) (time_col : String) (freq : Int) : Report :=
  match gap_time_identification df time_col freq with
  | Except.ok (g1, g2, stamps) =>
    [("time_gaps_original_count", RVal.rInt (safe_int g1)),
     ("time_gaps_utc_count", RVal.rInt (safe_int g2))] ++
    (if stamps.isEmpty then [] else [("time_gap_timestamps_utc", RVal.rStrList stamps)])
  | Except.error e => [("gap_check_error", RVal.rStr e)]

/-- Step 3 report entries for meter/curtailment/reanalysis: counts only. -/
def gapFragment (df : DataFrame) (time_col : String) (freq : Int) : Report :=
  match gap_time_identification df time_col freq with
  | Except.ok (g1, g2, _) =>
    [("time_gaps_original_count", RVal.rInt (safe_int g1)),
     ("time_gaps_utc_count", RVal.rInt (safe_int g2))]
  | Except.error e => [("gap_check_error", RVal.rStr e)]

/-- The SCADA range-flag table from the source: power, wind speed,
temperature. -/
def scadaRangeSpecs (power_col windspeed_col temp_col : String)
    (power_range windspeed_range temp_range : Int × Int) : List FlagSpec :=
  [⟨power_col, fun v => range_flag v power_range.1 power_range.2, "flag_power_range",
    "range_flag_flag_power_range_count", "range_flag_flag_power_range_error"⟩,
   ⟨windspeed_col, fun v => range_flag v windspeed_range.1 windspeed_range.2,
    "flag_windspeed_range",
    "range_flag_flag_windspeed_range_count", "range_flag_flag_windspeed_range_error"⟩,
   ⟨temp_col, fun v => range_flag v temp_range.1 temp_range.2, "flag_temp_range",
    "range_flag_flag_temp_range_count", "range_flag_flag_temp_range_error"⟩]

/-- The SCADA unresponsive-flag table from the source: power, wind speed. -/
def scadaUnrespSpecs (power_col windspeed_col : String) (threshold : Nat) : List FlagSpec :=
  [⟨power_col, fun v => unresponsive_flag v threshold, "flag_power_unresponsive",
    "unresponsive_flag_power_unresponsive_count",
    "unresponsive_flag_power_unresponsive_error"⟩,
   ⟨windspeed_col, fun v => unresponsive_flag v threshold, "flag_windspeed_unresponsive",
    "unresponsive_flag_windspeed_unresponsive_count",
    "unresponsive_flag_windspeed_unresponsive_error"⟩]

/-- `refine_scada` from the source: convert datetimes, identify duplicates,
drop duplicates keeping last, detect gaps, range-flag, unresponsive-flag,
then close the report with the flag-column list and the final row count. -/
def refine_scada (df0 : DataFrame) (local_tz : Int)
    (time_col id_col power_col windspeed_col temp_col : String)
    (freq : Int) (power_range windspeed_range temp_range : Int × Int)
    (unresponsive_threshold : Nat) : DataFrame × Report :=
  let s1 := convertFragment df0 time_col local_tz
  let repA := s1.2 ++ dupFragment s1.1 time_col id_col
  let dfd := drop_duplicates s1.1 time_col
  let repB := repA ++
    [("rows_dropped_duplicates",
      RVal.rInt ((s1.1.rows.length : Int) - (dfd.rows.length : Int)))]
  let repC := repB ++ gapFragmentScada dfd time_col freq
  let s4 := flagFold dfd
    (scadaRangeSpecs power_col windspeed_col temp_col power_range windspeed_range temp_range)
  let s5 := flagFold s4.1 (scadaUnrespSpecs power_col windspeed_col unresponsive_threshold)
  (s5.1, repC ++ s4.2.1 ++ s5.2.1 ++
    [("flag_columns_added", RVal.rStrList (s4.2.2 ++ s5.2.2)),
     ("final_row_count", RVal.rInt (s5.1.rows.length : Int))])

/-- The meter range-flag table from the source: one energy column. -/
def meterRangeSpecs (energy_col : String) (energy_range : Int × Int) : List FlagSpec :=
  [⟨energy_col, fun v => range_flag v energy_range.1 energy_range.2, "flag_energy_range",
    "range_flag_energy_count", "range_flag_energy_error"⟩]

/-- `refine_meter` from the source (duplicate identification passes the time
column as the id column). -/
def refine_meter (df0 : DataFrame) (local_tz : Int) (time_col energy_col : String)
    (freq : Int) (energy_range : Int × Int) : DataFrame × Report :=
  let s1 := convertFragment df0 time_col local_tz
  let repA := s1.2 ++ dupFragment s1.1 time_col time_col
  let dfd := drop_duplicates s1.1 time_col
  let repB := repA ++
    [("rows_dropped_duplicates",
      RVal.rInt ((s1.1.rows.length : Int) - (dfd.rows.length : Int)))]
  let repC := repB ++ gapFragment dfd time_col freq
  let s4 := flagFold dfd (meterRangeSpecs energy_col energy_range)
  (s4.1, repC ++ s4.2.1 ++ [("final_row_count", RVal.rInt (s4.1.rows.length : Int))])

/-- The curtailment range-flag table from the source. -/
def curtailRangeSpecs (avail_col curtail_col : String)
    (avail_range curtail_range : Int × Int) : List FlagSpec :=
  [⟨avail_col, fun v => range_flag v avail_range.1 avail_range.2, "flag_availability_range",
    "flag_availability_range_count", "flag_availability_range_error"⟩,
   ⟨curtail_col, fun v => range_flag v curtail_range.1 curtail_range.2,
    "flag_curtailment_range",
    "flag_curtailment_range_count", "flag_curtailment_range_error"⟩]

/-- `refine_curtail` from the source. -/
def refine_curtail (df0 : DataFrame) (local_tz : Int)
    (time_col avail_col curtail_col : String)
    (freq : Int) (avail_range curtail_range : Int × Int) : DataFrame × Report :=
  let s1 := convertFragment df0 time_col local_tz
  let repA := s1.2 ++ dupFragment s1.1 time_col time_col
  let dfd := drop_duplicates s1.1 time_col
  let repB := repA ++
    [("rows_dropped_duplicates",
      RVal.rInt ((s1.1.rows.length : Int) - (dfd.rows.length : Int)))]
  let repC := repB ++ gapFragment dfd time_col freq
  let s4 := flagFold dfd (curtailRangeSpecs avail_col curtail_col avail_range curtail_range)
  (s4.1, repC ++ s4.2.1 ++ [("final_row_count", RVal.rInt (s4.1.rows.length : Int))])

/-- The asset range-flag table from the source. -/
def assetRangeSpecs (lat_range lon_range rated_power_range : Int × Int) : List FlagSpec :=
  [⟨"latitude", fun v => range_flag v lat_range.1 lat_range.2, "flag_latitude_range",
    "flag_latitude_range_count", "flag_latitude_range_error"⟩,
   ⟨"longitude", fun v => range_flag v lon_range.1 lon_range.2, "flag_longitude_range",
    "flag_longitude_range_count", "flag_longitude_range_error"⟩,
   ⟨"rated_power", fun v => range_flag v rated_power_range.1 rated_power_range.2,
    "flag_rated_power_range",
    "flag_rated_power_range_count", "flag_rated_power_range_error"⟩]

/-- `refine_asset` from the source: no time dimension; count missing asset
identifiers when the column exists, then range-flag. -/
def refine_asset (df0 : DataFrame)
    (lat_range lon_range rated_power_range : Int × Int) : DataFrame × Report :=
  let repA := if df0.hasCol "asset_id" then
      [("missing_asset_id_count",
        RVal.rInt ((colVals df0 "asset_id").countP (fun v => decide (v = Value.vNA)) : Int))]
    else []
  let s4 := flagFold df0 (assetRangeSpecs lat_range lon_range rated_power_range)
  (s4.1, repA ++ s4.2.1 ++ [("final_row_count", RVal.rInt (s4.1.rows.length : Int))])

/-- The reanalysis range-flag table from the source. -/
def reanalysisRangeSpecs (windspeed_col winddir_col temp_col : String)
    (windspeed_range winddir_range temp_range : Int × Int) : List FlagSpec :=
  [⟨windspeed_col, fun v => range_flag v windspeed_range.1 windspeed_range.2,
    "flag_windspeed_range",
    "flag_windspeed_range_count", "flag_windspeed_range_error"⟩,
   ⟨winddir_col, fun v => range_flag v winddir_range.1 winddir_range.2, "flag_winddir_range",
    "flag_winddir_range_count", "flag_winddir_range_error"⟩,
   ⟨temp_col, fun v => range_flag v temp_range.1 temp_range.2, "flag_temp_range",
    "flag_temp_range_count", "flag_temp_range_error"⟩]

/-- The reanalysis unresponsive-flag table from the source: wind speed only. -/
def reanalysisUnrespSpecs (windspeed_col : String) (threshold : Nat) : List FlagSpec :=
  [⟨windspeed_col, fun v => unresponsive_flag v threshold, "flag_windspeed_unresponsive",
    "unresponsive_windspeed_count", "unresponsive_windspeed_error"⟩]

/-- `refine_reanalysis` from the source. -/
def refine_reanalysis (df0 : DataFrame) (product_name : String) (local_tz : Int)
    (time_col windspeed_col winddir_col temp_col : String) (freq : Int)
    (windspeed_range winddir_range temp_range : Int × Int)
    (unresponsive_threshold : Nat) : DataFrame × Report :=
  let s1 := convertFragment df0 time_col local_tz
  let repA := s1.2 ++ dupFragment s1.1 time_col time_col
  let dfd := drop_duplicates s1.1 time_col
  let repB := repA ++
    [("rows_dropped_duplicates",
      RVal.rInt ((s1.1.rows.length : Int) - (dfd.rows.length : Int)))]
  let repC := repB ++ gapFragment dfd time_col freq
  let s4 := flagFold dfd
    (reanalysisRangeSpecs windspeed_col winddir_col temp_col windspeed_range winddir_range temp_range)
  let s5 := flagFold s4.1 (reanalysisUnrespSpecs windspeed_col unresponsive_threshold)
  (s5.1, repC ++ s4.2.1 ++ s5.2.1 ++
    [("product", RVal.rStr product_name),
     ("final_row_count", RVal.rInt (s5.1.rows.length : Int))])

/-- A node of `refine_all`'s nested result dictionary: a cleaned dataframe, a
QA report, Python `None`, or a nested dictionary. -/
inductive RNode where
  | ndf : DataFrame → RNode
  | nrep : Report → RNode
  | nnull : RNode
  | nmap : List (String × RNode) → RNode

/-- Default range bounds from the source's keyword defaults. -/
def scadaPowerRange : Int × Int := (-20, 2200)

def scadaWindspeedRange : Int × Int := (0, 50)

def scadaTempRange : Int × Int := (-40, 50)

def meterEnergyRange : Int × Int := (-100, 10000000)

def curtailAvailRange : Int × Int := (0, 10000000)

def curtailCurtailRange : Int × Int := (0, 10000000)

def assetLatRange : Int × Int := (-90, 90)

def assetLonRange : Int × Int := (-180, 180)

def assetRatedPowerRange : Int × Int := (0, 10000000)

def reanalysisWindspeedRange : Int × Int := (0, 80)

def reanalysisWinddirRange : Int × Int := (0, 360)

def reanalysisTempRange : Int × Int := (200, 340)

/-- `refine_all` from the source: SCADA is required, the rest optional; each
present dataset runs through its refiner with the source's default bounds,
frequencies (10 minutes, 1 hour for reanalysis) and threshold 3; absent
optional datasets yield `None` in both result maps.  A reanalysis mapping
that is absent or empty yields an empty reanalysis sub-map. -/
def refine_all (scada_df : DataFrame) (local_tz : Int)
    (scada_time_col scada_id_col scada_power_col scada_windspeed_col scada_temp_col : String)
    (scada_freq : Int)
    (meter_df : Option DataFrame) (meter_time_col meter_energy_col : String)
    (curtail_df : Option DataFrame)
    (curtail_time_col curtail_avail_col curtail_curtail_col : String)
    (asset_df : Option DataFrame)
    (reanalysis_dfs : Option (List (String × Option DataFrame)))
    (reanalysis_time_col reanalysis_windspeed_col reanalysis_winddir_col
      reanalysis_temp_col : String) :
    List (String × RNode) :=
  let s := refine_scada scada_df local_tz scada_time_col scada_id_col scada_power_col
    scada_windspeed_col scada_temp_col scada_freq
    scadaPowerRange scadaWindspeedRange scadaTempRange 3
  let m : RNode × RNode :=
    match meter_df with
    | some d =>
      let r := refine_meter d local_tz meter_time_col meter_energy_col 10 meterEnergyRange
      (RNode.ndf r.1, RNode.nrep r.2)
    | none => (RNode.nnull, RNode.nnull)
  let c : RNode × RNode :=
    match curtail_df with
    | some d =>
      let r := refine_curtail d local_tz curtail_time_col curtail_avail_col
        curtail_curtail_col 10 curtailAvailRange curtailCurtailRange
      (RNode.ndf r.1, RNode.nrep r.2)
    | none => (RNode.nnull, RNode.nnull)
  let a : RNode × RNode :=
    match asset_df with
    | some d =>
      let r := refine_asset d assetLatRange assetLonRange assetRatedPowerRange
      (RNode.ndf r.1, RNode.nrep r.2)
    | none => (RNode.nnull, RNode.nnull)
  let re := (reanalysis_dfs.getD []).map (fun p =>
    match p.2 with
    | some d =>
      let r := refine_reanalysis d p.1 local_tz reanalysis_time_col
        reanalysis_windspeed_col reanalysis_winddir_col reanalysis_temp_col 60
        reanalysisWindspeedRange reanalysisWinddirRange reanalysisTempRange 3
      ((p.1, RNode.ndf r.1), (p.1, RNode.nrep r.2))
    | none => ((p.1, RNode.nnull), (p.1, RNode.nnull)))
  [("dataframes", RNode.nmap
     [("scada", RNode.ndf s.1), ("meter", m.1), ("curtail", c.1), ("asset", a.1),
      ("reanalysis", RNode.nmap (re.map (fun q => q.1)))]),
   ("qa_report", RNode.nmap
     [("scada", RNode.nrep s.2), ("meter", m.2), ("curtail", c.2), ("asset", a.2),
      ("reanalysis", RNode.nmap (re.map (fun q => q.2)))])]

/-! ### Basic lemmas about column lookup and report lookup -/

theorem idxOf?_eq_none_iff (c : String) (l : List String) :
    idxOf? c l = none ↔ c ∉ l := by
  induction l with
  | nil => simp [idxOf?]
  | cons h t ih =>
    by_cases hc : h = c
    · simp [idxOf?, hc]
    · simp only [idxOf?, if_neg hc, Option.map_eq_none', List.mem_cons, ih]
      constructor
      · intro hn hor
        rcases hor with hor | hor
        · exact hc hor.symm
        · exact hn hor
      · intro hn
        exact fun hmem => hn (Or.inr hmem)

theorem idxOf?_isSome_iff (c : String) (l : List String) :
    (idxOf? c l).isSome ↔ c ∈ l := by
  rw [Option.isSome_iff_ne_none]
  constructor
  · intro hne
    by_contra hmem
    exact hne ((idxOf?_eq_none_iff c l).mpr hmem)
  · intro hmem hn
    exact ((idxOf?_eq_none_iff c l).mp hn) hmem

theorem idxOf?_bound {c : String} {l : List String} {i : Nat}
    (h : idxOf? c l = some i) : i < l.length := by
  induction l generalizing i with
  | nil => simp [idxOf?] at h
  | cons x t ih =>
    by_cases hc : x = c
    · simp only [idxOf?, if_pos hc, Option.some_inj] at h
      simp [← h]
    · simp only [idxOf?, if_neg hc, Option.map_eq_some'] at h
      obtain ⟨j, hj, rfl⟩ := h
      have := ih hj
      simp only [List.length_cons]
      omega

theorem idxOf?_getElem {c : String} {l : List String} {i : Nat}
    (h : idxOf? c l = some i) : l[i]? = some c := by
  induction l generalizing i with
  | nil => simp [idxOf?] at h
  | cons x t ih =>
    by_cases hc : x = c
    · simp only [idxOf?, if_pos hc, Option.some_inj] at h
      simp [← h, hc]
    · simp only [idxOf?, if_neg hc, Option.map_eq_some'] at h
      obtain ⟨j, hj, rfl⟩ := h
      simpa using ih hj

theorem idxOf?_append_of_mem {c : String} {l₁ : List String} (l₂ : List String)
    (h : c ∈ l₁) : idxOf? c (l₁ ++ l₂) = idxOf? c l₁ := by
  induction l₁ with
  | nil => simp at h
  | cons x t ih =>
    by_cases hc : x = c
    · simp [idxOf?, hc]
    · have hmem : c ∈ t := by
        rcases List.mem_cons.mp h with hh | hh
        · exact absurd hh.symm hc
        · exact hh
      simp [idxOf?, hc, ih hmem]

theorem idxOf?_append_of_not_mem {c : String} {l₁ : List String} (l₂ : List String)
    (h : c ∉ l₁) : idxOf? c (l₁ ++ l₂) = (idxOf? c l₂).map (· + l₁.length) := by
  induction l₁ with
  | nil => simp
  | cons x t ih =>
    have hc : x ≠ c := fun hx => h (by simp [hx])
    have hmem : c ∉ t := fun hm => h (List.mem_cons_of_mem _ hm)
    simp only [List.cons_append, idxOf?, List.append_eq, if_neg hc, ih hmem]
    cases idxOf? c l₂ with
    | none => rfl
    | some j =>
      simp only [Option.map_some', Option.some_inj, List.length_cons]
      omega

theorem rget_append (r₁ r₂ : Report) (k : String) :
    rget (r₁ ++ r₂) k = (rget r₂ k).or (rget r₁ k) := by
  induction r₁ with
  | nil => simp [rget]
  | cons p r ih =>
    obtain ⟨k', v⟩ := p
    simp only [List.cons_append, rget, List.append_eq, ih, Option.or_assoc]

theorem rget_of_forall_ne {r : Report} {k : String} (h : ∀ p ∈ r, p.1 ≠ k) :
    rget r k = none := by
  induction r with
  | nil => rfl
  | cons p rest ih =>
    obtain ⟨k', v⟩ := p
    have hrest : rget rest k = none := ih (fun q hq => h q (List.mem_cons_of_mem _ hq))
    have hk : k' ≠ k := h (k', v) (List.mem_cons_self _ _)
    simp [rget, hrest, hk]

/-! ### Duplicate-resolution lemmas -/

theorem not_any_key_of_not_mem {α β : Type} [DecidableEq β] {key : α → β} {x : α}
    {xs : List α} (h : key x ∉ xs.map key) :
    xs.any (fun y => decide (key y = key x)) = false := by
  rw [List.any_eq_false]
  intro y hy
  simp only [decide_eq_true_eq]
  intro hk
  exact h (List.mem_map.mpr ⟨y, hy, hk⟩)

theorem any_key_of_mem {α β : Type} [DecidableEq β] {key : α → β} {x y : α} {xs : List α}
    (hy : y ∈ xs) (hk : key y = key x) :
    xs.any (fun z => decide (key z = key x)) = true :=
  List.any_eq_true.mpr ⟨y, hy, by simp [hk]⟩

theorem dropDupKeepLast_sublist {α β : Type} [DecidableEq β] (key : α → β) (l : List α) :
    (dropDupKeepLast key l).Sublist l := by
  induction l with
  | nil => simp [dropDupKeepLast]
  | cons x xs ih =>
    by_cases h : xs.any (fun y => decide (key y = key x)) = true
    · simp only [dropDupKeepLast, if_pos h]
      exact ih.cons _
    · simp only [dropDupKeepLast, if_neg h]
      exact ih.cons₂ _

theorem dropDupKeepLast_map_key_nodup {α β : Type} [DecidableEq β] (key : α → β)
    (l : List α) : ((dropDupKeepLast key l).map key).Nodup := by
  induction l with
  | nil => simp [dropDupKeepLast]
  | cons x xs ih =>
    by_cases h : xs.any (fun y => decide (key y = key x)) = true
    · simpa only [dropDupKeepLast, if_pos h] using ih
    · simp only [dropDupKeepLast, if_neg h, List.map_cons, List.nodup_cons]
      refine ⟨?_, ih⟩
      intro hmem
      obtain ⟨y, hy, hkey⟩ := List.mem_map.mp hmem
      have hyxs : y ∈ xs := (dropDupKeepLast_sublist key xs).mem hy
      exact h (any_key_of_mem hyxs hkey)

theorem dropDupKeepLast_of_nodup {α β : Type} [DecidableEq β] {key : α → β} {l : List α}
    (h : (l.map key).Nodup) : dropDupKeepLast key l = l := by
  induction l with
  | nil => rfl
  | cons x xs ih =>
    simp only [List.map_cons, List.nodup_cons] at h
    have hany := not_any_key_of_not_mem h.1
    simp only [dropDupKeepLast, hany, Bool.false_eq_true, if_false, ih h.2]

theorem countDupBy_eq_zero_of_nodup {α β : Type} [DecidableEq β] {key : α → β}
    {l : List α} (h : (l.map key).Nodup) : countDupBy key l = 0 := by
  induction l with
  | nil => rfl
  | cons x xs ih =>
    simp only [List.map_cons, List.nodup_cons] at h
    have hany := not_any_key_of_not_mem h.1
    simp only [countDupBy, hany, Bool.false_eq_true, if_false, ih h.2]

theorem dropDupKeepLast_filter {α β : Type} [DecidableEq β] (key : α → β) (l : List α)
    (k : β) :
    (dropDupKeepLast key l).filter (fun x => decide (key x = k)) =
      ((l.filter (fun x => decide (key x = k))).getLast?).toList := by
  induction l with
  | nil => rfl
  | cons x xs ih =>
    by_cases h : xs.any (fun y => decide (key y = key x)) = true
    · obtain ⟨y, hy, hky⟩ := List.any_eq_true.mp h
      rw [decide_eq_true_eq] at hky
      simp only [dropDupKeepLast, if_pos h, ih, List.filter_cons]
      by_cases hk : key x = k
      · simp only [hk, decide_eq_true_eq, if_pos rfl]
        have hne : xs.filter (fun z => decide (key z = k)) ≠ [] := by
          intro hnil
          have := List.filter_eq_nil_iff.mp hnil y hy
          simp [hky, hk] at this
        cases hfe : xs.filter (fun z => decide (key z = k)) with
        | nil => exact absurd hfe hne
        | cons z zs => simp [List.getLast?_cons_cons]
      · simp [hk]
    · simp only [dropDupKeepLast, if_neg h, List.filter_cons, ih]
      by_cases hk : key x = k
      · have hfe : xs.filter (fun z => decide (key z = k)) = [] := by
          rw [List.filter_eq_nil_iff]
          intro z hz
          simp only [decide_eq_true_eq]
          intro hkz
          exact h (any_key_of_mem hz (hkz.trans hk.symm))
        have hfe' : (dropDupKeepLast key xs).filter (fun z => decide (key z = k)) = [] := by
          rw [ih, hfe]
          rfl
        simp [hk, hfe, hfe']
      · simp [hk]

/-! ### Numeric-column lemmas -/

theorem allInts?_length : ∀ {vs : List Value} {ns : List Int},
    allInts? vs = some ns → ns.length = vs.length := by
  intro vs
  induction vs with
  | nil =>
    intro ns h
    cases h
    rfl
  | cons v vs ih =>
    intro ns h
    unfold allInts? at h
    split at h
    · cases h
      simp only [List.length_cons]
      next hv hvs => rw [ih hvs]
    · cases h

theorem allInts?_getElem : ∀ {vs : List Value} {ns : List Int},
    allInts? vs = some ns → ∀ i : Nat, (vs[i]?).bind asInt? = ns[i]? := by
  intro vs
  induction vs with
  | nil =>
    intro ns h i
    cases h
    simp
  | cons v vs ih =>
    intro ns h i
    unfold allInts? at h
    split at h
    · cases h
      next n ns' hv hvs =>
        cases i with
        | zero => simpa using hv
        | succ j => simpa using ih hvs j
    · cases h

/-- A flagger that, when it succeeds, returns one flag per input cell. -/
def LengthPreserving (F : List Value → Except String (List Bool)) : Prop :=
  ∀ vals flags, F vals = Except.ok flags → flags.length = vals.length

theorem range_flag_lengthPreserving (lower upper : Int) :
    LengthPreserving (fun v => range_flag v lower upper) := by
  intro vals flags h
  replace h : range_flag vals lower upper = Except.ok flags := h
  unfold range_flag at h
  split at h
  · cases h
    next ns hns => simp [allInts?_length hns]
  · cases h

/-! ### Run-length lemmas -/

theorem leadCount_le {α : Type} [DecidableEq α] (v : α) (l : List α) :
    leadCount v l ≤ l.length := by
  induction l with
  | nil => simp [leadCount]
  | cons w ws ih =>
    by_cases h : w = v
    · simp only [leadCount, if_pos h, List.length_cons]
      omega
    · simp [leadCount, h]

theorem replicate_leadCount_append {α : Type} [DecidableEq α] (v : α) (l : List α) :
    List.replicate (leadCount v l) v ++ dropLead v l = l := by
  induction l with
  | nil => rfl
  | cons w ws ih =>
    by_cases h : w = v
    · simp only [leadCount, dropLead, if_pos h, List.replicate_succ, List.cons_append]
      rw [ih, h]
    · simp [leadCount, dropLead, h]

theorem leadCount_add_dropLead_length {α : Type} [DecidableEq α] (v : α) (l : List α) :
    leadCount v l + (dropLead v l).length = l.length := by
  conv_rhs => rw [← replicate_leadCount_append v l]
  simp [List.length_append]

theorem unresponsiveRuns_length_aux {α : Type} [DecidableEq α] (t : Nat) :
    ∀ n (l : List α), l.length ≤ n → (unresponsiveRuns t l).length = l.length := by
  intro n
  induction n with
  | zero =>
    intro l hl
    cases l with
    | nil => simp [unresponsiveRuns]
    | cons v vs => simp at hl
  | succ n ih =>
    intro l hl
    cases l with
    | nil => simp [unresponsiveRuns]
    | cons v vs =>
      have hlen : (dropLead v vs).length ≤ n := by
        have h1 := dropLead_length_le v vs
        simp only [List.length_cons] at hl
        omega
      have hsum := leadCount_add_dropLead_length v vs
      simp only [unresponsiveRuns, List.length_append, List.length_replicate, ih _ hlen,
        List.length_cons]
      omega

theorem unresponsiveRuns_length {α : Type} [DecidableEq α] (t : Nat) (l : List α) :
    (unresponsiveRuns t l).length = l.length :=
  unresponsiveRuns_length_aux t l.length l (Nat.le_refl _)

theorem unresponsive_flag_lengthPreserving (t : Nat) :
    LengthPreserving (fun v => unresponsive_flag v t) := by
  intro vals flags h
  replace h : unresponsive_flag vals t = Except.ok flags := h
  unfold unresponsive_flag at h
  split at h
  · cases h
    next ns hns => simp [unresponsiveRuns_length, allInts?_length hns]
  · cases h

/-! ### Conversion-step lemmas -/

theorem convert_ok_spec {df df' : DataFrame} {tc : String} {tz : Int}
    (h : convert_datetime_column df tc tz = Except.ok df') :
    ∃ i, idxOf? tc df.header = some i ∧ df'.header = df.header ∧
      df'.rows = df.rows.map (fun r =>
        r.set i (Value.vInt ((asInt? (r.getD i Value.vNA)).getD 0 - tz))) ∧
      df.rows.all (fun r => (asInt? (r.getD i Value.vNA)).isSome) = true := by
  unfold convert_datetime_column at h
  split at h
  · cases h
  · next i hidx =>
    split at h
    · next hall =>
      cases h
      exact ⟨i, hidx, rfl, rfl, hall⟩
    · cases h

theorem convertFragment_header (df : DataFrame) (tc : String) (tz : Int) :
    (convertFragment df tc tz).1.header = df.header := by
  unfold convertFragment
  cases hc : convert_datetime_column df tc tz with
  | ok d => exact (convert_ok_spec hc).choose_spec.2.1
  | error e => rfl

theorem convertFragment_rows_length (df : DataFrame) (tc : String) (tz : Int) :
    (convertFragment df tc tz).1.rows.length = df.rows.length := by
  unfold convertFragment
  cases hc : convert_datetime_column df tc tz with
  | ok d =>
    obtain ⟨i, _, _, hrows, _⟩ := convert_ok_spec hc
    simp [hrows]
  | error e => rfl

theorem convertFragment_WF {df : DataFrame} (tc : String) (tz : Int) (hwf : WF df) :
    WF (convertFragment df tc tz).1 := by
  unfold convertFragment
  cases hc : convert_datetime_column df tc tz with
  | ok d =>
    obtain ⟨i, _, hhead, hrows, _⟩ := convert_ok_spec hc
    intro r hr
    rw [hhead, hrows] at *
    obtain ⟨r0, hr0, rfl⟩ := List.mem_map.mp hr
    simp [hwf r0 hr0]
  | error e => exact hwf

/-! ### Dedup-step lemmas -/

theorem drop_duplicates_header (df : DataFrame) (tc : String) :
    (drop_duplicates df tc).header = df.header := by
  unfold drop_duplicates
  cases idxOf? tc df.header <;> rfl

theorem drop_duplicates_sublist (df : DataFrame) (tc : String) :
    (drop_duplicates df tc).rows.Sublist df.rows := by
  unfold drop_duplicates
  cases idxOf? tc df.header with
  | none => exact List.Sublist.refl _
  | some i => exact dropDupKeepLast_sublist _ _

theorem drop_duplicates_WF {df : DataFrame} (tc : String) (hwf : WF df) :
    WF (drop_duplicates df tc) := by
  intro r hr
  rw [drop_duplicates_header]
  exact hwf r ((drop_duplicates_sublist df tc).mem hr)

/-! ### Column-level lemmas -/

theorem colVals_of_idx {df : DataFrame} {c : String} {i : Nat}
    (h : idxOf? c df.header = some i) :
    colVals df c = df.rows.map (fun r => r.getD i Value.vNA) := by
  unfold colVals
  rw [h]

theorem colVals_length {df : DataFrame} {c : String} (h : df.hasCol c = true) :
    (colVals df c).length = df.rows.length := by
  unfold DataFrame.hasCol at h
  cases hidx : idxOf? c df.header with
  | none =>
    rw [hidx] at h
    simp at h
  | some i =>
    rw [colVals_of_idx hidx]
    simp

theorem setCol_fresh_header {df : DataFrame} {c : String} (flags : List Bool)
    (hc : c ∉ df.header) :
    (setCol df c flags).header = df.header ++ [c] := by
  unfold setCol
  rw [(idxOf?_eq_none_iff c df.header).mpr hc]

theorem setCol_fresh_rows {df : DataFrame} {c : String} (flags : List Bool)
    (hc : c ∉ df.header) :
    (setCol df c flags).rows = df.rows.zipWith (fun r b => r ++ [Value.vBool b]) flags := by
  unfold setCol
  rw [(idxOf?_eq_none_iff c df.header).mpr hc]

theorem zipWith_append_map_take {n : Nat} : ∀ (rows : List Row) (flags : List Bool),
    flags.length = rows.length → (∀ r ∈ rows, n ≤ r.length) →
    (rows.zipWith (fun r b => r ++ [Value.vBool b]) flags).map (fun r => r.take n) =
      rows.map (fun r => r.take n) := by
  intro rows
  induction rows with
  | nil =>
    intro flags _ _
    simp
  | cons r rs ih =>
    intro flags hlen hr
    cases flags with
    | nil => simp at hlen
    | cons b bs =>
      simp only [List.zipWith_cons_cons, List.map_cons]
      rw [ih bs (by simpa using hlen) (fun q hq => hr q (List.mem_cons_of_mem _ hq))]
      congr 1
      exact List.take_append_of_le_length (hr r (List.mem_cons_self _ _))

theorem zipWith_append_WF {n : Nat} : ∀ (rows : List Row) (flags : List Bool),
    (∀ r ∈ rows, r.length = n) →
    ∀ q ∈ rows.zipWith (fun r b => r ++ [Value.vBool b]) flags, q.length = n + 1 := by
  intro rows
  induction rows with
  | nil =>
    intro flags _ q hq
    simp at hq
  | cons r rs ih =>
    intro flags hr q hq
    cases flags with
    | nil => simp at hq
    | cons b bs =>
      simp only [List.zipWith_cons_cons, List.mem_cons] at hq
      rcases hq with hq | hq
      · subst hq
        simp [hr r (List.mem_cons_self _ _)]
      · exact ih bs (fun p hp => hr p (List.mem_cons_of_mem _ hp)) q hq

theorem zipWith_append_length : ∀ (rows : List Row) (flags : List Bool),
    flags.length = rows.length →
    (rows.zipWith (fun r b => r ++ [Value.vBool b]) flags).length = rows.length := by
  intro rows
  induction rows with
  | nil =>
    intro flags _
    simp
  | cons r rs ih =>
    intro flags hlen
    cases flags with
    | nil => simp at hlen
    | cons b bs => simp [ih bs (by simpa using hlen)]

theorem zipWith_append_getD {n : Nat} : ∀ (rows : List Row) (flags : List Bool),
    (∀ r ∈ rows, r.length = n) →
    (rows.zipWith (fun r b => r ++ [Value.vBool b]) flags).map
      (fun q => q.getD n Value.vNA) = (flags.take rows.length).map Value.vBool := by
  intro rows
  induction rows with
  | nil =>
    intro flags _
    simp
  | cons r rs ih =>
    intro flags hr
    cases flags with
    | nil => simp
    | cons b bs =>
      have hrn : r.length = n := hr r (List.mem_cons_self _ _)
      simp only [List.zipWith_cons_cons, List.map_cons, List.length_cons, List.take_succ_cons]
      rw [ih bs (fun q hq => hr q (List.mem_cons_of_mem _ hq))]
      congr 1
      rw [List.getD_eq_getElem?_getD, List.getElem?_append_right hrn.le, hrn]
      simp

/-- Every cell at column position `n` or beyond is a boolean flag cell. -/
def BoolsBeyond (n : Nat) (df : DataFrame) : Prop :=
  ∀ r ∈ df.rows, ∀ m, n ≤ m → ∀ v, r[m]? = some v → ∃ b, v = Value.vBool b

theorem boolsBeyond_of_WF {df : DataFrame} (hwf : WF df) :
    BoolsBeyond df.header.length df := by
  intro r hr m hm v hv
  have hlen := hwf r hr
  have : r[m]? = none := List.getElem?_eq_none (by omega)
  rw [this] at hv
  cases hv

theorem zipWith_append_boolsBeyond {n : Nat} : ∀ (rows : List Row) (flags : List Bool),
    (∀ r ∈ rows, ∀ m, n ≤ m → ∀ v, r[m]? = some v → ∃ b, v = Value.vBool b) →
    ∀ q ∈ rows.zipWith (fun r b => r ++ [Value.vBool b]) flags,
      ∀ m, n ≤ m → ∀ v, q[m]? = some v → ∃ b, v = Value.vBool b := by
  intro rows
  induction rows with
  | nil =>
    intro flags _ q hq
    simp at hq
  | cons r rs ih =>
    intro flags hB q hq m hm v hv
    cases flags with
    | nil => simp at hq
    | cons b bs =>
      simp only [List.zipWith_cons_cons, List.mem_cons] at hq
      rcases hq with hq | hq
      · subst hq
        by_cases hlt : m < r.length
        · rw [List.getElem?_append_left hlt] at hv
          exact hB r (List.mem_cons_self _ _) m hm v hv
        · push_neg at hlt
          rw [List.getElem?_append_right hlt] at hv
          cases hmr : m - r.length with
          | zero =>
            rw [hmr] at hv
            simp only [List.getElem?_cons_zero, Option.some_inj] at hv
            exact ⟨b, hv.symm⟩
          | succ k =>
            rw [hmr] at hv
            simp at hv
      · exact ih bs (fun p hp => hB p (List.mem_cons_of_mem _ hp)) q hq m hm v hv

/-! ### Equation lemmas for the flagging fold -/

theorem flagFold_nil (df : DataFrame) : flagFold df [] = (df, [], []) := rfl

theorem flagFold_cons_ok {df : DataFrame} {s : FlagSpec} {rest : List FlagSpec}
    {flags : List Bool} (hc : df.hasCol s.col = true)
    (hfl : s.flagger (colVals df s.col) = Except.ok flags) :
    flagFold df (s :: rest) =
      ((flagFold (setCol df s.fname flags) rest).1,
       (s.countKey, RVal.rInt ((flags.countP (fun b => b)) : Int)) ::
         (flagFold (setCol df s.fname flags) rest).2.1,
       s.fname :: (flagFold (setCol df s.fname flags) rest).2.2) := by
  conv_lhs => unfold flagFold
  rw [if_pos hc, hfl]

theorem flagFold_cons_error {df : DataFrame} {s : FlagSpec} {rest : List FlagSpec}
    {e : String} (hc : df.hasCol s.col = true)
    (hfl : s.flagger (colVals df s.col) = Except.error e) :
    flagFold df (s :: rest) =
      ((flagFold df rest).1, (s.errKey, RVal.rStr e) :: (flagFold df rest).2.1,
       (flagFold df rest).2.2) := by
  conv_lhs => unfold flagFold
  rw [if_pos hc, hfl]

theorem flagFold_cons_absent {df : DataFrame} {s : FlagSpec} {rest : List FlagSpec}
    (hc : ¬ df.hasCol s.col = true) :
    flagFold df (s :: rest) = flagFold df rest := by
  conv_lhs => unfold flagFold
  rw [if_neg hc]

theorem flagFold_keys : ∀ (specs : List FlagSpec) (df : DataFrame),
    ∀ p ∈ (flagFold df specs).2.1, ∃ s ∈ specs, p.1 = s.countKey ∨ p.1 = s.errKey := by
  intro specs
  induction specs with
  | nil =>
    intro df p hp
    rw [flagFold_nil] at hp
    simp at hp
  | cons s rest ih =>
    intro df p hp
    by_cases hc : df.hasCol s.col = true
    · cases hfl : s.flagger (colVals df s.col) with
      | ok flags =>
        rw [flagFold_cons_ok hc hfl] at hp
        simp only [List.mem_cons] at hp
        rcases hp with rfl | hp
        · exact ⟨s, List.mem_cons_self _ _, Or.inl rfl⟩
        · obtain ⟨t, ht, hk⟩ := ih _ p hp
          exact ⟨t, List.mem_cons_of_mem _ ht, hk⟩
      | error e =>
        rw [flagFold_cons_error hc hfl] at hp
        simp only [List.mem_cons] at hp
        rcases hp with rfl | hp
        · exact ⟨s, List.mem_cons_self _ _, Or.inr rfl⟩
        · obtain ⟨t, ht, hk⟩ := ih _ p hp
          exact ⟨t, List.mem_cons_of_mem _ ht, hk⟩
    · rw [flagFold_cons_absent hc] at hp
      obtain ⟨t, ht, hk⟩ := ih df p hp
      exact ⟨t, List.mem_cons_of_mem _ ht, hk⟩

/-! ### Structure of the flagging fold -/

theorem flagFold_struct : ∀ (specs : List FlagSpec) (df : DataFrame) (n : Nat),
    WF df → n ≤ df.header.length →
    (∀ s ∈ specs, s.fname ∉ df.header) →
    (specs.map FlagSpec.fname).Nodup →
    (∀ s ∈ specs, LengthPreserving s.flagger) →
    BoolsBeyond n df →
    (flagFold df specs).1.header = df.header ++ (flagFold df specs).2.2 ∧
    (flagFold df specs).1.rows.map (fun r => r.take n) = df.rows.map (fun r => r.take n) ∧
    WF (flagFold df specs).1 ∧
    BoolsBeyond n (flagFold df specs).1 ∧
    (flagFold df specs).1.rows.length = df.rows.length := by
  intro specs
  induction specs with
  | nil =>
    intro df n hwf hn hfresh hdist hlp hB
    rw [flagFold_nil]
    exact ⟨by simp, rfl, hwf, hB, rfl⟩
  | cons s rest ih =>
    intro df n hwf hn hfresh hdist hlp hB
    have hfl_rest : ∀ t ∈ rest, t.fname ∉ df.header :=
      fun t ht => hfresh t (List.mem_cons_of_mem _ ht)
    have hdist_rest : (rest.map FlagSpec.fname).Nodup := (List.nodup_cons.mp hdist).2
    have hlp_rest : ∀ t ∈ rest, LengthPreserving t.flagger :=
      fun t ht => hlp t (List.mem_cons_of_mem _ ht)
    by_cases hc : df.hasCol s.col = true
    · cases hfl : s.flagger (colVals df s.col) with
      | error e =>
        rw [flagFold_cons_error hc hfl]
        exact ih df n hwf hn hfl_rest hdist_rest hlp_rest hB
      | ok flags =>
        have hflen : flags.length = df.rows.length := by
          rw [hlp s (List.mem_cons_self _ _) _ _ hfl, colVals_length hc]
        have hfname : s.fname ∉ df.header := hfresh s (List.mem_cons_self _ _)
        have hhead' := setCol_fresh_header flags hfname
        have hrows' := setCol_fresh_rows flags hfname
        have hwf' : WF (setCol df s.fname flags) := by
          intro q hq
          rw [hhead', hrows'] at *
          have := @zipWith_append_WF df.header.length df.rows flags
            (fun r hr => hwf r hr) q hq
          simp [this]
        have hn' : n ≤ (setCol df s.fname flags).header.length := by
          rw [hhead']
          simp only [List.length_append, List.length_cons, List.length_nil]
          omega
        have hfresh' : ∀ t ∈ rest, t.fname ∉ (setCol df s.fname flags).header := by
          intro t ht
          rw [hhead']
          simp only [List.mem_append, List.mem_cons, List.not_mem_nil]
          rintro (hmem | heq | hfalse)
          · exact hfl_rest t ht hmem
          · exact (List.nodup_cons.mp hdist).1 (heq ▸ List.mem_map_of_mem FlagSpec.fname ht)
          · exact hfalse
        have hB' : BoolsBeyond n (setCol df s.fname flags) := by
          intro q hq
          rw [hrows'] at hq
          exact zipWith_append_boolsBeyond df.rows flags hB q hq
        obtain ⟨h1, h2, h3, h4, h5⟩ :=
          ih (setCol df s.fname flags) n hwf' hn' hfresh' hdist_rest hlp_rest hB'
        rw [flagFold_cons_ok hc hfl]
        refine ⟨?_, ?_, h3, h4, ?_⟩
        · rw [h1, hhead']
          simp
        · rw [h2, hrows']
          exact zipWith_append_map_take df.rows flags hflen
            (fun r hr => le_trans hn (le_of_eq (hwf r hr).symm))
        · rw [h5, hrows']
          exact zipWith_append_length df.rows flags hflen
    · rw [flagFold_cons_absent hc]
      exact ih df n hwf hn hfl_rest hdist_rest hlp_rest hB

/-- A frame extension preserves the values of the original columns. -/
theorem colVals_eq_of_proj {df df' : DataFrame} {ext : List String}
    (hhead : df'.header = df.header ++ ext)
    (hproj : df'.rows.map (fun r => r.take df.header.length) =
      df.rows.map (fun r => r.take df.header.length))
    {c : String} (hc : c ∈ df.header) :
    colVals df' c = colVals df c := by
  have hidx : (idxOf? c df.header).isSome := (idxOf?_isSome_iff c df.header).mpr hc
  cases hidx0 : idxOf? c df.header with
  | none =>
    rw [hidx0] at hidx
    simp at hidx
  | some i =>
    have hi : i < df.header.length := idxOf?_bound hidx0
    have hidx' : idxOf? c df'.header = some i := by
      rw [hhead, idxOf?_append_of_mem ext hc, hidx0]
    rw [colVals_of_idx hidx0, colVals_of_idx hidx']
    have hgetD : ∀ (r : Row), r.getD i Value.vNA = (r.take df.header.length).getD i Value.vNA := by
      intro r
      rw [List.getD_eq_getElem?_getD, List.getD_eq_getElem?_getD,
        List.getElem?_take_of_lt hi]
    calc df'.rows.map (fun r => r.getD i Value.vNA)
        = df'.rows.map ((fun r => List.getD r i Value.vNA) ∘ (fun r => r.take df.header.length)) := by
          apply List.map_congr_left
          intro r _
          exact hgetD r
      _ = (df'.rows.map (fun r => r.take df.header.length)).map
            (fun r => List.getD r i Value.vNA) := by rw [List.map_map]
      _ = (df.rows.map (fun r => r.take df.header.length)).map
            (fun r => List.getD r i Value.vNA) := by rw [hproj]
      _ = df.rows.map ((fun r => List.getD r i Value.vNA) ∘ (fun r => r.take df.header.length)) := by
          rw [List.map_map]
      _ = df.rows.map (fun r => r.getD i Value.vNA) := by
          apply List.map_congr_left
          intro r _
          exact (hgetD r).symm

theorem colVals_setCol_fresh {df : DataFrame} {c : String} {flags : List Bool}
    (hc : c ∉ df.header) (hwf : WF df) (hlen : flags.length = df.rows.length) :
    colVals (setCol df c flags) c = flags.map Value.vBool := by
  have hhead := setCol_fresh_header flags hc
  have hrows := setCol_fresh_rows flags hc
  have hidx : idxOf? c (setCol df c flags).header = some df.header.length := by
    rw [hhead, idxOf?_append_of_not_mem _ hc]
    simp [idxOf?]
  rw [colVals_of_idx hidx, hrows,
    zipWith_append_getD df.rows flags (fun r hr => hwf r hr), ← hlen, List.take_length]

theorem countP_vBool_map (flags : List Bool) :
    (flags.map Value.vBool).countP (fun v => decide (v = Value.vBool true)) =
      flags.countP (fun b => b) := by
  induction flags with
  | nil => rfl
  | cons b bs ih =>
    cases b <;> simp [List.countP_cons, ih]

/-- Distinctness bookkeeping for the report keys of a flagging table. -/
theorem flagKeyFacts {t : FlagSpec} {rest : List FlagSpec}
    (hkeys : (((t :: rest).map FlagSpec.countKey) ++
      ((t :: rest).map FlagSpec.errKey)).Nodup) :
    (∀ u ∈ rest, t.countKey ≠ u.countKey) ∧
    (∀ u ∈ t :: rest, t.countKey ≠ u.errKey) ∧
    (∀ u ∈ rest, u.countKey ≠ t.errKey) ∧
    ((rest.map FlagSpec.countKey) ++ (rest.map FlagSpec.errKey)).Nodup := by
  rw [List.nodup_append] at hkeys
  obtain ⟨hcn, hen, hdisj⟩ := hkeys
  simp only [List.map_cons, List.nodup_cons] at hcn hen
  refine ⟨?_, ?_, ?_, ?_⟩
  · intro u hu he
    exact hcn.1 (he ▸ List.mem_map_of_mem FlagSpec.countKey hu)
  · intro u hu he
    exact hdisj (List.mem_cons_self _ _) (he ▸ List.mem_map_of_mem FlagSpec.errKey hu)
  · intro u hu he
    exact hdisj (List.mem_cons_of_mem _ (List.mem_map_of_mem FlagSpec.countKey hu))
      (he ▸ List.mem_cons_self _ _)
  · rw [List.nodup_append]
    refine ⟨hcn.2, hen.2, ?_⟩
    intro a ha hb
    exact hdisj (List.mem_cons_of_mem _ ha) (List.mem_cons_of_mem _ hb)

/-- After the flagging fold, a recorded count is the number of `true` cells in
the corresponding flag column of the resulting frame. -/
theorem flagFold_count : ∀ (specs : List FlagSpec) (df : DataFrame),
    WF df →
    (∀ s ∈ specs, s.fname ∉ df.header) →
    (specs.map FlagSpec.fname).Nodup →
    ((specs.map FlagSpec.countKey) ++ (specs.map FlagSpec.errKey)).Nodup →
    (∀ s ∈ specs, LengthPreserving s.flagger) →
    ∀ s ∈ specs, ∀ z : Int,
      rget (flagFold df specs).2.1 s.countKey = some (RVal.rInt z) →
      s.fname ∈ (flagFold df specs).1.header ∧
      ((colVals (flagFold df specs).1 s.fname).countP
        (fun v => decide (v = Value.vBool true)) : Int) = z := by
  intro specs
  induction specs with
  | nil =>
    intro df _ _ _ _ _ s hs
    simp at hs
  | cons t rest ih =>
    intro df hwf hfresh hdist hkeys hlp s hs z hz
    obtain ⟨hk1, hk2, hk3, hkeys_rest⟩ := flagKeyFacts hkeys
    have hfl_rest : ∀ u ∈ rest, u.fname ∉ df.header :=
      fun u hu => hfresh u (List.mem_cons_of_mem _ hu)
    have hdist_rest : (rest.map FlagSpec.fname).Nodup := (List.nodup_cons.mp hdist).2
    have hlp_rest : ∀ u ∈ rest, LengthPreserving u.flagger :=
      fun u hu => hlp u (List.mem_cons_of_mem _ hu)
    rcases List.mem_cons.mp hs with rfl | hs_rest
    · -- the count key belongs to the head spec
      by_cases hc : df.hasCol s.col = true
      · cases hfl : s.flagger (colVals df s.col) with
        | ok flags =>
          have hflen : flags.length = df.rows.length := by
            rw [hlp s (List.mem_cons_self _ _) _ _ hfl, colVals_length hc]
          have hfname : s.fname ∉ df.header := hfresh s (List.mem_cons_self _ _)
          have hwf' : WF (setCol df s.fname flags) := by
            intro q hq
            rw [setCol_fresh_header flags hfname]
            rw [setCol_fresh_rows flags hfname] at hq
            have := @zipWith_append_WF df.header.length df.rows flags
              (fun r hr => hwf r hr) q hq
            simp [this]
          have hfresh' : ∀ u ∈ rest, u.fname ∉ (setCol df s.fname flags).header := by
            intro u hu
            rw [setCol_fresh_header flags hfname]
            simp only [List.mem_append, List.mem_cons, List.not_mem_nil]
            rintro (hmem | heq | hfalse)
            · exact hfl_rest u hu hmem
            · exact (List.nodup_cons.mp hdist).1
                (heq ▸ List.mem_map_of_mem FlagSpec.fname hu)
            · exact hfalse
          rw [flagFold_cons_ok hc hfl] at hz ⊢
          have hnone : rget (flagFold (setCol df s.fname flags) rest).2.1 s.countKey =
              none := by
            apply rget_of_forall_ne
            intro p hp
            obtain ⟨u, hu, hk⟩ := flagFold_keys rest _ p hp
            rcases hk with hk | hk
            · exact fun he => hk1 u hu (he ▸ hk)
            · exact fun he => hk2 u (List.mem_cons_of_mem _ hu) (he ▸ hk)
          rw [rget, hnone, if_pos rfl] at hz
          replace hz : some (RVal.rInt ((flags.countP (fun b => b)) : Int)) =
              some (RVal.rInt z) := hz
          have hcnt : ((flags.countP (fun b => b)) : Int) = z := by
            cases Option.some.inj hz
            rfl
          obtain ⟨h1, h2, h3, h4, h5⟩ := flagFold_struct rest (setCol df s.fname flags)
            (setCol df s.fname flags).header.length hwf' (Nat.le_refl _) hfresh'
            hdist_rest hlp_rest (boolsBeyond_of_WF hwf')
          have hmem : s.fname ∈ (setCol df s.fname flags).header := by
            rw [setCol_fresh_header flags hfname]
            simp
          refine ⟨by rw [h1]; exact List.mem_append_left _ hmem, ?_⟩
          rw [colVals_eq_of_proj h1 h2 hmem,
            colVals_setCol_fresh hfname hwf hflen, countP_vBool_map]
          exact hcnt
        | error e =>
          rw [flagFold_cons_error hc hfl] at hz
          have hnone : rget (flagFold df rest).2.1 s.countKey = none := by
            apply rget_of_forall_ne
            intro p hp
            obtain ⟨u, hu, hk⟩ := flagFold_keys rest _ p hp
            rcases hk with hk | hk
            · exact fun he => hk1 u hu (he ▸ hk)
            · exact fun he => hk2 u (List.mem_cons_of_mem _ hu) (he ▸ hk)
          have hne : s.errKey ≠ s.countKey := fun he =>
            hk2 s (List.mem_cons_self _ _) he.symm
          rw [rget, hnone, if_neg hne] at hz
          cases hz
      · rw [flagFold_cons_absent hc] at hz
        have hnone : rget (flagFold df rest).2.1 s.countKey = none := by
          apply rget_of_forall_ne
          intro p hp
          obtain ⟨u, hu, hk⟩ := flagFold_keys rest _ p hp
          rcases hk with hk | hk
          · exact fun he => hk1 u hu (he ▸ hk)
          · exact fun he => hk2 u (List.mem_cons_of_mem _ hu) (he ▸ hk)
        rw [hnone] at hz
        cases hz
    · -- the count key belongs to a later spec
      by_cases hc : df.hasCol t.col = true
      · cases hfl : t.flagger (colVals df t.col) with
        | ok flags =>
          have hflen : flags.length = df.rows.length := by
            rw [hlp t (List.mem_cons_self _ _) _ _ hfl, colVals_length hc]
          have hfname : t.fname ∉ df.header := hfresh t (List.mem_cons_self _ _)
          have hwf' : WF (setCol df t.fname flags) := by
            intro q hq
            rw [setCol_fresh_header flags hfname]
            rw [setCol_fresh_rows flags hfname] at hq
            have := @zipWith_append_WF df.header.length df.rows flags
              (fun r hr => hwf r hr) q hq
            simp [this]
          have hfresh' : ∀ u ∈ rest, u.fname ∉ (setCol df t.fname flags).header := by
            intro u hu
            rw [setCol_fresh_header flags hfname]
            simp only [List.mem_append, List.mem_cons, List.not_mem_nil]
            rintro (hmem | heq | hfalse)
            · exact hfl_rest u hu hmem
            · exact (List.nodup_cons.mp hdist).1
                (heq ▸ List.mem_map_of_mem FlagSpec.fname hu)
            · exact hfalse
          rw [flagFold_cons_ok hc hfl] at hz ⊢
          have hne : t.countKey ≠ s.countKey := hk1 s hs_rest
          rw [rget, if_neg hne] at hz
          simp only [Option.or_none] at hz
          exact ih (setCol df t.fname flags) hwf' hfresh' hdist_rest hkeys_rest
            hlp_rest s hs_rest z hz
        | error e =>
          rw [flagFold_cons_error hc hfl] at hz ⊢
          have hne : t.errKey ≠ s.countKey := fun he => hk3 s hs_rest he.symm
          rw [rget, if_neg hne] at hz
          simp only [Option.or_none] at hz
          exact ih df hwf hfl_rest hdist_rest hkeys_rest hlp_rest s hs_rest z hz
      · rw [flagFold_cons_absent hc] at hz ⊢
        exact ih df hwf hfl_rest hdist_rest hkeys_rest hlp_rest s hs_rest z hz

/-! ### Report-lookup helpers over appended fragments -/

theorem rget_append_right {r₁ r₂ : Report} {k : String} {v : RVal}
    (h : rget r₂ k = some v) : rget (r₁ ++ r₂) k = some v := by
  rw [rget_append, h]
  rfl

theorem rget_append_left {r₁ r₂ : Report} {k : String}
    (h : rget r₂ k = none) : rget (r₁ ++ r₂) k = rget r₁ k := by
  rw [rget_append, h]
  rfl

theorem rget_none_of_keys {r : Report} {keys : List String}
    (hk : ∀ p ∈ r, p.1 ∈ keys) {k : String} (hnot : k ∉ keys) : rget r k = none :=
  rget_of_forall_ne (fun p hp he => hnot (he ▸ hk p hp))

theorem convertFragment_keys (df : DataFrame) (tc : String) (tz : Int) :
    ∀ p ∈ (convertFragment df tc tz).2,
      p.1 ∈ ["datetime_converted", "datetime_error"] := by
  unfold convertFragment
  cases convert_datetime_column df tc tz with
  | ok d =>
    intro p hp
    simp only [List.mem_singleton] at hp
    subst hp
    simp
  | error e =>
    intro p hp
    simp only [List.mem_cons, List.not_mem_nil, or_false] at hp
    rcases hp with rfl | rfl <;> simp

theorem dupFragment_keys (df : DataFrame) (tc ic : String) :
    ∀ p ∈ dupFragment df tc ic,
      p.1 ∈ ["duplicate_original_count", "duplicate_utc_count", "duplicate_check_error"] := by
  unfold dupFragment
  cases duplicate_time_identification df tc ic with
  | ok d =>
    obtain ⟨d1, d2⟩ := d
    intro p hp
    simp only [List.mem_cons, List.not_mem_nil, or_false] at hp
    rcases hp with rfl | rfl <;> simp
  | error e =>
    intro p hp
    simp only [List.mem_singleton] at hp
    subst hp
    simp

theorem gapFragmentScada_keys (df : DataFrame) (tc : String) (freq : Int) :
    ∀ p ∈ gapFragmentScada df tc freq,
      p.1 ∈ ["time_gaps_original_count", "time_gaps_utc_count",
        "time_gap_timestamps_utc", "gap_check_error"] := by
  unfold gapFragmentScada
  cases gap_time_identification df tc freq with
  | ok g =>
    obtain ⟨g1, g2, stamps⟩ := g
    intro p hp
    simp only [List.mem_append, List.mem_cons, List.not_mem_nil, or_false] at hp
    rcases hp with (rfl | rfl) | hp
    · simp
    · simp
    · by_cases hs : stamps.isEmpty
      · rw [if_pos hs] at hp
        simp at hp
      · rw [if_neg hs] at hp
        simp only [List.mem_singleton] at hp
        subst hp
        simp
  | error e =>
    intro p hp
    simp only [List.mem_singleton] at hp
    subst hp
    simp

theorem gapFragment_keys (df : DataFrame) (tc : String) (freq : Int) :
    ∀ p ∈ gapFragment df tc freq,
      p.1 ∈ ["time_gaps_original_count", "time_gaps_utc_count", "gap_check_error"] := by
  unfold gapFragment
  cases gap_time_identification df tc freq with
  | ok g =>
    obtain ⟨g1, g2, stamps⟩ := g
    intro p hp
    simp only [List.mem_cons, List.not_mem_nil, or_false] at hp
    rcases hp with rfl | rfl <;> simp
  | error e =>
    intro p hp
    simp only [List.mem_singleton] at hp
    subst hp
    simp

theorem flagFold_keys_sub {specs : List FlagSpec} {keys : List String}
    (h : ∀ s ∈ specs, s.countKey ∈ keys ∧ s.errKey ∈ keys) (df : DataFrame) :
    ∀ p ∈ (flagFold df specs).2.1, p.1 ∈ keys := by
  intro p hp
  obtain ⟨s, hs, hk⟩ := flagFold_keys specs df p hp
  rcases hk with hk | hk
  · exact hk ▸ (h s hs).1
  · exact hk ▸ (h s hs).2

/-- The report keys of the SCADA range-flag loop. -/
def scadaRangeKeys : List String :=
  ["range_flag_flag_power_range_count", "range_flag_flag_power_range_error",
   "range_flag_flag_windspeed_range_count", "range_flag_flag_windspeed_range_error",
   "range_flag_flag_temp_range_count", "range_flag_flag_temp_range_error"]

/-- The report keys of the SCADA unresponsive-flag loop. -/
def scadaUnrespKeys : List String :=
  ["unresponsive_flag_power_unresponsive_count",
   "unresponsive_flag_power_unresponsive_error",
   "unresponsive_flag_windspeed_unresponsive_count",
   "unresponsive_flag_windspeed_unresponsive_error"]

theorem scadaRangeSpecs_keys (pc wc tc2 : String) (pr wr tr : Int × Int) :
    ∀ s ∈ scadaRangeSpecs pc wc tc2 pr wr tr,
      s.countKey ∈ scadaRangeKeys ∧ s.errKey ∈ scadaRangeKeys := by
  intro s hs
  unfold scadaRangeSpecs at hs
  simp only [List.mem_cons, List.not_mem_nil, or_false] at hs
  rcases hs with rfl | rfl | rfl <;> exact ⟨by simp [scadaRangeKeys], by simp [scadaRangeKeys]⟩

theorem scadaUnrespSpecs_keys (pc wc : String) (thr : Nat) :
    ∀ s ∈ scadaUnrespSpecs pc wc thr,
      s.countKey ∈ scadaUnrespKeys ∧ s.errKey ∈ scadaUnrespKeys := by
  intro s hs
  unfold scadaUnrespSpecs at hs
  simp only [List.mem_cons, List.not_mem_nil, or_false] at hs
  rcases hs with rfl | rfl <;> exact ⟨by simp [scadaUnrespKeys], by simp [scadaUnrespKeys]⟩

/-- Routing of report lookups in `refine_scada`: a key that is not written by
the flag loops nor by the closing entries is looked up in the first four
fragments (conversion, duplicates, drop count, gaps). -/
theorem refine_scada_rget_head (df0 : DataFrame) (local_tz : Int)
    (time_col id_col power_col windspeed_col temp_col : String)
    (freq : Int) (pr wr tr : Int × Int) (thr : Nat) (k : String)
    (hk : k ∉ scadaRangeKeys ++ scadaUnrespKeys ++ ["flag_columns_added", "final_row_count"]) :
    rget (refine_scada df0 local_tz time_col id_col power_col windspeed_col temp_col
        freq pr wr tr thr).2 k =
      rget ((convertFragment df0 time_col local_tz).2 ++
        dupFragment (convertFragment df0 time_col local_tz).1 time_col id_col ++
        [("rows_dropped_duplicates",
          RVal.rInt (((convertFragment df0 time_col local_tz).1.rows.length : Int) -
            ((drop_duplicates (convertFragment df0 time_col local_tz).1
              time_col).rows.length : Int)))] ++
        gapFragmentScada (drop_duplicates (convertFragment df0 time_col local_tz).1 time_col)
          time_col freq) k := by
  simp only [List.mem_append, not_or] at hk
  obtain ⟨⟨hkr, hku⟩, hkt⟩ := hk
  simp only [refine_scada]
  rw [rget_append_left, rget_append_left, rget_append_left]
  · exact rget_none_of_keys
      (flagFold_keys_sub (scadaRangeSpecs_keys power_col windspeed_col temp_col pr wr tr) _) hkr
  · exact rget_none_of_keys
      (flagFold_keys_sub (scadaUnrespSpecs_keys power_col windspeed_col thr) _) hku
  · refine @rget_none_of_keys _ ["flag_columns_added", "final_row_count"] ?_ _ hkt
    intro p hp
    simp only [List.mem_cons, List.not_mem_nil, or_false] at hp
    rcases hp with rfl | rfl <;> simp

/-! ### Claim theorems -/

/-- C5: for every dataset refiner (SCADA, meter, curtailment, asset,
reanalysis) and every input, the `final_row_count` field of the returned QA
report equals the number of rows of the returned cleaned dataframe. -/
theorem final_row_count_matches_rows :
    (∀ df0 local_tz time_col id_col power_col windspeed_col temp_col freq pr wr tr thr,
      rget (refine_scada df0 local_tz time_col id_col power_col windspeed_col temp_col
          freq pr wr tr thr).2 "final_row_count" =
        some (RVal.rInt ((refine_scada df0 local_tz time_col id_col power_col
          windspeed_col temp_col freq pr wr tr thr).1.rows.length : Int))) ∧
    (∀ df0 local_tz time_col energy_col freq er,
      rget (refine_meter df0 local_tz time_col energy_col freq er).2 "final_row_count" =
        some (RVal.rInt ((refine_meter df0 local_tz time_col energy_col
          freq er).1.rows.length : Int))) ∧
    (∀ df0 local_tz time_col avail_col curtail_col freq ar cr,
      rget (refine_curtail df0 local_tz time_col avail_col curtail_col
          freq ar cr).2 "final_row_count" =
        some (RVal.rInt ((refine_curtail df0 local_tz time_col avail_col curtail_col
          freq ar cr).1.rows.length : Int))) ∧
    (∀ df0 lat lon rp,
      rget (refine_asset df0 lat lon rp).2 "final_row_count" =
        some (RVal.rInt ((refine_asset df0 lat lon rp).1.rows.length : Int))) ∧
    (∀ df0 pname local_tz time_col windspeed_col winddir_col temp_col freq wr dr tr thr,
      rget (refine_reanalysis df0 pname local_tz time_col windspeed_col winddir_col
          temp_col freq wr dr tr thr).2 "final_row_count" =
        some (RVal.rInt ((refine_reanalysis df0 pname local_tz time_col windspeed_col
          winddir_col temp_col freq wr dr tr thr).1.rows.length : Int))) := by
  refine ⟨?_, ?_, ?_, ?_, ?_⟩
  · intro df0 local_tz time_col id_col power_col windspeed_col temp_col freq pr wr tr thr
    simp only [refine_scada]
    apply rget_append_right
    simp [rget]
  · intro df0 local_tz time_col energy_col freq er
    simp only [refine_meter]
    apply rget_append_right
    simp [rget]
  · intro df0 local_tz time_col avail_col curtail_col freq ar cr
    simp only [refine_curtail]
    apply rget_append_right
    simp [rget]
  · intro df0 lat lon rp
    simp only [refine_asset]
    apply rget_append_right
    simp [rget]
  · intro df0 pname local_tz time_col windspeed_col winddir_col temp_col freq wr dr tr thr
    simp only [refine_reanalysis]
    apply rget_append_right
    simp [rget]

theorem rget_single (k' k : String) (v : RVal) :
    rget [(k', v)] k = if k' = k then some v else none := rfl

theorem convertFragment_ok {df d : DataFrame} {tc : String} {tz : Int}
    (h : convert_datetime_column df tc tz = Except.ok d) :
    convertFragment df tc tz = (d, [("datetime_converted", RVal.rBool true)]) := by
  unfold convertFragment
  rw [h]

theorem convertFragment_error {df : DataFrame} {tc : String} {tz : Int} {e : String}
    (h : convert_datetime_column df tc tz = Except.error e) :
    convertFragment df tc tz =
      (df, [("datetime_converted", RVal.rBool false), ("datetime_error", RVal.rStr e)]) := by
  unfold convertFragment
  rw [h]

theorem dupFragment_ok {df : DataFrame} {tc ic : String} {d1 d2 : Option Int}
    (h : duplicate_time_identification df tc ic = Except.ok (d1, d2)) :
    dupFragment df tc ic =
      [("duplicate_original_count", RVal.rInt (safe_int d1)),
       ("duplicate_utc_count", RVal.rInt (safe_int d2))] := by
  unfold dupFragment
  rw [h]

theorem dupFragment_error {df : DataFrame} {tc ic e : String}
    (h : duplicate_time_identification df tc ic = Except.error e) :
    dupFragment df tc ic = [("duplicate_check_error", RVal.rStr e)] := by
  unfold dupFragment
  rw [h]

theorem gapFragmentScada_ok {df : DataFrame} {tc : String} {freq : Int}
    {g1 g2 : Option Int} {st : List String}
    (h : gap_time_identification df tc freq = Except.ok (g1, g2, st)) :
    gapFragmentScada df tc freq =
      [("time_gaps_original_count", RVal.rInt (safe_int g1)),
       ("time_gaps_utc_count", RVal.rInt (safe_int g2))] ++
      (if st.isEmpty then [] else [("time_gap_timestamps_utc", RVal.rStrList st)]) := by
  unfold gapFragmentScada
  rw [h]

theorem gapFragmentScada_error {df : DataFrame} {tc : String} {freq : Int} {e : String}
    (h : gap_time_identification df tc freq = Except.error e) :
    gapFragmentScada df tc freq = [("gap_check_error", RVal.rStr e)] := by
  unfold gapFragmentScada
  rw [h]

theorem gapFragment_ok {df : DataFrame} {tc : String} {freq : Int}
    {g1 g2 : Option Int} {st : List String}
    (h : gap_time_identification df tc freq = Except.ok (g1, g2, st)) :
    gapFragment df tc freq =
      [("time_gaps_original_count", RVal.rInt (safe_int g1)),
       ("time_gaps_utc_count", RVal.rInt (safe_int g2))] := by
  unfold gapFragment
  rw [h]

theorem gapFragment_error {df : DataFrame} {tc : String} {freq : Int} {e : String}
    (h : gap_time_identification df tc freq = Except.error e) :
    gapFragment df tc freq = [("gap_check_error", RVal.rStr e)] := by
  unfold gapFragment
  rw [h]

theorem rget_dupFragment_none {df : DataFrame} {tc ic k : String}
    (h1 : k ≠ "duplicate_original_count") (h2 : k ≠ "duplicate_utc_count")
    (h3 : k ≠ "duplicate_check_error") :
    rget (dupFragment df tc ic) k = none :=
  rget_none_of_keys (dupFragment_keys df tc ic) (by simp [h1, h2, h3])

theorem rget_convertFragment_none {df : DataFrame} {tc : String} {tz : Int} {k : String}
    (h1 : k ≠ "datetime_converted") (h2 : k ≠ "datetime_error") :
    rget (convertFragment df tc tz).2 k = none :=
  rget_none_of_keys (convertFragment_keys df tc tz) (by simp [h1, h2])

theorem rget_gapFragmentScada_none {df : DataFrame} {tc : String} {freq : Int} {k : String}
    (h1 : k ≠ "time_gaps_original_count") (h2 : k ≠ "time_gaps_utc_count")
    (h3 : k ≠ "time_gap_timestamps_utc") (h4 : k ≠ "gap_check_error") :
    rget (gapFragmentScada df tc freq) k = none :=
  rget_none_of_keys (gapFragmentScada_keys df tc freq) (by simp [h1, h2, h3, h4])

/-- C10: the duplicate and gap count fields of the QA report are integers; the
sizes pass through `_safe_int`, which yields the value of `int()` when the
conversion succeeds and `0` when it raises — so the refiner never propagates
the exception and a reported `0` is indistinguishable from a failed count
extraction. -/
theorem safe_int_count_guard :
    safe_int none = 0 ∧
    safe_int none = safe_int (some 0) ∧
    (∀ n : Int, safe_int (some n) = n) ∧
    (∀ df tc ic d1 d2, duplicate_time_identification df tc ic = Except.ok (d1, d2) →
      rget (dupFragment df tc ic) "duplicate_original_count" =
        some (RVal.rInt (safe_int d1)) ∧
      rget (dupFragment df tc ic) "duplicate_utc_count" =
        some (RVal.rInt (safe_int d2))) ∧
    (∀ df tc freq g1 g2 st, gap_time_identification df tc freq = Except.ok (g1, g2, st) →
      rget (gapFragmentScada df tc freq) "time_gaps_original_count" =
        some (RVal.rInt (safe_int g1)) ∧
      rget (gapFragmentScada df tc freq) "time_gaps_utc_count" =
        some (RVal.rInt (safe_int g2))) ∧
    (∀ df0 local_tz time_col id_col power_col windspeed_col temp_col freq pr wr tr thr,
      ∀ k ∈ (["duplicate_original_count", "duplicate_utc_count",
        "time_gaps_original_count", "time_gaps_utc_count"] : List String),
      ∀ v, rget (refine_scada df0 local_tz time_col id_col power_col windspeed_col
        temp_col freq pr wr tr thr).2 k = some v → ∃ n : Int, v = RVal.rInt n) := by
  have hgap_lookup : ∀ (g1 g2 : Option Int) (st : List String),
      rget ([("time_gaps_original_count", RVal.rInt (safe_int g1)),
        ("time_gaps_utc_count", RVal.rInt (safe_int g2))] ++
        (if st.isEmpty then [] else [("time_gap_timestamps_utc", RVal.rStrList st)]))
        "time_gaps_original_count" = some (RVal.rInt (safe_int g1)) := by
    intro g1 g2 st
    apply rget_append_left
    by_cases hs : st.isEmpty
    · rw [if_pos hs]
      rfl
    · rw [if_neg hs, rget_single, if_neg (by decide)]
  have hgap_lookup' : ∀ (g1 g2 : Option Int) (st : List String),
      rget ([("time_gaps_original_count", RVal.rInt (safe_int g1)),
        ("time_gaps_utc_count", RVal.rInt (safe_int g2))] ++
        (if st.isEmpty then [] else [("time_gap_timestamps_utc", RVal.rStrList st)]))
        "time_gaps_utc_count" = some (RVal.rInt (safe_int g2)) := by
    intro g1 g2 st
    apply rget_append_left
    by_cases hs : st.isEmpty
    · rw [if_pos hs]
      rfl
    · rw [if_neg hs, rget_single, if_neg (by decide)]
  refine ⟨rfl, rfl, fun n => rfl, ?_, ?_, ?_⟩
  · intro df tc ic d1 d2 h
    rw [dupFragment_ok h]
    exact ⟨by simp [rget], by simp [rget]⟩
  · intro df tc freq g1 g2 st h
    rw [gapFragmentScada_ok h]
    exact ⟨hgap_lookup g1 g2 st, hgap_lookup' g1 g2 st⟩
  · intro df0 local_tz time_col id_col power_col windspeed_col temp_col freq pr wr tr thr
      k hk v hv
    simp only [List.mem_cons, List.not_mem_nil, or_false] at hk
    have hroute := refine_scada_rget_head df0 local_tz time_col id_col power_col
      windspeed_col temp_col freq pr wr tr thr k
      (by rcases hk with rfl | rfl | rfl | rfl <;> decide)
    rw [hroute] at hv
    rcases hk with rfl | rfl | rfl | rfl
    · rw [rget_append_left (rget_gapFragmentScada_none (by decide) (by decide) (by decide)
        (by decide))] at hv
      rw [rget_append_left (by rw [rget_single, if_neg (by decide)])] at hv
      cases hdup : duplicate_time_identification (convertFragment df0 time_col local_tz).1
          time_col id_col with
      | ok d =>
        obtain ⟨d1, d2⟩ := d
        rw [dupFragment_ok hdup, @rget_append_right _ _ _ (RVal.rInt (safe_int d1))
          (by simp [rget])] at hv
        exact ⟨safe_int d1, (Option.some.inj hv).symm⟩
      | error e =>
        rw [dupFragment_error hdup,
          rget_append_left (by rw [rget_single, if_neg (by decide)]),
          rget_convertFragment_none (by decide) (by decide)] at hv
        cases hv
    · rw [rget_append_left (rget_gapFragmentScada_none (by decide) (by decide) (by decide)
        (by decide))] at hv
      rw [rget_append_left (by rw [rget_single, if_neg (by decide)])] at hv
      cases hdup : duplicate_time_identification (convertFragment df0 time_col local_tz).1
          time_col id_col with
      | ok d =>
        obtain ⟨d1, d2⟩ := d
        rw [dupFragment_ok hdup, @rget_append_right _ _ _ (RVal.rInt (safe_int d2))
          (by simp [rget])] at hv
        exact ⟨safe_int d2, (Option.some.inj hv).symm⟩
      | error e =>
        rw [dupFragment_error hdup,
          rget_append_left (by rw [rget_single, if_neg (by decide)]),
          rget_convertFragment_none (by decide) (by decide)] at hv
        cases hv
    · cases hgap : gap_time_identification
          (drop_duplicates (convertFragment df0 time_col local_tz).1 time_col)
          time_col freq with
      | ok g =>
        obtain ⟨g1, g2, st⟩ := g
        rw [gapFragmentScada_ok hgap, rget_append_right (hgap_lookup g1 g2 st)] at hv
        exact ⟨safe_int g1, (Option.some.inj hv).symm⟩
      | error e =>
        rw [gapFragmentScada_error hgap,
          rget_append_left (by rw [rget_single, if_neg (by decide)]),
          rget_append_left (by rw [rget_single, if_neg (by decide)]),
          rget_append_left (rget_dupFragment_none (by decide) (by decide) (by decide)),
          rget_convertFragment_none (by decide) (by decide)] at hv
        cases hv
    · cases hgap : gap_time_identification
          (drop_duplicates (convertFragment df0 time_col local_tz).1 time_col)
          time_col freq with
      | ok g =>
        obtain ⟨g1, g2, st⟩ := g
        rw [gapFragmentScada_ok hgap, rget_append_right (hgap_lookup' g1 g2 st)] at hv
        exact ⟨safe_int g2, (Option.some.inj hv).symm⟩
      | error e =>
        rw [gapFragmentScada_error hgap,
          rget_append_left (by rw [rget_single, if_neg (by decide)]),
          rget_append_left (by rw [rget_single, if_neg (by decide)]),
          rget_append_left (rget_dupFragment_none (by decide) (by decide) (by decide)),
          rget_convertFragment_none (by decide) (by decide)] at hv
        cases hv

/-- A one-row two-column frame used to exercise the duplicate and gap checks. -/
def wDupDF : DataFrame := ⟨["t", "id"], [[Value.vInt 0, Value.vStr "a"]]⟩

/-- A one-row SCADA frame carrying only time and identifier columns. -/
def wScadaDF : DataFrame :=
  ⟨["Date_time", "Wind_turbine_name"], [[Value.vInt 0, Value.vStr "T1"]]⟩

theorem safe_int_count_guard_witness :
    rget (dupFragment wDupDF "t" "id") "duplicate_original_count" =
      some (RVal.rInt 0) ∧
    rget (gapFragmentScada wDupDF "t" 1) "time_gaps_original_count" =
      some (RVal.rInt 0) ∧
    (∃ n : Int, RVal.rInt 0 = RVal.rInt n) := by
  refine ⟨?_, ?_, ?_⟩
  · exact (safe_int_count_guard.2.2.2.1 wDupDF "t" "id" (some 0) (some 0) (by decide)).1
  · exact (safe_int_count_guard.2.2.2.2.1 wDupDF "t" 1 (some 0) (some 0) [] (by decide)).1
  · exact safe_int_count_guard.2.2.2.2.2 wScadaDF 0 "Date_time" "Wind_turbine_name"
      "P_avg" "Ws_avg" "Ot_avg" 10 (-20, 2200) (0, 50) (-40, 50) 3
      "duplicate_original_count" (by decide) (RVal.rInt 0) (by decide)

/-- C6: `refine_all` returns a two-key mapping `{dataframes, qa_report}`
whose inner keys mirror the input dataset names (scada, meter, curtail, asset,
and one reanalysis entry per named product, in input order), and every absent
optional input is represented as `None` in both maps. -/
theorem refine_all_result_shape
    (scada_df : DataFrame) (local_tz : Int)
    (stc sic spc swc sptc : String) (sfreq : Int)
    (meter_df : Option DataFrame) (mtc mec : String)
    (curtail_df : Option DataFrame) (ctc cac ccc : String)
    (asset_df : Option DataFrame)
    (reanalysis_dfs : Option (List (String × Option DataFrame)))
    (rtc rwc rdc rtcol : String) :
    ∃ sd sr m1 m2 c1 c2 a1 a2 reD reR,
      refine_all scada_df local_tz stc sic spc swc sptc sfreq meter_df mtc mec
        curtail_df ctc cac ccc asset_df reanalysis_dfs rtc rwc rdc rtcol =
      [("dataframes", RNode.nmap
         [("scada", RNode.ndf sd), ("meter", m1), ("curtail", c1), ("asset", a1),
          ("reanalysis", RNode.nmap reD)]),
       ("qa_report", RNode.nmap
         [("scada", RNode.nrep sr), ("meter", m2), ("curtail", c2), ("asset", a2),
          ("reanalysis", RNode.nmap reR)])] ∧
      reD.map Prod.fst = (reanalysis_dfs.getD []).map Prod.fst ∧
      reR.map Prod.fst = (reanalysis_dfs.getD []).map Prod.fst ∧
      (meter_df = none → m1 = RNode.nnull ∧ m2 = RNode.nnull) ∧
      (curtail_df = none → c1 = RNode.nnull ∧ c2 = RNode.nnull) ∧
      (asset_df = none → a1 = RNode.nnull ∧ a2 = RNode.nnull) ∧
      (∀ name, (name, (none : Option DataFrame)) ∈ reanalysis_dfs.getD [] →
        (name, RNode.nnull) ∈ reD ∧ (name, RNode.nnull) ∈ reR) := by
  refine ⟨_, _, _, _, _, _, _, _, _, _, rfl, ?_, ?_, ?_, ?_, ?_, ?_⟩
  · rw [List.map_map, List.map_map]
    apply List.map_congr_left
    intro p _
    obtain ⟨nm, od⟩ := p
    cases od <;> rfl
  · rw [List.map_map, List.map_map]
    apply List.map_congr_left
    intro p _
    obtain ⟨nm, od⟩ := p
    cases od <;> rfl
  · intro h
    subst h
    exact ⟨rfl, rfl⟩
  · intro h
    subst h
    exact ⟨rfl, rfl⟩
  · intro h
    subst h
    exact ⟨rfl, rfl⟩
  · intro name hmem
    constructor
    · apply @List.mem_map_of_mem _ _ _ ((name, RNode.nnull), (name, RNode.nnull))
        (fun q => q.1)
      have := List.mem_map_of_mem (fun p : String × Option DataFrame =>
        match p.2 with
        | some d =>
          let r := refine_reanalysis d p.1 local_tz rtc rwc rdc rtcol 60
            reanalysisWindspeedRange reanalysisWinddirRange reanalysisTempRange 3
          ((p.1, RNode.ndf r.1), (p.1, RNode.nrep r.2))
        | none => ((p.1, RNode.nnull), (p.1, RNode.nnull))) hmem
      exact this
    · apply @List.mem_map_of_mem _ _ _ ((name, RNode.nnull), (name, RNode.nnull))
        (fun q => q.2)
      have := List.mem_map_of_mem (fun p : String × Option DataFrame =>
        match p.2 with
        | some d =>
          let r := refine_reanalysis d p.1 local_tz rtc rwc rdc rtcol 60
            reanalysisWindspeedRange reanalysisWinddirRange reanalysisTempRange 3
          ((p.1, RNode.ndf r.1), (p.1, RNode.nrep r.2))
        | none => ((p.1, RNode.nnull), (p.1, RNode.nnull))) hmem
      exact this

theorem refine_all_result_shape_witness :
    ∃ sd sr reD reR,
      refine_all wScadaDF 0 "Date_time" "Wind_turbine_name" "P_avg" "Ws_avg" "Ot_avg" 10
        none "time" "MMTR_SupWh" none "time" "IAVL_DnWh" "IAVL_ExtPwrDnWh" none
        (some [("era5", none)]) "time" "WMETR_HorWdSpd" "WMETR_HorWdDir" "WMETR_EnvTmp" =
      [("dataframes", RNode.nmap [("scada", RNode.ndf sd), ("meter", RNode.nnull),
         ("curtail", RNode.nnull), ("asset", RNode.nnull), ("reanalysis", RNode.nmap reD)]),
       ("qa_report", RNode.nmap [("scada", RNode.nrep sr), ("meter", RNode.nnull),
         ("curtail", RNode.nnull), ("asset", RNode.nnull), ("reanalysis", RNode.nmap reR)])] ∧
      ("era5", RNode.nnull) ∈ reD ∧ ("era5", RNode.nnull) ∈ reR := by
  obtain ⟨sd, sr, m1, m2, c1, c2, a1, a2, reD, reR, heq, hD, hR, hm, hc, ha, hre⟩ :=
    refine_all_result_shape wScadaDF 0 "Date_time" "Wind_turbine_name" "P_avg" "Ws_avg"
      "Ot_avg" 10 none "time" "MMTR_SupWh" none "time" "IAVL_DnWh" "IAVL_ExtPwrDnWh" none
      (some [("era5", none)]) "time" "WMETR_HorWdSpd" "WMETR_HorWdDir" "WMETR_EnvTmp"
  obtain ⟨hm1, hm2⟩ := hm rfl
  obtain ⟨hc1, hc2⟩ := hc rfl
  obtain ⟨ha1, ha2⟩ := ha rfl
  obtain ⟨hr1, hr2⟩ := hre "era5" (by simp)
  subst hm1 hm2 hc1 hc2 ha1 ha2
  exact ⟨sd, sr, reD, reR, heq, hr1, hr2⟩

theorem rget_pair_none {k k1 k2 : String} {v1 v2 : RVal}
    (h1 : k1 ≠ k) (h2 : k2 ≠ k) :
    rget [(k1, v1), (k2, v2)] k = none := by
  simp [rget, h1, h2]

/-- C2: every per-step failure in a refiner (datetime conversion, duplicate
check, gap check, range flag, unresponsive flag) is captured in the QA report
under a step-specific key rather than propagating; the refiner still reaches
its final entries, and the non-SCADA results of `refine_all` do not depend on
the SCADA input at all, so one dataset's failure cannot prevent the others
from being refined. -/
theorem refine_step_failures_captured_and_isolated :
    (∀ df0 local_tz time_col id_col power_col windspeed_col temp_col freq pr wr tr thr e,
      convert_datetime_column df0 time_col local_tz = Except.error e →
      rget (refine_scada df0 local_tz time_col id_col power_col windspeed_col temp_col
          freq pr wr tr thr).2 "datetime_converted" = some (RVal.rBool false) ∧
      rget (refine_scada df0 local_tz time_col id_col power_col windspeed_col temp_col
          freq pr wr tr thr).2 "datetime_error" = some (RVal.rStr e)) ∧
    (∀ df0 local_tz time_col id_col power_col windspeed_col temp_col freq pr wr tr thr e,
      duplicate_time_identification (convertFragment df0 time_col local_tz).1 time_col
          id_col = Except.error e →
      rget (refine_scada df0 local_tz time_col id_col power_col windspeed_col temp_col
          freq pr wr tr thr).2 "duplicate_check_error" = some (RVal.rStr e)) ∧
    (∀ df0 local_tz time_col id_col power_col windspeed_col temp_col freq pr wr tr thr e,
      gap_time_identification (drop_duplicates (convertFragment df0 time_col local_tz).1
          time_col) time_col freq = Except.error e →
      rget (refine_scada df0 local_tz time_col id_col power_col windspeed_col temp_col
          freq pr wr tr thr).2 "gap_check_error" = some (RVal.rStr e)) ∧
    (∀ df0 local_tz time_col id_col power_col windspeed_col temp_col freq pr wr tr thr e,
      (drop_duplicates (convertFragment df0 time_col local_tz).1 time_col).hasCol
          power_col = true →
      range_flag (colVals (drop_duplicates (convertFragment df0 time_col local_tz).1
          time_col) power_col) pr.1 pr.2 = Except.error e →
      rget (refine_scada df0 local_tz time_col id_col power_col windspeed_col temp_col
          freq pr wr tr thr).2 "range_flag_flag_power_range_error" =
        some (RVal.rStr e)) ∧
    (∀ df0 local_tz time_col id_col power_col windspeed_col temp_col freq pr wr tr thr e,
      ((flagFold (drop_duplicates (convertFragment df0 time_col local_tz).1 time_col)
          (scadaRangeSpecs power_col windspeed_col temp_col pr wr tr)).1.hasCol
          power_col = true) →
      unresponsive_flag (colVals (flagFold (drop_duplicates
          (convertFragment df0 time_col local_tz).1 time_col)
          (scadaRangeSpecs power_col windspeed_col temp_col pr wr tr)).1 power_col) thr =
        Except.error e →
      rget (refine_scada df0 local_tz time_col id_col power_col windspeed_col temp_col
          freq pr wr tr thr).2 "unresponsive_flag_power_unresponsive_error" =
        some (RVal.rStr e)) ∧
    (∀ df0 local_tz time_col id_col power_col windspeed_col temp_col freq pr wr tr thr,
      ∃ n : Int, rget (refine_scada df0 local_tz time_col id_col power_col windspeed_col
        temp_col freq pr wr tr thr).2 "final_row_count" = some (RVal.rInt n)) ∧
    (∀ (sdf1 sdf2 : DataFrame) local_tz stc sic spc swc sptc sfreq meter_df mtc mec
        curtail_df ctc cac ccc asset_df reanalysis_dfs rtc rwc rdc rtcol,
      ∃ m1 m2 c1 c2 a1 a2 reD reR sd1 sr1 sd2 sr2,
        refine_all sdf1 local_tz stc sic spc swc sptc sfreq meter_df mtc mec
          curtail_df ctc cac ccc asset_df reanalysis_dfs rtc rwc rdc rtcol =
        [("dataframes", RNode.nmap
           [("scada", RNode.ndf sd1), ("meter", m1), ("curtail", c1), ("asset", a1),
            ("reanalysis", RNode.nmap reD)]),
         ("qa_report", RNode.nmap
           [("scada", RNode.nrep sr1), ("meter", m2), ("curtail", c2), ("asset", a2),
            ("reanalysis", RNode.nmap reR)])] ∧
        refine_all sdf2 local_tz stc sic spc swc sptc sfreq meter_df mtc mec
          curtail_df ctc cac ccc asset_df reanalysis_dfs rtc rwc rdc rtcol =
        [("dataframes", RNode.nmap
           [("scada", RNode.ndf sd2), ("meter", m1), ("curtail", c1), ("asset", a1),
            ("reanalysis", RNode.nmap reD)]),
         ("qa_report", RNode.nmap
           [("scada", RNode.nrep sr2), ("meter", m2), ("curtail", c2), ("asset", a2),
            ("reanalysis", RNode.nmap reR)])]) := by
  refine ⟨?_, ?_, ?_, ?_, ?_, ?_, ?_⟩
  · intro df0 local_tz time_col id_col power_col windspeed_col temp_col freq pr wr tr thr e h
    constructor
    · rw [refine_scada_rget_head df0 local_tz time_col id_col power_col windspeed_col
        temp_col freq pr wr tr thr "datetime_converted" (by decide),
        rget_append_left (rget_gapFragmentScada_none (by decide) (by decide) (by decide)
          (by decide)),
        rget_append_left (by rw [rget_single, if_neg (by decide)]),
        rget_append_left (rget_dupFragment_none (by decide) (by decide) (by decide)),
        convertFragment_error h]
      simp [rget]
    · rw [refine_scada_rget_head df0 local_tz time_col id_col power_col windspeed_col
        temp_col freq pr wr tr thr "datetime_error" (by decide),
        rget_append_left (rget_gapFragmentScada_none (by decide) (by decide) (by decide)
          (by decide)),
        rget_append_left (by rw [rget_single, if_neg (by decide)]),
        rget_append_left (rget_dupFragment_none (by decide) (by decide) (by decide)),
        convertFragment_error h]
      simp [rget]
  · intro df0 local_tz time_col id_col power_col windspeed_col temp_col freq pr wr tr thr e h
    rw [refine_scada_rget_head df0 local_tz time_col id_col power_col windspeed_col
      temp_col freq pr wr tr thr "duplicate_check_error" (by decide),
      rget_append_left (rget_gapFragmentScada_none (by decide) (by decide) (by decide)
        (by decide)),
      rget_append_left (by rw [rget_single, if_neg (by decide)]),
      dupFragment_error h]
    apply rget_append_right
    rw [rget_single, if_pos rfl]
  · intro df0 local_tz time_col id_col power_col windspeed_col temp_col freq pr wr tr thr e h
    rw [refine_scada_rget_head df0 local_tz time_col id_col power_col windspeed_col
      temp_col freq pr wr tr thr "gap_check_error" (by decide),
      gapFragmentScada_error h]
    apply rget_append_right
    rw [rget_single, if_pos rfl]
  · intro df0 local_tz time_col id_col power_col windspeed_col temp_col freq pr wr tr thr
      e hc hrf
    simp only [refine_scada]
    rw [rget_append_left (rget_pair_none (by decide) (by decide)),
      rget_append_left (rget_none_of_keys (flagFold_keys_sub
        (scadaUnrespSpecs_keys power_col windspeed_col thr) _) (by decide))]
    apply rget_append_right
    unfold scadaRangeSpecs
    rw [flagFold_cons_error hc hrf]
    have hnone : rget (flagFold (drop_duplicates (convertFragment df0 time_col
        local_tz).1 time_col)
        [⟨windspeed_col, fun v => range_flag v wr.1 wr.2, "flag_windspeed_range",
          "range_flag_flag_windspeed_range_count", "range_flag_flag_windspeed_range_error"⟩,
         ⟨temp_col, fun v => range_flag v tr.1 tr.2, "flag_temp_range",
          "range_flag_flag_temp_range_count", "range_flag_flag_temp_range_error"⟩]).2.1
        "range_flag_flag_power_range_error" = none := by
      apply rget_of_forall_ne
      intro p hp
      obtain ⟨u, hu, hk⟩ := flagFold_keys _ _ p hp
      simp only [List.mem_cons, List.not_mem_nil, or_false] at hu
      rcases hu with rfl | rfl <;> rcases hk with hk | hk <;> rw [hk] <;> simp
    rw [rget, hnone, if_pos rfl]
    rfl
  · intro df0 local_tz time_col id_col power_col windspeed_col temp_col freq pr wr tr thr
      e hc hrf
    simp only [refine_scada]
    rw [rget_append_left (rget_pair_none (by decide) (by decide))]
    apply rget_append_right
    unfold scadaUnrespSpecs
    rw [flagFold_cons_error hc hrf]
    have hnone : rget (flagFold (flagFold (drop_duplicates (convertFragment df0 time_col
        local_tz).1 time_col)
        (scadaRangeSpecs power_col windspeed_col temp_col pr wr tr)).1
        [⟨windspeed_col, fun v => unresponsive_flag v thr, "flag_windspeed_unresponsive",
          "unresponsive_flag_windspeed_unresponsive_count",
          "unresponsive_flag_windspeed_unresponsive_error"⟩]).2.1
        "unresponsive_flag_power_unresponsive_error" = none := by
      apply rget_of_forall_ne
      intro p hp
      obtain ⟨u, hu, hk⟩ := flagFold_keys _ _ p hp
      simp only [List.mem_singleton] at hu
      subst hu
      rcases hk with hk | hk <;> rw [hk] <;> simp
    rw [rget, hnone, if_pos rfl]
    rfl
  · intro df0 local_tz time_col id_col power_col windspeed_col temp_col freq pr wr tr thr
    refine ⟨((refine_scada df0 local_tz time_col id_col power_col windspeed_col temp_col
      freq pr wr tr thr).1.rows.length : Int), ?_⟩
    simp only [refine_scada]
    apply rget_append_right
    simp [rget]
  · intro sdf1 sdf2 local_tz stc sic spc swc sptc sfreq meter_df mtc mec
      curtail_df ctc cac ccc asset_df reanalysis_dfs rtc rwc rdc rtcol
    exact ⟨_, _, _, _, _, _, _, _, _, _, _, _, rfl, rfl⟩

/-- A frame with no time column and a non-numeric power column: every QA step
of the SCADA refiner fails on it. -/
def wBadDF : DataFrame := ⟨["P_avg"], [[Value.vStr "x"]]⟩

theorem refine_step_failures_captured_and_isolated_witness :
    rget (refine_scada wBadDF 0 "Date_time" "Wind_turbine_name" "P_avg" "Ws_avg" "Ot_avg"
        10 (-20, 2200) (0, 50) (-40, 50) 3).2 "datetime_converted" =
      some (RVal.rBool false) ∧
    rget (refine_scada wBadDF 0 "Date_time" "Wind_turbine_name" "P_avg" "Ws_avg" "Ot_avg"
        10 (-20, 2200) (0, 50) (-40, 50) 3).2 "duplicate_check_error" =
      some (RVal.rStr "duplicate identification failed: missing column") ∧
    rget (refine_scada wBadDF 0 "Date_time" "Wind_turbine_name" "P_avg" "Ws_avg" "Ot_avg"
        10 (-20, 2200) (0, 50) (-40, 50) 3).2 "gap_check_error" =
      some (RVal.rStr "gap identification failed: missing time column") ∧
    rget (refine_scada wBadDF 0 "Date_time" "Wind_turbine_name" "P_avg" "Ws_avg" "Ot_avg"
        10 (-20, 2200) (0, 50) (-40, 50) 3).2 "range_flag_flag_power_range_error" =
      some (RVal.rStr "range comparison failed: non-numeric data") ∧
    rget (refine_scada wBadDF 0 "Date_time" "Wind_turbine_name" "P_avg" "Ws_avg" "Ot_avg"
        10 (-20, 2200) (0, 50) (-40, 50) 3).2 "unresponsive_flag_power_unresponsive_error" =
      some (RVal.rStr "unresponsive check failed: non-numeric data") := by
  refine ⟨?_, ?_, ?_, ?_, ?_⟩
  · exact (refine_step_failures_captured_and_isolated.1 wBadDF 0 "Date_time"
      "Wind_turbine_name" "P_avg" "Ws_avg" "Ot_avg" 10 (-20, 2200) (0, 50) (-40, 50) 3
      "time column not found: Date_time" (by decide)).1
  · exact refine_step_failures_captured_and_isolated.2.1 wBadDF 0 "Date_time"
      "Wind_turbine_name" "P_avg" "Ws_avg" "Ot_avg" 10 (-20, 2200) (0, 50) (-40, 50) 3
      "duplicate identification failed: missing column" (by decide)
  · exact refine_step_failures_captured_and_isolated.2.2.1 wBadDF 0 "Date_time"
      "Wind_turbine_name" "P_avg" "Ws_avg" "Ot_avg" 10 (-20, 2200) (0, 50) (-40, 50) 3
      "gap identification failed: missing time column" (by decide)
  · exact refine_step_failures_captured_and_isolated.2.2.2.1 wBadDF 0 "Date_time"
      "Wind_turbine_name" "P_avg" "Ws_avg" "Ot_avg" 10 (-20, 2200) (0, 50) (-40, 50) 3
      "range comparison failed: non-numeric data" (by decide) (by decide)
  · exact refine_step_failures_captured_and_isolated.2.2.2.2.1 wBadDF 0 "Date_time"
      "Wind_turbine_name" "P_avg" "Ws_avg" "Ot_avg" 10 (-20, 2200) (0, 50) (-40, 50) 3
      "unresponsive check failed: non-numeric data" (by decide) (by decide)

/-! ### Maximal runs and the unresponsive flagger -/

theorem cons_eq_replicate_append {α : Type} [DecidableEq α] (v : α) (vs : List α) :
    v :: vs = List.replicate (leadCount v vs + 1) v ++ dropLead v vs := by
  rw [List.replicate_succ, List.cons_append, replicate_leadCount_append]

theorem dropLead_head_ne {α : Type} [DecidableEq α] {v w : α} {vs tl : List α}
    (h : dropLead v vs = w :: tl) : w ≠ v := by
  induction vs with
  | nil => cases h
  | cons x xs ih =>
    by_cases hx : x = v
    · rw [dropLead, if_pos hx] at h
      exact ih h
    · rw [dropLead, if_neg hx] at h
      cases h
      exact hx

theorem getElem?_cons_lead {α : Type} [DecidableEq α] (v : α) (vs : List α) {m : Nat}
    (hm : m ≤ leadCount v vs) : (v :: vs)[m]? = some v := by
  conv_lhs => rw [cons_eq_replicate_append v vs]
  rw [List.getElem?_append_left (by simp only [List.length_replicate]; omega)]
  exact List.getElem?_replicate_of_lt (by omega)

theorem getElem?_cons_shift {α : Type} [DecidableEq α] (v : α) (vs : List α) (x : Nat) :
    (v :: vs)[leadCount v vs + 1 + x]? = (dropLead v vs)[x]? := by
  conv_lhs => rw [cons_eq_replicate_append v vs]
  rw [List.getElem?_append_right (by simp only [List.length_replicate]; omega)]
  congr 1
  simp only [List.length_replicate]
  omega

theorem length_cons_decomp {α : Type} [DecidableEq α] (v : α) (vs : List α) :
    (v :: vs).length = (leadCount v vs + 1) + (dropLead v vs).length := by
  conv_lhs => rw [cons_eq_replicate_append v vs]
  simp

/-- A maximal run of identical consecutive values in `l`, spanning positions
`i` through `j` inclusive: all cells in the span agree, the cell before the
span (when any) differs, and the cell after the span (when any) differs. -/
def IsMaxRun {α : Type} [DecidableEq α] (l : List α) (i j : Nat) : Prop :=
  i ≤ j ∧ j < l.length ∧
  (∀ m, m ≤ j → i ≤ m → l[m]? = l[i]?) ∧
  (i = 0 ∨ l[i-1]? ≠ l[i]?) ∧
  (j + 1 = l.length ∨ l[j+1]? ≠ l[j]?)

instance {α : Type} [DecidableEq α] (l : List α) (i j : Nat) :
    Decidable (IsMaxRun l i j) := by
  unfold IsMaxRun
  infer_instance

theorem unresponsiveRuns_maxRun_aux {α : Type} [DecidableEq α] (t : Nat) :
    ∀ n : Nat, ∀ l : List α, l.length ≤ n → ∀ i j m : Nat,
      IsMaxRun l i j → i ≤ m → m ≤ j →
      (unresponsiveRuns t l)[m]? = some (decide (t ≤ j + 1 - i)) := by
  intro n
  induction n with
  | zero =>
    intro l hl i j m hrun _ _
    cases l with
    | nil => exact absurd hrun.2.1 (by simp)
    | cons v vs => simp at hl
  | succ n ih =>
    intro l hl i j m hrun him hmj
    cases l with
    | nil => exact absurd hrun.2.1 (by simp)
    | cons v vs =>
      obtain ⟨hij, hjl, hall, hleft, hright⟩ := hrun
      have hlen := length_cons_decomp v vs
      rw [List.length_cons] at hlen hjl
      by_cases hcase : i ≤ leadCount v vs
      · -- the run must be exactly the leading run
        have hjk : j ≤ leadCount v vs := by
          by_contra hjk
          push_neg at hjk
          have e2 : (v :: vs)[leadCount v vs + 1]? = (v :: vs)[i]? :=
            hall (leadCount v vs + 1) (by omega) (by omega)
          have ei : (v :: vs)[i]? = some v := getElem?_cons_lead v vs hcase
          have hx := getElem?_cons_shift v vs 0
          rw [Nat.add_zero] at hx
          rw [hx, ei] at e2
          cases hd : dropLead v vs with
          | nil =>
            rw [hd] at e2
            simp at e2
          | cons w tl =>
            rw [hd] at e2
            simp only [List.getElem?_cons_zero, Option.some_inj] at e2
            exact dropLead_head_ne hd e2
        have hjk' : j = leadCount v vs := by
          by_contra hne
          have hjlt : j < leadCount v vs := by omega
          rcases hright with hr | hr
          · rw [List.length_cons] at hr
            omega
          · have h1 : (v :: vs)[j+1]? = some v := getElem?_cons_lead v vs (by omega)
            have h2 : (v :: vs)[j]? = some v := getElem?_cons_lead v vs (by omega)
            rw [h1, h2] at hr
            exact hr rfl
        have hi0 : i = 0 := by
          rcases hleft with h0 | hne
          · exact h0
          · by_contra hi
            have h1 : (v :: vs)[i-1]? = some v := getElem?_cons_lead v vs (by omega)
            have h2 : (v :: vs)[i]? = some v := getElem?_cons_lead v vs hcase
            rw [h1, h2] at hne
            exact hne rfl
        simp only [unresponsiveRuns]
        rw [List.getElem?_append_left (by simp only [List.length_replicate]; omega),
          List.getElem?_replicate_of_lt (by omega)]
        have harg : j + 1 - i = leadCount v vs + 1 := by omega
        rw [harg]
      · -- the run lies inside the remainder after the leading run
        push_neg at hcase
        have hshift := getElem?_cons_shift v vs
        have hdlen : (dropLead v vs).length ≤ n := by
          simp only [List.length_cons] at hl
          have := leadCount_add_dropLead_length v vs
          omega
        have hidx : leadCount v vs + 1 + (i - (leadCount v vs + 1)) = i := by omega
        have hrun' : IsMaxRun (dropLead v vs) (i - (leadCount v vs + 1))
            (j - (leadCount v vs + 1)) := by
          refine ⟨by omega, by omega, ?_, ?_, ?_⟩
          · intro m2 hm2 him2
            calc (dropLead v vs)[m2]?
                = (v :: vs)[leadCount v vs + 1 + m2]? := (hshift m2).symm
              _ = (v :: vs)[i]? := hall _ (by omega) (by omega)
              _ = (v :: vs)[leadCount v vs + 1 + (i - (leadCount v vs + 1))]? := by
                  rw [hidx]
              _ = (dropLead v vs)[i - (leadCount v vs + 1)]? := hshift _
          · by_cases hi1 : i = leadCount v vs + 1
            · left
              omega
            · right
              have hiz : i ≠ 0 := by omega
              have hne := hleft.resolve_left hiz
              have e1 : (dropLead v vs)[i - (leadCount v vs + 1) - 1]? =
                  (v :: vs)[i-1]? := by
                conv_rhs => rw [show i - 1 =
                  leadCount v vs + 1 + (i - (leadCount v vs + 1) - 1) by omega]
                exact (hshift _).symm
              have e2 : (dropLead v vs)[i - (leadCount v vs + 1)]? = (v :: vs)[i]? := by
                conv_rhs => rw [show i =
                  leadCount v vs + 1 + (i - (leadCount v vs + 1)) by omega]
                exact (hshift _).symm
              rw [e1, e2]
              exact hne
          · rcases hright with hr | hr
            · left
              rw [List.length_cons] at hr
              omega
            · right
              have e1 : (dropLead v vs)[j - (leadCount v vs + 1) + 1]? =
                  (v :: vs)[j+1]? := by
                conv_rhs => rw [show j + 1 =
                  leadCount v vs + 1 + (j - (leadCount v vs + 1) + 1) by omega]
                exact (hshift _).symm
              have e2 : (dropLead v vs)[j - (leadCount v vs + 1)]? = (v :: vs)[j]? := by
                conv_rhs => rw [show j =
                  leadCount v vs + 1 + (j - (leadCount v vs + 1)) by omega]
                exact (hshift _).symm
              rw [e1, e2]
              exact hr
        have hres := ih (dropLead v vs) hdlen _ _ (m - (leadCount v vs + 1)) hrun'
          (by omega) (by omega)
        simp only [unresponsiveRuns]
        rw [List.getElem?_append_right (by simp only [List.length_replicate]; omega)]
        have hidx2 : m - (List.replicate (leadCount v vs + 1)
            (decide (t ≤ leadCount v vs + 1))).length = m - (leadCount v vs + 1) := by
          simp only [List.length_replicate]
        rw [hidx2, hres]
        have harg : j - (leadCount v vs + 1) + 1 - (i - (leadCount v vs + 1)) =
            j + 1 - i := by omega
        rw [harg]

/-- C3: for every column and run-length threshold `t`, the Unresponsive-Sensor
Flagger marks position `m` of a maximal run spanning `[i, j]` with
`t ≤ run length`: no member of a maximal run shorter than `t` is flagged, and
every member of a maximal run of length at least `t` is flagged. -/
theorem unresponsive_flag_run_boundary {α : Type} [DecidableEq α] (t : Nat)
    (l : List α) (i j m : Nat) (hrun : IsMaxRun l i j) (him : i ≤ m) (hmj : m ≤ j) :
    (unresponsiveRuns t l)[m]? = some (decide (t ≤ j + 1 - i)) :=
  unresponsiveRuns_maxRun_aux t l.length l (Nat.le_refl _) i j m hrun him hmj

theorem unresponsive_flag_run_boundary_witness :
    (unresponsiveRuns 3 ([5, 5, 5, 2] : List Int))[1]? = some true ∧
    (unresponsiveRuns 3 ([7, 7, 4] : List Int))[0]? = some false := by
  constructor
  · have h := unresponsive_flag_run_boundary 3 ([5, 5, 5, 2] : List Int) 0 2 1
      (by decide) (by decide) (by decide)
    simpa using h
  · have h := unresponsive_flag_run_boundary 3 ([7, 7, 4] : List Int) 0 1 0
      (by decide) (by decide) (by decide)
    simpa using h

/-! ### Frame effect of the refiners -/

theorem flagFold_fcols : ∀ (specs : List FlagSpec) (df : DataFrame),
    ∀ c ∈ (flagFold df specs).2.2, c ∈ specs.map FlagSpec.fname := by
  intro specs
  induction specs with
  | nil =>
    intro df c hc
    rw [flagFold_nil] at hc
    simp at hc
  | cons s rest ih =>
    intro df c hc
    by_cases hcol : df.hasCol s.col = true
    · cases hfl : s.flagger (colVals df s.col) with
      | ok flags =>
        rw [flagFold_cons_ok hcol hfl] at hc
        simp only [List.mem_cons] at hc
        rcases hc with rfl | hc
        · simp
        · exact List.mem_cons_of_mem _ (ih _ c hc)
      | error e =>
        rw [flagFold_cons_error hcol hfl] at hc
        exact List.mem_cons_of_mem _ (ih _ c hc)
    · rw [flagFold_cons_absent hcol] at hc
      exact List.mem_cons_of_mem _ (ih _ c hc)

/-- Structure of the conversion plus dedup stage shared by the time-indexed
refiners. -/
theorem convert_dedup_struct (df0 : DataFrame) (tz : Int) (tc : String) (hwf : WF df0) :
    WF (drop_duplicates (convertFragment df0 tc tz).1 tc) ∧
    (drop_duplicates (convertFragment df0 tc tz).1 tc).header = df0.header ∧
    (drop_duplicates (convertFragment df0 tc tz).1 tc).rows.Sublist
      (convertFragment df0 tc tz).1.rows ∧
    (convertFragment df0 tc tz).1.rows.length = df0.rows.length ∧
    (convertFragment df0 tc tz).1.header = df0.header := by
  have h1 := convertFragment_WF tc tz hwf
  have h2 := convertFragment_header df0 tc tz
  refine ⟨drop_duplicates_WF tc h1, ?_, drop_duplicates_sublist _ tc,
    convertFragment_rows_length df0 tc tz, h2⟩
  rw [drop_duplicates_header, h2]

/-- Projection through the full width collapses to the identity on a
well-formed frame. -/
theorem map_take_full {df : DataFrame} (hwf : WF df) (n : Nat)
    (hn : df.header.length = n) :
    df.rows.map (fun r => r.take n) = df.rows := by
  conv_rhs => rw [← List.map_id df.rows]
  apply List.map_congr_left
  intro r hr
  have := hwf r hr
  simp only [id]
  rw [List.take_of_length_le (by omega)]

theorem scadaRangeSpecs_fnames (pc wc tc2 : String) (pr wr tr : Int × Int) :
    (scadaRangeSpecs pc wc tc2 pr wr tr).map FlagSpec.fname =
      ["flag_power_range", "flag_windspeed_range", "flag_temp_range"] := rfl

theorem scadaUnrespSpecs_fnames (pc wc : String) (thr : Nat) :
    (scadaUnrespSpecs pc wc thr).map FlagSpec.fname =
      ["flag_power_unresponsive", "flag_windspeed_unresponsive"] := rfl

theorem meterRangeSpecs_fnames (ec : String) (er : Int × Int) :
    (meterRangeSpecs ec er).map FlagSpec.fname = ["flag_energy_range"] := rfl

theorem curtailRangeSpecs_fnames (ac cc : String) (ar cr : Int × Int) :
    (curtailRangeSpecs ac cc ar cr).map FlagSpec.fname =
      ["flag_availability_range", "flag_curtailment_range"] := rfl

theorem assetRangeSpecs_fnames (lat lon rp : Int × Int) :
    (assetRangeSpecs lat lon rp).map FlagSpec.fname =
      ["flag_latitude_range", "flag_longitude_range", "flag_rated_power_range"] := rfl

theorem reanalysisRangeSpecs_fnames (wc dc tc2 : String) (wr dr tr : Int × Int) :
    (reanalysisRangeSpecs wc dc tc2 wr dr tr).map FlagSpec.fname =
      ["flag_windspeed_range", "flag_winddir_range", "flag_temp_range"] := rfl

theorem reanalysisUnrespSpecs_fnames (wc : String) (thr : Nat) :
    (reanalysisUnrespSpecs wc thr).map FlagSpec.fname =
      ["flag_windspeed_unresponsive"] := rfl

theorem scadaRangeSpecs_lp (pc wc tc2 : String) (pr wr tr : Int × Int) :
    ∀ s ∈ scadaRangeSpecs pc wc tc2 pr wr tr, LengthPreserving s.flagger := by
  intro s hs
  unfold scadaRangeSpecs at hs
  simp only [List.mem_cons, List.not_mem_nil, or_false] at hs
  rcases hs with rfl | rfl | rfl <;> exact range_flag_lengthPreserving _ _

theorem scadaUnrespSpecs_lp (pc wc : String) (thr : Nat) :
    ∀ s ∈ scadaUnrespSpecs pc wc thr, LengthPreserving s.flagger := by
  intro s hs
  unfold scadaUnrespSpecs at hs
  simp only [List.mem_cons, List.not_mem_nil, or_false] at hs
  rcases hs with rfl | rfl <;> exact unresponsive_flag_lengthPreserving _

theorem meterRangeSpecs_lp (ec : String) (er : Int × Int) :
    ∀ s ∈ meterRangeSpecs ec er, LengthPreserving s.flagger := by
  intro s hs
  unfold meterRangeSpecs at hs
  simp only [List.mem_singleton] at hs
  subst hs
  exact range_flag_lengthPreserving _ _

theorem curtailRangeSpecs_lp (ac cc : String) (ar cr : Int × Int) :
    ∀ s ∈ curtailRangeSpecs ac cc ar cr, LengthPreserving s.flagger := by
  intro s hs
  unfold curtailRangeSpecs at hs
  simp only [List.mem_cons, List.not_mem_nil, or_false] at hs
  rcases hs with rfl | rfl <;> exact range_flag_lengthPreserving _ _

theorem assetRangeSpecs_lp (lat lon rp : Int × Int) :
    ∀ s ∈ assetRangeSpecs lat lon rp, LengthPreserving s.flagger := by
  intro s hs
  unfold assetRangeSpecs at hs
  simp only [List.mem_cons, List.not_mem_nil, or_false] at hs
  rcases hs with rfl | rfl | rfl <;> exact range_flag_lengthPreserving _ _

theorem reanalysisRangeSpecs_lp (wc dc tc2 : String) (wr dr tr : Int × Int) :
    ∀ s ∈ reanalysisRangeSpecs wc dc tc2 wr dr tr, LengthPreserving s.flagger := by
  intro s hs
  unfold reanalysisRangeSpecs at hs
  simp only [List.mem_cons, List.not_mem_nil, or_false] at hs
  rcases hs with rfl | rfl | rfl <;> exact range_flag_lengthPreserving _ _

theorem reanalysisUnrespSpecs_lp (wc : String) (thr : Nat) :
    ∀ s ∈ reanalysisUnrespSpecs wc thr, LengthPreserving s.flagger := by
  intro s hs
  unfold reanalysisUnrespSpecs at hs
  simp only [List.mem_singleton] at hs
  subst hs
  exact unresponsive_flag_lengthPreserving _

theorem refine_scada_frame (df0 : DataFrame) (local_tz : Int)
    (time_col id_col power_col windspeed_col temp_col : String)
    (freq : Int) (pr wr tr : Int × Int) (thr : Nat)
    (hwf : WF df0)
    (h1 : "flag_power_range" ∉ df0.header)
    (h2 : "flag_windspeed_range" ∉ df0.header)
    (h3 : "flag_temp_range" ∉ df0.header)
    (h4 : "flag_power_unresponsive" ∉ df0.header)
    (h5 : "flag_windspeed_unresponsive" ∉ df0.header) :
    ∃ added, (refine_scada df0 local_tz time_col id_col power_col windspeed_col temp_col
        freq pr wr tr thr).1.header = df0.header ++ added ∧
      (∀ c ∈ added, c ∈ ["flag_power_range", "flag_windspeed_range", "flag_temp_range",
        "flag_power_unresponsive", "flag_windspeed_unresponsive"]) ∧
      BoolsBeyond df0.header.length (refine_scada df0 local_tz time_col id_col power_col
        windspeed_col temp_col freq pr wr tr thr).1 ∧
      (refine_scada df0 local_tz time_col id_col power_col windspeed_col temp_col
        freq pr wr tr thr).1.rows.map (fun r => r.take df0.header.length) =
        (drop_duplicates (convertFragment df0 time_col local_tz).1 time_col).rows ∧
      (drop_duplicates (convertFragment df0 time_col local_tz).1 time_col).rows.Sublist
        (convertFragment df0 time_col local_tz).1.rows ∧
      (convertFragment df0 time_col local_tz).1.rows.length = df0.rows.length := by
  obtain ⟨hwfd, hheadd, hsub, hlen1, hhead1⟩ :=
    convert_dedup_struct df0 local_tz time_col hwf
  have hfreshR : ∀ s ∈ scadaRangeSpecs power_col windspeed_col temp_col pr wr tr,
      s.fname ∉ (drop_duplicates (convertFragment df0 time_col local_tz).1
        time_col).header := by
    intro s hs
    rw [hheadd]
    unfold scadaRangeSpecs at hs
    simp only [List.mem_cons, List.not_mem_nil, or_false] at hs
    rcases hs with rfl | rfl | rfl <;> assumption
  have hdistR : ((scadaRangeSpecs power_col windspeed_col temp_col pr wr tr).map
      FlagSpec.fname).Nodup := by
    rw [scadaRangeSpecs_fnames]
    decide
  have hB0 : BoolsBeyond df0.header.length
      (drop_duplicates (convertFragment df0 time_col local_tz).1 time_col) := by
    have := boolsBeyond_of_WF hwfd
    rwa [hheadd] at this
  obtain ⟨r1, r2, r3, r4, r5⟩ := flagFold_struct
    (scadaRangeSpecs power_col windspeed_col temp_col pr wr tr)
    (drop_duplicates (convertFragment df0 time_col local_tz).1 time_col)
    df0.header.length hwfd (by rw [hheadd]) hfreshR hdistR
    (scadaRangeSpecs_lp power_col windspeed_col temp_col pr wr tr) hB0
  have hfreshU : ∀ s ∈ scadaUnrespSpecs power_col windspeed_col thr,
      s.fname ∉ (flagFold (drop_duplicates (convertFragment df0 time_col local_tz).1
        time_col) (scadaRangeSpecs power_col windspeed_col temp_col pr wr tr)).1.header := by
    intro s hs
    rw [r1, hheadd]
    unfold scadaUnrespSpecs at hs
    simp only [List.mem_cons, List.not_mem_nil, or_false] at hs
    intro hmem
    rcases List.mem_append.mp hmem with hmem | hmem
    · rcases hs with rfl | rfl
      · exact h4 hmem
      · exact h5 hmem
    · have hfc := flagFold_fcols _ _ _ hmem
      rw [scadaRangeSpecs_fnames] at hfc
      rcases hs with rfl | rfl <;> simp at hfc
  have hdistU : ((scadaUnrespSpecs power_col windspeed_col thr).map
      FlagSpec.fname).Nodup := by
    rw [scadaUnrespSpecs_fnames]
    decide
  have hnle : df0.header.length ≤ (flagFold (drop_duplicates
      (convertFragment df0 time_col local_tz).1 time_col)
      (scadaRangeSpecs power_col windspeed_col temp_col pr wr tr)).1.header.length := by
    rw [r1, hheadd]
    simp
  obtain ⟨u1, u2, u3, u4, u5⟩ := flagFold_struct
    (scadaUnrespSpecs power_col windspeed_col thr)
    (flagFold (drop_duplicates (convertFragment df0 time_col local_tz).1 time_col)
      (scadaRangeSpecs power_col windspeed_col temp_col pr wr tr)).1
    df0.header.length r3 hnle hfreshU hdistU
    (scadaUnrespSpecs_lp power_col windspeed_col thr) r4
  simp only [refine_scada]
  refine ⟨(flagFold (drop_duplicates (convertFragment df0 time_col local_tz).1 time_col)
      (scadaRangeSpecs power_col windspeed_col temp_col pr wr tr)).2.2 ++
    (flagFold (flagFold (drop_duplicates (convertFragment df0 time_col local_tz).1
      time_col) (scadaRangeSpecs power_col windspeed_col temp_col pr wr tr)).1
      (scadaUnrespSpecs power_col windspeed_col thr)).2.2, ?_, ?_, u4, ?_, hsub, hlen1⟩
  · rw [u1, r1, hheadd, List.append_assoc]
  · intro c hc
    rcases List.mem_append.mp hc with hc | hc
    · have hfc := flagFold_fcols _ _ _ hc
      rw [scadaRangeSpecs_fnames] at hfc
      simp only [List.mem_cons, List.not_mem_nil, or_false] at hfc
      rcases hfc with rfl | rfl | rfl <;> simp
    · have hfc := flagFold_fcols _ _ _ hc
      rw [scadaUnrespSpecs_fnames] at hfc
      simp only [List.mem_cons, List.not_mem_nil, or_false] at hfc
      rcases hfc with rfl | rfl <;> simp
  · rw [u2, r2, map_take_full hwfd _ (by rw [hheadd])]

theorem refine_meter_frame (df0 : DataFrame) (local_tz : Int)
    (time_col energy_col : String) (freq : Int) (er : Int × Int)
    (hwf : WF df0) (h1 : "flag_energy_range" ∉ df0.header) :
    ∃ added, (refine_meter df0 local_tz time_col energy_col freq er).1.header =
        df0.header ++ added ∧
      (∀ c ∈ added, c ∈ ["flag_energy_range"]) ∧
      BoolsBeyond df0.header.length
        (refine_meter df0 local_tz time_col energy_col freq er).1 ∧
      (refine_meter df0 local_tz time_col energy_col freq er).1.rows.map
        (fun r => r.take df0.header.length) =
        (drop_duplicates (convertFragment df0 time_col local_tz).1 time_col).rows ∧
      (drop_duplicates (convertFragment df0 time_col local_tz).1 time_col).rows.Sublist
        (convertFragment df0 time_col local_tz).1.rows ∧
      (convertFragment df0 time_col local_tz).1.rows.length = df0.rows.length := by
  obtain ⟨hwfd, hheadd, hsub, hlen1, hhead1⟩ :=
    convert_dedup_struct df0 local_tz time_col hwf
  have hfreshR : ∀ s ∈ meterRangeSpecs energy_col er,
      s.fname ∉ (drop_duplicates (convertFragment df0 time_col local_tz).1
        time_col).header := by
    intro s hs
    rw [hheadd]
    unfold meterRangeSpecs at hs
    simp only [List.mem_singleton] at hs
    subst hs
    exact h1
  have hdistR : ((meterRangeSpecs energy_col er).map FlagSpec.fname).Nodup := by
    rw [meterRangeSpecs_fnames]
    decide
  have hB0 : BoolsBeyond df0.header.length
      (drop_duplicates (convertFragment df0 time_col local_tz).1 time_col) := by
    have := boolsBeyond_of_WF hwfd
    rwa [hheadd] at this
  obtain ⟨r1, r2, r3, r4, r5⟩ := flagFold_struct (meterRangeSpecs energy_col er)
    (drop_duplicates (convertFragment df0 time_col local_tz).1 time_col)
    df0.header.length hwfd (by rw [hheadd]) hfreshR hdistR
    (meterRangeSpecs_lp energy_col er) hB0
  simp only [refine_meter]
  refine ⟨(flagFold (drop_duplicates (convertFragment df0 time_col local_tz).1 time_col)
      (meterRangeSpecs energy_col er)).2.2, ?_, ?_, r4, ?_, hsub, hlen1⟩
  · rw [r1, hheadd]
  · intro c hc
    have hfc := flagFold_fcols _ _ _ hc
    rwa [meterRangeSpecs_fnames] at hfc
  · rw [r2, map_take_full hwfd _ (by rw [hheadd])]

theorem refine_curtail_frame (df0 : DataFrame) (local_tz : Int)
    (time_col avail_col curtail_col : String) (freq : Int) (ar cr : Int × Int)
    (hwf : WF df0) (h1 : "flag_availability_range" ∉ df0.header)
    (h2 : "flag_curtailment_range" ∉ df0.header) :
    ∃ added, (refine_curtail df0 local_tz time_col avail_col curtail_col
        freq ar cr).1.header = df0.header ++ added ∧
      (∀ c ∈ added, c ∈ ["flag_availability_range", "flag_curtailment_range"]) ∧
      BoolsBeyond df0.header.length
        (refine_curtail df0 local_tz time_col avail_col curtail_col freq ar cr).1 ∧
      (refine_curtail df0 local_tz time_col avail_col curtail_col freq ar cr).1.rows.map
        (fun r => r.take df0.header.length) =
        (drop_duplicates (convertFragment df0 time_col local_tz).1 time_col).rows ∧
      (drop_duplicates (convertFragment df0 time_col local_tz).1 time_col).rows.Sublist
        (convertFragment df0 time_col local_tz).1.rows ∧
      (convertFragment df0 time_col local_tz).1.rows.length = df0.rows.length := by
  obtain ⟨hwfd, hheadd, hsub, hlen1, hhead1⟩ :=
    convert_dedup_struct df0 local_tz time_col hwf
  have hfreshR : ∀ s ∈ curtailRangeSpecs avail_col curtail_col ar cr,
      s.fname ∉ (drop_duplicates (convertFragment df0 time_col local_tz).1
        time_col).header := by
    intro s hs
    rw [hheadd]
    unfold curtailRangeSpecs at hs
    simp only [List.mem_cons, List.not_mem_nil, or_false] at hs
    rcases hs with rfl | rfl <;> assumption
  have hdistR : ((curtailRangeSpecs avail_col curtail_col ar cr).map
      FlagSpec.fname).Nodup := by
    rw [curtailRangeSpecs_fnames]
    decide
  have hB0 : BoolsBeyond df0.header.length
      (drop_duplicates (convertFragment df0 time_col local_tz).1 time_col) := by
    have := boolsBeyond_of_WF hwfd
    rwa [hheadd] at this
  obtain ⟨r1, r2, r3, r4, r5⟩ := flagFold_struct (curtailRangeSpecs avail_col curtail_col ar cr)
    (drop_duplicates (convertFragment df0 time_col local_tz).1 time_col)
    df0.header.length hwfd (by rw [hheadd]) hfreshR hdistR
    (curtailRangeSpecs_lp avail_col curtail_col ar cr) hB0
  simp only [refine_curtail]
  refine ⟨(flagFold (drop_duplicates (convertFragment df0 time_col local_tz).1 time_col)
      (curtailRangeSpecs avail_col curtail_col ar cr)).2.2, ?_, ?_, r4, ?_, hsub, hlen1⟩
  · rw [r1, hheadd]
  · intro c hc
    have hfc := flagFold_fcols _ _ _ hc
    rwa [curtailRangeSpecs_fnames] at hfc
  · rw [r2, map_take_full hwfd _ (by rw [hheadd])]

theorem refine_asset_frame (df0 : DataFrame) (lat lon rp : Int × Int)
    (hwf : WF df0) (h1 : "flag_latitude_range" ∉ df0.header)
    (h2 : "flag_longitude_range" ∉ df0.header)
    (h3 : "flag_rated_power_range" ∉ df0.header) :
    ∃ added, (refine_asset df0 lat lon rp).1.header = df0.header ++ added ∧
      (∀ c ∈ added, c ∈ ["flag_latitude_range", "flag_longitude_range",
        "flag_rated_power_range"]) ∧
      BoolsBeyond df0.header.length (refine_asset df0 lat lon rp).1 ∧
      (refine_asset df0 lat lon rp).1.rows.map (fun r => r.take df0.header.length) =
        df0.rows := by
  have hfreshR : ∀ s ∈ assetRangeSpecs lat lon rp, s.fname ∉ df0.header := by
    intro s hs
    unfold assetRangeSpecs at hs
    simp only [List.mem_cons, List.not_mem_nil, or_false] at hs
    rcases hs with rfl | rfl | rfl <;> assumption
  have hdistR : ((assetRangeSpecs lat lon rp).map FlagSpec.fname).Nodup := by
    rw [assetRangeSpecs_fnames]
    decide
  obtain ⟨r1, r2, r3, r4, r5⟩ := flagFold_struct (assetRangeSpecs lat lon rp) df0
    df0.header.length hwf (Nat.le_refl _) hfreshR hdistR
    (assetRangeSpecs_lp lat lon rp) (boolsBeyond_of_WF hwf)
  simp only [refine_asset]
  refine ⟨(flagFold df0 (assetRangeSpecs lat lon rp)).2.2, r1, ?_, r4, ?_⟩
  · intro c hc
    have hfc := flagFold_fcols _ _ _ hc
    rwa [assetRangeSpecs_fnames] at hfc
  · rw [r2, map_take_full hwf _ rfl]

theorem refine_reanalysis_frame (df0 : DataFrame) (pname : String) (local_tz : Int)
    (time_col windspeed_col winddir_col temp_col : String) (freq : Int)
    (wr dr tr : Int × Int) (thr : Nat)
    (hwf : WF df0)
    (h1 : "flag_windspeed_range" ∉ df0.header)
    (h2 : "flag_winddir_range" ∉ df0.header)
    (h3 : "flag_temp_range" ∉ df0.header)
    (h4 : "flag_windspeed_unresponsive" ∉ df0.header) :
    ∃ added, (refine_reanalysis df0 pname local_tz time_col windspeed_col winddir_col
        temp_col freq wr dr tr thr).1.header = df0.header ++ added ∧
      (∀ c ∈ added, c ∈ ["flag_windspeed_range", "flag_winddir_range", "flag_temp_range",
        "flag_windspeed_unresponsive"]) ∧
      BoolsBeyond df0.header.length (refine_reanalysis df0 pname local_tz time_col
        windspeed_col winddir_col temp_col freq wr dr tr thr).1 ∧
      (refine_reanalysis df0 pname local_tz time_col windspeed_col winddir_col temp_col
        freq wr dr tr thr).1.rows.map (fun r => r.take df0.header.length) =
        (drop_duplicates (convertFragment df0 time_col local_tz).1 time_col).rows ∧
      (drop_duplicates (convertFragment df0 time_col local_tz).1 time_col).rows.Sublist
        (convertFragment df0 time_col local_tz).1.rows ∧
      (convertFragment df0 time_col local_tz).1.rows.length = df0.rows.length := by
  obtain ⟨hwfd, hheadd, hsub, hlen1, hhead1⟩ :=
    convert_dedup_struct df0 local_tz time_col hwf
  have hfreshR : ∀ s ∈ reanalysisRangeSpecs windspeed_col winddir_col temp_col wr dr tr,
      s.fname ∉ (drop_duplicates (convertFragment df0 time_col local_tz).1
        time_col).header := by
    intro s hs
    rw [hheadd]
    unfold reanalysisRangeSpecs at hs
    simp only [List.mem_cons, List.not_mem_nil, or_false] at hs
    rcases hs with rfl | rfl | rfl <;> assumption
  have hdistR : ((reanalysisRangeSpecs windspeed_col winddir_col temp_col wr dr tr).map
      FlagSpec.fname).Nodup := by
    rw [reanalysisRangeSpecs_fnames]
    decide
  have hB0 : BoolsBeyond df0.header.length
      (drop_duplicates (convertFragment df0 time_col local_tz).1 time_col) := by
    have := boolsBeyond_of_WF hwfd
    rwa [hheadd] at this
  obtain ⟨r1, r2, r3, r4, r5⟩ := flagFold_struct
    (reanalysisRangeSpecs windspeed_col winddir_col temp_col wr dr tr)
    (drop_duplicates (convertFragment df0 time_col local_tz).1 time_col)
    df0.header.length hwfd (by rw [hheadd]) hfreshR hdistR
    (reanalysisRangeSpecs_lp windspeed_col winddir_col temp_col wr dr tr) hB0
  have hfreshU : ∀ s ∈ reanalysisUnrespSpecs windspeed_col thr,
      s.fname ∉ (flagFold (drop_duplicates (convertFragment df0 time_col local_tz).1
        time_col) (reanalysisRangeSpecs windspeed_col winddir_col temp_col
        wr dr tr)).1.header := by
    intro s hs
    rw [r1, hheadd]
    unfold reanalysisUnrespSpecs at hs
    simp only [List.mem_singleton] at hs
    subst hs
    intro hmem
    rcases List.mem_append.mp hmem with hmem | hmem
    · exact h4 hmem
    · have hfc := flagFold_fcols _ _ _ hmem
      rw [reanalysisRangeSpecs_fnames] at hfc
      simp at hfc
  have hdistU : ((reanalysisUnrespSpecs windspeed_col thr).map FlagSpec.fname).Nodup := by
    rw [reanalysisUnrespSpecs_fnames]
    decide
  have hnle : df0.header.length ≤ (flagFold (drop_duplicates
      (convertFragment df0 time_col local_tz).1 time_col)
      (reanalysisRangeSpecs windspeed_col winddir_col temp_col wr dr tr)).1.header.length := by
    rw [r1, hheadd]
    simp
  obtain ⟨u1, u2, u3, u4, u5⟩ := flagFold_struct (reanalysisUnrespSpecs windspeed_col thr)
    (flagFold (drop_duplicates (convertFragment df0 time_col local_tz).1 time_col)
      (reanalysisRangeSpecs windspeed_col winddir_col temp_col wr dr tr)).1
    df0.header.length r3 hnle hfreshU hdistU
    (reanalysisUnrespSpecs_lp windspeed_col thr) r4
  simp only [refine_reanalysis]
  refine ⟨(flagFold (drop_duplicates (convertFragment df0 time_col local_tz).1 time_col)
      (reanalysisRangeSpecs windspeed_col winddir_col temp_col wr dr tr)).2.2 ++
    (flagFold (flagFold (drop_duplicates (convertFragment df0 time_col local_tz).1
      time_col) (reanalysisRangeSpecs windspeed_col winddir_col temp_col wr dr tr)).1
      (reanalysisUnrespSpecs windspeed_col thr)).2.2, ?_, ?_, u4, ?_, hsub, hlen1⟩
  · rw [u1, r1, hheadd, List.append_assoc]
  · intro c hc
    rcases List.mem_append.mp hc with hc | hc
    · have hfc := flagFold_fcols _ _ _ hc
      rw [reanalysisRangeSpecs_fnames] at hfc
      simp only [List.mem_cons, List.not_mem_nil, or_false] at hfc
      rcases hfc with rfl | rfl | rfl <;> simp
    · have hfc := flagFold_fcols _ _ _ hc
      rw [reanalysisUnrespSpecs_fnames] at hfc
      simp only [List.mem_singleton] at hfc
      subst hfc
      simp
  · rw [u2, r2, map_take_full hwfd _ (by rw [hheadd])]

/-- C7: for every dataset refiner and every (rectangular) input whose columns
do not already use the reserved flag names, refinement never deletes a data
column — every input column is still present, the only added columns are the
boolean flag columns — and the only rows ever removed are the duplicates
dropped by the dedup step: conversion keeps the row count, the cleaned rows
restricted to the input width are exactly the post-dedup rows (a sublist of
the converted rows), and flagging drops nothing. -/
theorem refine_preserves_columns_and_rows :
    (∀ df0 local_tz time_col id_col power_col windspeed_col temp_col freq pr wr tr thr,
      WF df0 →
      "flag_power_range" ∉ df0.header → "flag_windspeed_range" ∉ df0.header →
      "flag_temp_range" ∉ df0.header → "flag_power_unresponsive" ∉ df0.header →
      "flag_windspeed_unresponsive" ∉ df0.header →
      (∀ c ∈ df0.header, c ∈ (refine_scada df0 local_tz time_col id_col power_col
        windspeed_col temp_col freq pr wr tr thr).1.header) ∧
      (∃ added, (refine_scada df0 local_tz time_col id_col power_col windspeed_col
          temp_col freq pr wr tr thr).1.header = df0.header ++ added ∧
        ∀ c ∈ added, c ∈ ["flag_power_range", "flag_windspeed_range", "flag_temp_range",
          "flag_power_unresponsive", "flag_windspeed_unresponsive"]) ∧
      BoolsBeyond df0.header.length (refine_scada df0 local_tz time_col id_col power_col
        windspeed_col temp_col freq pr wr tr thr).1 ∧
      (refine_scada df0 local_tz time_col id_col power_col windspeed_col temp_col
        freq pr wr tr thr).1.rows.map (fun r => r.take df0.header.length) =
        (drop_duplicates (convertFragment df0 time_col local_tz).1 time_col).rows ∧
      (drop_duplicates (convertFragment df0 time_col local_tz).1 time_col).rows.Sublist
        (convertFragment df0 time_col local_tz).1.rows ∧
      (convertFragment df0 time_col local_tz).1.rows.length = df0.rows.length) ∧
    (∀ df0 local_tz time_col energy_col freq er,
      WF df0 → "flag_energy_range" ∉ df0.header →
      (∀ c ∈ df0.header, c ∈ (refine_meter df0 local_tz time_col energy_col
        freq er).1.header) ∧
      (∃ added, (refine_meter df0 local_tz time_col energy_col freq er).1.header =
          df0.header ++ added ∧ ∀ c ∈ added, c ∈ ["flag_energy_range"]) ∧
      BoolsBeyond df0.header.length
        (refine_meter df0 local_tz time_col energy_col freq er).1 ∧
      (refine_meter df0 local_tz time_col energy_col freq er).1.rows.map
        (fun r => r.take df0.header.length) =
        (drop_duplicates (convertFragment df0 time_col local_tz).1 time_col).rows ∧
      (drop_duplicates (convertFragment df0 time_col local_tz).1 time_col).rows.Sublist
        (convertFragment df0 time_col local_tz).1.rows ∧
      (convertFragment df0 time_col local_tz).1.rows.length = df0.rows.length) ∧
    (∀ df0 local_tz time_col avail_col curtail_col freq ar cr,
      WF df0 → "flag_availability_range" ∉ df0.header →
      "flag_curtailment_range" ∉ df0.header →
      (∀ c ∈ df0.header, c ∈ (refine_curtail df0 local_tz time_col avail_col curtail_col
        freq ar cr).1.header) ∧
      (∃ added, (refine_curtail df0 local_tz time_col avail_col curtail_col
          freq ar cr).1.header = df0.header ++ added ∧
        ∀ c ∈ added, c ∈ ["flag_availability_range", "flag_curtailment_range"]) ∧
      BoolsBeyond df0.header.length
        (refine_curtail df0 local_tz time_col avail_col curtail_col freq ar cr).1 ∧
      (refine_curtail df0 local_tz time_col avail_col curtail_col freq ar cr).1.rows.map
        (fun r => r.take df0.header.length) =
        (drop_duplicates (convertFragment df0 time_col local_tz).1 time_col).rows ∧
      (drop_duplicates (convertFragment df0 time_col local_tz).1 time_col).rows.Sublist
        (convertFragment df0 time_col local_tz).1.rows ∧
      (convertFragment df0 time_col local_tz).1.rows.length = df0.rows.length) ∧
    (∀ df0 lat lon rp,
      WF df0 → "flag_latitude_range" ∉ df0.header → "flag_longitude_range" ∉ df0.header →
      "flag_rated_power_range" ∉ df0.header →
      (∀ c ∈ df0.header, c ∈ (refine_asset df0 lat lon rp).1.header) ∧
      (∃ added, (refine_asset df0 lat lon rp).1.header = df0.header ++ added ∧
        ∀ c ∈ added, c ∈ ["flag_latitude_range", "flag_longitude_range",
          "flag_rated_power_range"]) ∧
      BoolsBeyond df0.header.length (refine_asset df0 lat lon rp).1 ∧
      (refine_asset df0 lat lon rp).1.rows.map (fun r => r.take df0.header.length) =
        df0.rows) ∧
    (∀ df0 pname local_tz time_col windspeed_col winddir_col temp_col freq wr dr tr thr,
      WF df0 →
      "flag_windspeed_range" ∉ df0.header → "flag_winddir_range" ∉ df0.header →
      "flag_temp_range" ∉ df0.header → "flag_windspeed_unresponsive" ∉ df0.header →
      (∀ c ∈ df0.header, c ∈ (refine_reanalysis df0 pname local_tz time_col windspeed_col
        winddir_col temp_col freq wr dr tr thr).1.header) ∧
      (∃ added, (refine_reanalysis df0 pname local_tz time_col windspeed_col winddir_col
          temp_col freq wr dr tr thr).1.header = df0.header ++ added ∧
        ∀ c ∈ added, c ∈ ["flag_windspeed_range", "flag_winddir_range", "flag_temp_range",
          "flag_windspeed_unresponsive"]) ∧
      BoolsBeyond df0.header.length (refine_reanalysis df0 pname local_tz time_col
        windspeed_col winddir_col temp_col freq wr dr tr thr).1 ∧
      (refine_reanalysis df0 pname local_tz time_col windspeed_col winddir_col temp_col
        freq wr dr tr thr).1.rows.map (fun r => r.take df0.header.length) =
        (drop_duplicates (convertFragment df0 time_col local_tz).1 time_col).rows ∧
      (drop_duplicates (convertFragment df0 time_col local_tz).1 time_col).rows.Sublist
        (convertFragment df0 time_col local_tz).1.rows ∧
      (convertFragment df0 time_col local_tz).1.rows.length = df0.rows.length) := by
  refine ⟨?_, ?_, ?_, ?_, ?_⟩
  · intro df0 local_tz time_col id_col power_col windspeed_col temp_col freq pr wr tr thr
      hwf h1 h2 h3 h4 h5
    obtain ⟨added, ha1, ha2, ha3, ha4, ha5, ha6⟩ := refine_scada_frame df0 local_tz
      time_col id_col power_col windspeed_col temp_col freq pr wr tr thr hwf h1 h2 h3 h4 h5
    exact ⟨fun c hc => ha1 ▸ List.mem_append_left _ hc, ⟨added, ha1, ha2⟩,
      ha3, ha4, ha5, ha6⟩
  · intro df0 local_tz time_col energy_col freq er hwf h1
    obtain ⟨added, ha1, ha2, ha3, ha4, ha5, ha6⟩ := refine_meter_frame df0 local_tz
      time_col energy_col freq er hwf h1
    exact ⟨fun c hc => ha1 ▸ List.mem_append_left _ hc, ⟨added, ha1, ha2⟩,
      ha3, ha4, ha5, ha6⟩
  · intro df0 local_tz time_col avail_col curtail_col freq ar cr hwf h1 h2
    obtain ⟨added, ha1, ha2, ha3, ha4, ha5, ha6⟩ := refine_curtail_frame df0 local_tz
      time_col avail_col curtail_col freq ar cr hwf h1 h2
    exact ⟨fun c hc => ha1 ▸ List.mem_append_left _ hc, ⟨added, ha1, ha2⟩,
      ha3, ha4, ha5, ha6⟩
  · intro df0 lat lon rp hwf h1 h2 h3
    obtain ⟨added, ha1, ha2, ha3, ha4⟩ := refine_asset_frame df0 lat lon rp hwf h1 h2 h3
    exact ⟨fun c hc => ha1 ▸ List.mem_append_left _ hc, ⟨added, ha1, ha2⟩, ha3, ha4⟩
  · intro df0 pname local_tz time_col windspeed_col winddir_col temp_col freq wr dr tr thr
      hwf h1 h2 h3 h4
    obtain ⟨added, ha1, ha2, ha3, ha4, ha5, ha6⟩ := refine_reanalysis_frame df0 pname
      local_tz time_col windspeed_col winddir_col temp_col freq wr dr tr thr hwf h1 h2 h3 h4
    exact ⟨fun c hc => ha1 ▸ List.mem_append_left _ hc, ⟨added, ha1, ha2⟩,
      ha3, ha4, ha5, ha6⟩

theorem refine_preserves_columns_and_rows_witness :
    (∀ c ∈ wScadaDF.header, c ∈ (refine_scada wScadaDF 0 "Date_time" "Wind_turbine_name"
      "P_avg" "Ws_avg" "Ot_avg" 10 (-20, 2200) (0, 50) (-40, 50) 3).1.header) ∧
    (∀ c ∈ wDupDF.header, c ∈ (refine_meter wDupDF 0 "t" "MMTR_SupWh"
      10 (-100, 10000000) : DataFrame × Report).1.header) ∧
    (∀ c ∈ wDupDF.header, c ∈ (refine_curtail wDupDF 0 "t" "IAVL_DnWh" "IAVL_ExtPwrDnWh"
      10 (0, 10000000) (0, 10000000)).1.header) ∧
    (∀ c ∈ wDupDF.header, c ∈ (refine_asset wDupDF (-90, 90) (-180, 180)
      (0, 10000000)).1.header) ∧
    (∀ c ∈ wDupDF.header, c ∈ (refine_reanalysis wDupDF "era5" 0 "t" "WMETR_HorWdSpd"
      "WMETR_HorWdDir" "WMETR_EnvTmp" 60 (0, 80) (0, 360) (200, 340) 3).1.header) := by
  refine ⟨?_, ?_, ?_, ?_, ?_⟩
  · exact (refine_preserves_columns_and_rows.1 wScadaDF 0 "Date_time" "Wind_turbine_name"
      "P_avg" "Ws_avg" "Ot_avg" 10 (-20, 2200) (0, 50) (-40, 50) 3 (by decide) (by decide)
      (by decide) (by decide) (by decide) (by decide)).1
  · exact (refine_preserves_columns_and_rows.2.1 wDupDF 0 "t" "MMTR_SupWh" 10
      (-100, 10000000) (by decide) (by decide)).1
  · exact (refine_preserves_columns_and_rows.2.2.1 wDupDF 0 "t" "IAVL_DnWh"
      "IAVL_ExtPwrDnWh" 10 (0, 10000000) (0, 10000000) (by decide) (by decide)
      (by decide)).1
  · exact (refine_preserves_columns_and_rows.2.2.2.1 wDupDF (-90, 90) (-180, 180)
      (0, 10000000) (by decide) (by decide) (by decide) (by decide)).1
  · exact (refine_preserves_columns_and_rows.2.2.2.2 wDupDF "era5" 0 "t" "WMETR_HorWdSpd"
      "WMETR_HorWdDir" "WMETR_EnvTmp" 60 (0, 80) (0, 360) (200, 340) 3 (by decide)
      (by decide) (by decide) (by decide) (by decide)).1

/-! ### Count fields match flag columns -/

/-- The report keys written by the first four SCADA fragments. -/
def scadaHeadKeys : List String :=
  ["datetime_converted", "datetime_error", "duplicate_original_count",
   "duplicate_utc_count", "duplicate_check_error", "rows_dropped_duplicates",
   "time_gaps_original_count", "time_gaps_utc_count", "time_gap_timestamps_utc",
   "gap_check_error"]

theorem mem_of_small {k : String} {small big : List String} (hk : k ∈ small)
    (hsub : ∀ x ∈ small, x ∈ big) : k ∈ big := hsub k hk

theorem scadaHead_keys (df0 : DataFrame) (tz : Int) (tc ic : String) (freq : Int)
    (x : RVal) :
    ∀ p ∈ (convertFragment df0 tc tz).2 ++
      dupFragment (convertFragment df0 tc tz).1 tc ic ++
      [("rows_dropped_duplicates", x)] ++
      gapFragmentScada (drop_duplicates (convertFragment df0 tc tz).1 tc) tc freq,
      p.1 ∈ scadaHeadKeys := by
  intro p hp
  rcases List.mem_append.mp hp with hp | hp
  · rcases List.mem_append.mp hp with hp | hp
    · rcases List.mem_append.mp hp with hp | hp
      · exact mem_of_small (convertFragment_keys _ _ _ p hp) (by decide)
      · exact mem_of_small (dupFragment_keys _ _ _ p hp) (by decide)
    · simp only [List.mem_singleton] at hp
      subst hp
      show "rows_dropped_duplicates" ∈ scadaHeadKeys
      decide
  · exact mem_of_small (gapFragmentScada_keys _ _ _ p hp) (by decide)

/-- The report keys written by the first four meter/curtail/reanalysis
fragments. -/
def basicHeadKeys : List String :=
  ["datetime_converted", "datetime_error", "duplicate_original_count",
   "duplicate_utc_count", "duplicate_check_error", "rows_dropped_duplicates",
   "time_gaps_original_count", "time_gaps_utc_count", "gap_check_error"]

theorem basicHead_keys (df0 : DataFrame) (tz : Int) (tc ic : String) (freq : Int)
    (x : RVal) :
    ∀ p ∈ (convertFragment df0 tc tz).2 ++
      dupFragment (convertFragment df0 tc tz).1 tc ic ++
      [("rows_dropped_duplicates", x)] ++
      gapFragment (drop_duplicates (convertFragment df0 tc tz).1 tc) tc freq,
      p.1 ∈ basicHeadKeys := by
  intro p hp
  rcases List.mem_append.mp hp with hp | hp
  · rcases List.mem_append.mp hp with hp | hp
    · rcases List.mem_append.mp hp with hp | hp
      · exact mem_of_small (convertFragment_keys _ _ _ p hp) (by decide)
      · exact mem_of_small (dupFragment_keys _ _ _ p hp) (by decide)
    · simp only [List.mem_singleton] at hp
      subst hp
      show "rows_dropped_duplicates" ∈ basicHeadKeys
      decide
  · exact mem_of_small (gapFragment_keys _ _ _ p hp) (by decide)

theorem scadaRangeSpecs_countKeys (pc wc tc2 : String) (pr wr tr : Int × Int) :
    ((scadaRangeSpecs pc wc tc2 pr wr tr).map FlagSpec.countKey) ++
      ((scadaRangeSpecs pc wc tc2 pr wr tr).map FlagSpec.errKey) =
    ["range_flag_flag_power_range_count", "range_flag_flag_windspeed_range_count",
     "range_flag_flag_temp_range_count", "range_flag_flag_power_range_error",
     "range_flag_flag_windspeed_range_error", "range_flag_flag_temp_range_error"] := rfl

theorem scadaUnrespSpecs_countKeys (pc wc : String) (thr : Nat) :
    ((scadaUnrespSpecs pc wc thr).map FlagSpec.countKey) ++
      ((scadaUnrespSpecs pc wc thr).map FlagSpec.errKey) =
    ["unresponsive_flag_power_unresponsive_count",
     "unresponsive_flag_windspeed_unresponsive_count",
     "unresponsive_flag_power_unresponsive_error",
     "unresponsive_flag_windspeed_unresponsive_error"] := rfl

theorem refine_scada_count (df0 : DataFrame) (local_tz : Int)
    (time_col id_col power_col windspeed_col temp_col : String)
    (freq : Int) (pr wr tr : Int × Int) (thr : Nat)
    (hwf : WF df0)
    (h1 : "flag_power_range" ∉ df0.header)
    (h2 : "flag_windspeed_range" ∉ df0.header)
    (h3 : "flag_temp_range" ∉ df0.header)
    (h4 : "flag_power_unresponsive" ∉ df0.header)
    (h5 : "flag_windspeed_unresponsive" ∉ df0.header) :
    (∀ s ∈ scadaRangeSpecs power_col windspeed_col temp_col pr wr tr, ∀ z : Int,
      rget (refine_scada df0 local_tz time_col id_col power_col windspeed_col temp_col
        freq pr wr tr thr).2 s.countKey = some (RVal.rInt z) →
      ((colVals (refine_scada df0 local_tz time_col id_col power_col windspeed_col
        temp_col freq pr wr tr thr).1 s.fname).countP
        (fun v => decide (v = Value.vBool true)) : Int) = z) ∧
    (∀ s ∈ scadaUnrespSpecs power_col windspeed_col thr, ∀ z : Int,
      rget (refine_scada df0 local_tz time_col id_col power_col windspeed_col temp_col
        freq pr wr tr thr).2 s.countKey = some (RVal.rInt z) →
      ((colVals (refine_scada df0 local_tz time_col id_col power_col windspeed_col
        temp_col freq pr wr tr thr).1 s.fname).countP
        (fun v => decide (v = Value.vBool true)) : Int) = z) := by
  obtain ⟨hwfd, hheadd, hsub, hlen1, hhead1⟩ :=
    convert_dedup_struct df0 local_tz time_col hwf
  have hfreshR : ∀ s ∈ scadaRangeSpecs power_col windspeed_col temp_col pr wr tr,
      s.fname ∉ (drop_duplicates (convertFragment df0 time_col local_tz).1
        time_col).header := by
    intro s hs
    rw [hheadd]
    unfold scadaRangeSpecs at hs
    simp only [List.mem_cons, List.not_mem_nil, or_false] at hs
    rcases hs with rfl | rfl | rfl <;> assumption
  have hdistR : ((scadaRangeSpecs power_col windspeed_col temp_col pr wr tr).map
      FlagSpec.fname).Nodup := by
    rw [scadaRangeSpecs_fnames]
    decide
  have hkeysR : (((scadaRangeSpecs power_col windspeed_col temp_col pr wr tr).map
      FlagSpec.countKey) ++ ((scadaRangeSpecs power_col windspeed_col temp_col
      pr wr tr).map FlagSpec.errKey)).Nodup := by
    rw [scadaRangeSpecs_countKeys]
    decide
  have hB0 : BoolsBeyond df0.header.length
      (drop_duplicates (convertFragment df0 time_col local_tz).1 time_col) := by
    have := boolsBeyond_of_WF hwfd
    rwa [hheadd] at this
  obtain ⟨r1, r2, r3, r4, r5⟩ := flagFold_struct
    (scadaRangeSpecs power_col windspeed_col temp_col pr wr tr)
    (drop_duplicates (convertFragment df0 time_col local_tz).1 time_col)
    df0.header.length hwfd (by rw [hheadd]) hfreshR hdistR
    (scadaRangeSpecs_lp power_col windspeed_col temp_col pr wr tr) hB0
  have hfreshU : ∀ s ∈ scadaUnrespSpecs power_col windspeed_col thr,
      s.fname ∉ (flagFold (drop_duplicates (convertFragment df0 time_col local_tz).1
        time_col) (scadaRangeSpecs power_col windspeed_col temp_col pr wr tr)).1.header := by
    intro s hs
    rw [r1, hheadd]
    unfold scadaUnrespSpecs at hs
    simp only [List.mem_cons, List.not_mem_nil, or_false] at hs
    intro hmem
    rcases List.mem_append.mp hmem with hmem | hmem
    · rcases hs with rfl | rfl
      · exact h4 hmem
      · exact h5 hmem
    · have hfc := flagFold_fcols _ _ _ hmem
      rw [scadaRangeSpecs_fnames] at hfc
      rcases hs with rfl | rfl <;> simp at hfc
  have hdistU : ((scadaUnrespSpecs power_col windspeed_col thr).map
      FlagSpec.fname).Nodup := by
    rw [scadaUnrespSpecs_fnames]
    decide
  have hkeysU : (((scadaUnrespSpecs power_col windspeed_col thr).map
      FlagSpec.countKey) ++ ((scadaUnrespSpecs power_col windspeed_col thr).map
      FlagSpec.errKey)).Nodup := by
    rw [scadaUnrespSpecs_countKeys]
    decide
  constructor
  · intro s hs z hz
    have hkmem := (scadaRangeSpecs_keys power_col windspeed_col temp_col pr wr tr s hs).1
    have hd1 : ∀ k ∈ scadaRangeKeys,
        "flag_columns_added" ≠ k ∧ "final_row_count" ≠ k := by decide
    have hd2 : ∀ k ∈ scadaRangeKeys, k ∉ scadaUnrespKeys := by decide
    have hd3 : ∀ k ∈ scadaRangeKeys, k ∉ scadaHeadKeys := by decide
    simp only [refine_scada] at hz ⊢
    rw [rget_append_left (rget_pair_none (hd1 _ hkmem).1 (hd1 _ hkmem).2),
      rget_append_left (rget_none_of_keys (flagFold_keys_sub
        (scadaUnrespSpecs_keys power_col windspeed_col thr) _) (hd2 _ hkmem)),
      rget_append] at hz
    cases h4r : rget (flagFold (drop_duplicates (convertFragment df0 time_col local_tz).1
        time_col) (scadaRangeSpecs power_col windspeed_col temp_col pr wr tr)).2.1
        s.countKey with
    | some w =>
      rw [h4r] at hz
      simp only [Option.or_some, Option.some_inj] at hz
      subst hz
      obtain ⟨hmem, hcount⟩ := flagFold_count
        (scadaRangeSpecs power_col windspeed_col temp_col pr wr tr)
        (drop_duplicates (convertFragment df0 time_col local_tz).1 time_col)
        hwfd hfreshR hdistR hkeysR
        (scadaRangeSpecs_lp power_col windspeed_col temp_col pr wr tr) s hs z h4r
      obtain ⟨u1, u2, u3, u4, u5⟩ := flagFold_struct
        (scadaUnrespSpecs power_col windspeed_col thr)
        (flagFold (drop_duplicates (convertFragment df0 time_col local_tz).1 time_col)
          (scadaRangeSpecs power_col windspeed_col temp_col pr wr tr)).1
        (flagFold (drop_duplicates (convertFragment df0 time_col local_tz).1 time_col)
          (scadaRangeSpecs power_col windspeed_col temp_col pr wr tr)).1.header.length
        r3 (Nat.le_refl _) hfreshU hdistU
        (scadaUnrespSpecs_lp power_col windspeed_col thr) (boolsBeyond_of_WF r3)
      rw [colVals_eq_of_proj u1 u2 hmem]
      exact hcount
    | none =>
      rw [h4r] at hz
      simp only [Option.none_or] at hz
      rw [rget_none_of_keys (scadaHead_keys df0 local_tz time_col id_col freq _)
        (hd3 _ hkmem)] at hz
      cases hz
  · intro s hs z hz
    have hkmem := (scadaUnrespSpecs_keys power_col windspeed_col thr s hs).1
    have hd1 : ∀ k ∈ scadaUnrespKeys,
        "flag_columns_added" ≠ k ∧ "final_row_count" ≠ k := by decide
    have hd2 : ∀ k ∈ scadaUnrespKeys, k ∉ scadaRangeKeys := by decide
    have hd3 : ∀ k ∈ scadaUnrespKeys, k ∉ scadaHeadKeys := by decide
    simp only [refine_scada] at hz ⊢
    rw [rget_append_left (rget_pair_none (hd1 _ hkmem).1 (hd1 _ hkmem).2),
      rget_append] at hz
    cases h5r : rget (flagFold (flagFold (drop_duplicates
        (convertFragment df0 time_col local_tz).1 time_col)
        (scadaRangeSpecs power_col windspeed_col temp_col pr wr tr)).1
        (scadaUnrespSpecs power_col windspeed_col thr)).2.1 s.countKey with
    | some w =>
      rw [h5r] at hz
      simp only [Option.or_some, Option.some_inj] at hz
      subst hz
      obtain ⟨hmem, hcount⟩ := flagFold_count
        (scadaUnrespSpecs power_col windspeed_col thr)
        (flagFold (drop_duplicates (convertFragment df0 time_col local_tz).1 time_col)
          (scadaRangeSpecs power_col windspeed_col temp_col pr wr tr)).1
        r3 hfreshU hdistU hkeysU
        (scadaUnrespSpecs_lp power_col windspeed_col thr) s hs z h5r
      exact hcount
    | none =>
      rw [h5r] at hz
      simp only [Option.none_or] at hz
      rw [rget_append_left (rget_none_of_keys (flagFold_keys_sub
        (scadaRangeSpecs_keys power_col windspeed_col temp_col pr wr tr) _)
        (hd2 _ hkmem)),
        rget_none_of_keys (scadaHead_keys df0 local_tz time_col id_col freq _)
        (hd3 _ hkmem)] at hz
      cases hz

/-- The report keys of the reanalysis range-flag loop. -/
def reanalysisRangeKeys : List String :=
  ["flag_windspeed_range_count", "flag_windspeed_range_error",
   "flag_winddir_range_count", "flag_winddir_range_error",
   "flag_temp_range_count", "flag_temp_range_error"]

/-- The report keys of the reanalysis unresponsive-flag loop. -/
def reanalysisUnrespKeys : List String :=
  ["unresponsive_windspeed_count", "unresponsive_windspeed_error"]

theorem reanalysisRangeSpecs_keys (wc dc tc2 : String) (wr dr tr : Int × Int) :
    ∀ s ∈ reanalysisRangeSpecs wc dc tc2 wr dr tr,
      s.countKey ∈ reanalysisRangeKeys ∧ s.errKey ∈ reanalysisRangeKeys := by
  intro s hs
  unfold reanalysisRangeSpecs at hs
  simp only [List.mem_cons, List.not_mem_nil, or_false] at hs
  rcases hs with rfl | rfl | rfl <;>
    exact ⟨by simp [reanalysisRangeKeys], by simp [reanalysisRangeKeys]⟩

theorem reanalysisUnrespSpecs_keys (wc : String) (thr : Nat) :
    ∀ s ∈ reanalysisUnrespSpecs wc thr,
      s.countKey ∈ reanalysisUnrespKeys ∧ s.errKey ∈ reanalysisUnrespKeys := by
  intro s hs
  unfold reanalysisUnrespSpecs at hs
  simp only [List.mem_singleton] at hs
  subst hs
  exact ⟨by simp [reanalysisUnrespKeys], by simp [reanalysisUnrespKeys]⟩

theorem reanalysisRangeSpecs_countKeys (wc dc tc2 : String) (wr dr tr : Int × Int) :
    ((reanalysisRangeSpecs wc dc tc2 wr dr tr).map FlagSpec.countKey) ++
      ((reanalysisRangeSpecs wc dc tc2 wr dr tr).map FlagSpec.errKey) =
    ["flag_windspeed_range_count", "flag_winddir_range_count", "flag_temp_range_count",
     "flag_windspeed_range_error", "flag_winddir_range_error",
     "flag_temp_range_error"] := rfl

theorem reanalysisUnrespSpecs_countKeys (wc : String) (thr : Nat) :
    ((reanalysisUnrespSpecs wc thr).map FlagSpec.countKey) ++
      ((reanalysisUnrespSpecs wc thr).map FlagSpec.errKey) =
    ["unresponsive_windspeed_count", "unresponsive_windspeed_error"] := rfl

theorem refine_reanalysis_count (df0 : DataFrame) (pname : String) (local_tz : Int)
    (time_col windspeed_col winddir_col temp_col : String) (freq : Int)
    (wr dr tr : Int × Int) (thr : Nat)
    (hwf : WF df0)
    (h1 : "flag_windspeed_range" ∉ df0.header)
    (h2 : "flag_winddir_range" ∉ df0.header)
    (h3 : "flag_temp_range" ∉ df0.header)
    (h4 : "flag_windspeed_unresponsive" ∉ df0.header) :
    (∀ s ∈ reanalysisRangeSpecs windspeed_col winddir_col temp_col wr dr tr, ∀ z : Int,
      rget (refine_reanalysis df0 pname local_tz time_col windspeed_col winddir_col
        temp_col freq wr dr tr thr).2 s.countKey = some (RVal.rInt z) →
      ((colVals (refine_reanalysis df0 pname local_tz time_col windspeed_col winddir_col
        temp_col freq wr dr tr thr).1 s.fname).countP
        (fun v => decide (v = Value.vBool true)) : Int) = z) ∧
    (∀ s ∈ reanalysisUnrespSpecs windspeed_col thr, ∀ z : Int,
      rget (refine_reanalysis df0 pname local_tz time_col windspeed_col winddir_col
        temp_col freq wr dr tr thr).2 s.countKey = some (RVal.rInt z) →
      ((colVals (refine_reanalysis df0 pname local_tz time_col windspeed_col winddir_col
        temp_col freq wr dr tr thr).1 s.fname).countP
        (fun v => decide (v = Value.vBool true)) : Int) = z) := by
  obtain ⟨hwfd, hheadd, hsub, hlen1, hhead1⟩ :=
    convert_dedup_struct df0 local_tz time_col hwf
  have hfreshR : ∀ s ∈ reanalysisRangeSpecs windspeed_col winddir_col temp_col wr dr tr,
      s.fname ∉ (drop_duplicates (convertFragment df0 time_col local_tz).1
        time_col).header := by
    intro s hs
    rw [hheadd]
    unfold reanalysisRangeSpecs at hs
    simp only [List.mem_cons, List.not_mem_nil, or_false] at hs
    rcases hs with rfl | rfl | rfl <;> assumption
  have hdistR : ((reanalysisRangeSpecs windspeed_col winddir_col temp_col wr dr tr).map
      FlagSpec.fname).Nodup := by
    rw [reanalysisRangeSpecs_fnames]
    decide
  have hkeysR : (((reanalysisRangeSpecs windspeed_col winddir_col temp_col
      wr dr tr).map FlagSpec.countKey) ++ ((reanalysisRangeSpecs windspeed_col
      winddir_col temp_col wr dr tr).map FlagSpec.errKey)).Nodup := by
    rw [reanalysisRangeSpecs_countKeys]
    decide
  have hB0 : BoolsBeyond df0.header.length
      (drop_duplicates (convertFragment df0 time_col local_tz).1 time_col) := by
    have := boolsBeyond_of_WF hwfd
    rwa [hheadd] at this
  obtain ⟨r1, r2, r3, r4, r5⟩ := flagFold_struct
    (reanalysisRangeSpecs windspeed_col winddir_col temp_col wr dr tr)
    (drop_duplicates (convertFragment df0 time_col local_tz).1 time_col)
    df0.header.length hwfd (by rw [hheadd]) hfreshR hdistR
    (reanalysisRangeSpecs_lp windspeed_col winddir_col temp_col wr dr tr) hB0
  have hfreshU : ∀ s ∈ reanalysisUnrespSpecs windspeed_col thr,
      s.fname ∉ (flagFold (drop_duplicates (convertFragment df0 time_col local_tz).1
        time_col) (reanalysisRangeSpecs windspeed_col winddir_col temp_col
        wr dr tr)).1.header := by
    intro s hs
    rw [r1, hheadd]
    unfold reanalysisUnrespSpecs at hs
    simp only [List.mem_singleton] at hs
    subst hs
    intro hmem
    rcases List.mem_append.mp hmem with hmem | hmem
    · exact h4 hmem
    · have hfc := flagFold_fcols _ _ _ hmem
      rw [reanalysisRangeSpecs_fnames] at hfc
      simp at hfc
  have hdistU : ((reanalysisUnrespSpecs windspeed_col thr).map FlagSpec.fname).Nodup := by
    rw [reanalysisUnrespSpecs_fnames]
    decide
  have hkeysU : (((reanalysisUnrespSpecs windspeed_col thr).map FlagSpec.countKey) ++
      ((reanalysisUnrespSpecs windspeed_col thr).map FlagSpec.errKey)).Nodup := by
    rw [reanalysisUnrespSpecs_countKeys]
    decide
  constructor
  · intro s hs z hz
    have hkmem := (reanalysisRangeSpecs_keys windspeed_col winddir_col temp_col
      wr dr tr s hs).1
    have hd1 : ∀ k ∈ reanalysisRangeKeys,
        "product" ≠ k ∧ "final_row_count" ≠ k := by decide
    have hd2 : ∀ k ∈ reanalysisRangeKeys, k ∉ reanalysisUnrespKeys := by decide
    have hd3 : ∀ k ∈ reanalysisRangeKeys, k ∉ basicHeadKeys := by decide
    simp only [refine_reanalysis] at hz ⊢
    rw [rget_append_left (rget_pair_none (hd1 _ hkmem).1 (hd1 _ hkmem).2),
      rget_append_left (rget_none_of_keys (flagFold_keys_sub
        (reanalysisUnrespSpecs_keys windspeed_col thr) _) (hd2 _ hkmem)),
      rget_append] at hz
    cases h4r : rget (flagFold (drop_duplicates (convertFragment df0 time_col
        local_tz).1 time_col) (reanalysisRangeSpecs windspeed_col winddir_col temp_col
        wr dr tr)).2.1 s.countKey with
    | some w =>
      rw [h4r] at hz
      simp only [Option.or_some, Option.some_inj] at hz
      subst hz
      obtain ⟨hmem, hcount⟩ := flagFold_count
        (reanalysisRangeSpecs windspeed_col winddir_col temp_col wr dr tr)
        (drop_duplicates (convertFragment df0 time_col local_tz).1 time_col)
        hwfd hfreshR hdistR hkeysR
        (reanalysisRangeSpecs_lp windspeed_col winddir_col temp_col wr dr tr) s hs z h4r
      obtain ⟨u1, u2, u3, u4, u5⟩ := flagFold_struct
        (reanalysisUnrespSpecs windspeed_col thr)
        (flagFold (drop_duplicates (convertFragment df0 time_col local_tz).1 time_col)
          (reanalysisRangeSpecs windspeed_col winddir_col temp_col wr dr tr)).1
        (flagFold (drop_duplicates (convertFragment df0 time_col local_tz).1 time_col)
          (reanalysisRangeSpecs windspeed_col winddir_col temp_col wr dr tr)).1.header.length
        r3 (Nat.le_refl _) hfreshU hdistU
        (reanalysisUnrespSpecs_lp windspeed_col thr) (boolsBeyond_of_WF r3)
      rw [colVals_eq_of_proj u1 u2 hmem]
      exact hcount
    | none =>
      rw [h4r] at hz
      simp only [Option.none_or] at hz
      rw [rget_none_of_keys (basicHead_keys df0 local_tz time_col time_col freq _)
        (hd3 _ hkmem)] at hz
      cases hz
  · intro s hs z hz
    have hkmem := (reanalysisUnrespSpecs_keys windspeed_col thr s hs).1
    have hd1 : ∀ k ∈ reanalysisUnrespKeys,
        "product" ≠ k ∧ "final_row_count" ≠ k := by decide
    have hd2 : ∀ k ∈ reanalysisUnrespKeys, k ∉ reanalysisRangeKeys := by decide
    have hd3 : ∀ k ∈ reanalysisUnrespKeys, k ∉ basicHeadKeys := by decide
    simp only [refine_reanalysis] at hz ⊢
    rw [rget_append_left (rget_pair_none (hd1 _ hkmem).1 (hd1 _ hkmem).2),
      rget_append] at hz
    cases h5r : rget (flagFold (flagFold (drop_duplicates
        (convertFragment df0 time_col local_tz).1 time_col)
        (reanalysisRangeSpecs windspeed_col winddir_col temp_col wr dr tr)).1
        (reanalysisUnrespSpecs windspeed_col thr)).2.1 s.countKey with
    | some w =>
      rw [h5r] at hz
      simp only [Option.or_some, Option.some_inj] at hz
      subst hz
      obtain ⟨hmem, hcount⟩ := flagFold_count
        (reanalysisUnrespSpecs windspeed_col thr)
        (flagFold (drop_duplicates (convertFragment df0 time_col local_tz).1 time_col)
          (reanalysisRangeSpecs windspeed_col winddir_col temp_col wr dr tr)).1
        r3 hfreshU hdistU hkeysU
        (reanalysisUnrespSpecs_lp windspeed_col thr) s hs z h5r
      exact hcount
    | none =>
      rw [h5r] at hz
      simp only [Option.none_or] at hz
      rw [rget_append_left (rget_none_of_keys (flagFold_keys_sub
        (reanalysisRangeSpecs_keys windspeed_col winddir_col temp_col wr dr tr) _)
        (hd2 _ hkmem)),
        rget_none_of_keys (basicHead_keys df0 local_tz time_col time_col freq _)
        (hd3 _ hkmem)] at hz
      cases hz

theorem meterRangeSpecs_keys (ec : String) (er : Int × Int) :
    ∀ s ∈ meterRangeSpecs ec er,
      s.countKey ∈ ["range_flag_energy_count", "range_flag_energy_error"] ∧
      s.errKey ∈ ["range_flag_energy_count", "range_flag_energy_error"] := by
  intro s hs
  unfold meterRangeSpecs at hs
  simp only [List.mem_singleton] at hs
  subst hs
  exact ⟨by simp, by simp⟩

theorem curtailRangeSpecs_keys (ac cc : String) (ar cr : Int × Int) :
    ∀ s ∈ curtailRangeSpecs ac cc ar cr,
      s.countKey ∈ ["flag_availability_range_count", "flag_availability_range_error",
        "flag_curtailment_range_count", "flag_curtailment_range_error"] ∧
      s.errKey ∈ ["flag_availability_range_count", "flag_availability_range_error",
        "flag_curtailment_range_count", "flag_curtailment_range_error"] := by
  intro s hs
  unfold curtailRangeSpecs at hs
  simp only [List.mem_cons, List.not_mem_nil, or_false] at hs
  rcases hs with rfl | rfl <;> exact ⟨by simp, by simp⟩

theorem assetRangeSpecs_keys (lat lon rp : Int × Int) :
    ∀ s ∈ assetRangeSpecs lat lon rp,
      s.countKey ∈ ["flag_latitude_range_count", "flag_latitude_range_error",
        "flag_longitude_range_count", "flag_longitude_range_error",
        "flag_rated_power_range_count", "flag_rated_power_range_error"] ∧
      s.errKey ∈ ["flag_latitude_range_count", "flag_latitude_range_error",
        "flag_longitude_range_count", "flag_longitude_range_error",
        "flag_rated_power_range_count", "flag_rated_power_range_error"] := by
  intro s hs
  unfold assetRangeSpecs at hs
  simp only [List.mem_cons, List.not_mem_nil, or_false] at hs
  rcases hs with rfl | rfl | rfl <;> exact ⟨by simp, by simp⟩

theorem refine_meter_count (df0 : DataFrame) (local_tz : Int)
    (time_col energy_col : String) (freq : Int) (er : Int × Int)
    (hwf : WF df0) (h1 : "flag_energy_range" ∉ df0.header) :
    ∀ s ∈ meterRangeSpecs energy_col er, ∀ z : Int,
      rget (refine_meter df0 local_tz time_col energy_col freq er).2 s.countKey =
        some (RVal.rInt z) →
      ((colVals (refine_meter df0 local_tz time_col energy_col freq er).1
        s.fname).countP (fun v => decide (v = Value.vBool true)) : Int) = z := by
  obtain ⟨hwfd, hheadd, hsub, hlen1, hhead1⟩ :=
    convert_dedup_struct df0 local_tz time_col hwf
  have hfreshR : ∀ s ∈ meterRangeSpecs energy_col er,
      s.fname ∉ (drop_duplicates (convertFragment df0 time_col local_tz).1
        time_col).header := by
    intro s hs
    rw [hheadd]
    unfold meterRangeSpecs at hs
    simp only [List.mem_singleton] at hs
    subst hs
    exact h1
  have hdistR : ((meterRangeSpecs energy_col er).map FlagSpec.fname).Nodup := by
    rw [meterRangeSpecs_fnames]
    decide
  have hkeysR : (((meterRangeSpecs energy_col er).map FlagSpec.countKey) ++
      ((meterRangeSpecs energy_col er).map FlagSpec.errKey)).Nodup := by
    have he : ((meterRangeSpecs energy_col er).map FlagSpec.countKey) ++
        ((meterRangeSpecs energy_col er).map FlagSpec.errKey) =
        ["range_flag_energy_count", "range_flag_energy_error"] := rfl
    rw [he]
    decide
  intro s hs z hz
  have hkmem := (meterRangeSpecs_keys energy_col er s hs).1
  have hd1 : ∀ k ∈ ["range_flag_energy_count", "range_flag_energy_error"],
      "final_row_count" ≠ k := by decide
  have hd3 : ∀ k ∈ ["range_flag_energy_count", "range_flag_energy_error"],
      k ∉ basicHeadKeys := by decide
  simp only [refine_meter] at hz ⊢
  rw [rget_append_left (by rw [rget_single, if_neg (hd1 _ hkmem)]),
    rget_append] at hz
  cases h4r : rget (flagFold (drop_duplicates (convertFragment df0 time_col local_tz).1
      time_col) (meterRangeSpecs energy_col er)).2.1 s.countKey with
  | some w =>
    rw [h4r] at hz
    simp only [Option.or_some, Option.some_inj] at hz
    subst hz
    obtain ⟨hmem, hcount⟩ := flagFold_count (meterRangeSpecs energy_col er)
      (drop_duplicates (convertFragment df0 time_col local_tz).1 time_col)
      hwfd hfreshR hdistR hkeysR (meterRangeSpecs_lp energy_col er) s hs z h4r
    exact hcount
  | none =>
    rw [h4r] at hz
    simp only [Option.none_or] at hz
    rw [rget_none_of_keys (basicHead_keys df0 local_tz time_col time_col freq _)
      (hd3 _ hkmem)] at hz
    cases hz

theorem refine_curtail_count (df0 : DataFrame) (local_tz : Int)
    (time_col avail_col curtail_col : String) (freq : Int) (ar cr : Int × Int)
    (hwf : WF df0) (h1 : "flag_availability_range" ∉ df0.header)
    (h2 : "flag_curtailment_range" ∉ df0.header) :
    ∀ s ∈ curtailRangeSpecs avail_col curtail_col ar cr, ∀ z : Int,
      rget (refine_curtail df0 local_tz time_col avail_col curtail_col freq ar cr).2
        s.countKey = some (RVal.rInt z) →
      ((colVals (refine_curtail df0 local_tz time_col avail_col curtail_col
        freq ar cr).1 s.fname).countP
        (fun v => decide (v = Value.vBool true)) : Int) = z := by
  obtain ⟨hwfd, hheadd, hsub, hlen1, hhead1⟩ :=
    convert_dedup_struct df0 local_tz time_col hwf
  have hfreshR : ∀ s ∈ curtailRangeSpecs avail_col curtail_col ar cr,
      s.fname ∉ (drop_duplicates (convertFragment df0 time_col local_tz).1
        time_col).header := by
    intro s hs
    rw [hheadd]
    unfold curtailRangeSpecs at hs
    simp only [List.mem_cons, List.not_mem_nil, or_false] at hs
    rcases hs with rfl | rfl <;> assumption
  have hdistR : ((curtailRangeSpecs avail_col curtail_col ar cr).map
      FlagSpec.fname).Nodup := by
    rw [curtailRangeSpecs_fnames]
    decide
  have hkeysR : (((curtailRangeSpecs avail_col curtail_col ar cr).map
      FlagSpec.countKey) ++ ((curtailRangeSpecs avail_col curtail_col ar cr).map
      FlagSpec.errKey)).Nodup := by
    have he : ((curtailRangeSpecs avail_col curtail_col ar cr).map FlagSpec.countKey) ++
        ((curtailRangeSpecs avail_col curtail_col ar cr).map FlagSpec.errKey) =
        ["flag_availability_range_count", "flag_curtailment_range_count",
         "flag_availability_range_error", "flag_curtailment_range_error"] := rfl
    rw [he]
    decide
  intro s hs z hz
  have hkmem := (curtailRangeSpecs_keys avail_col curtail_col ar cr s hs).1
  have hd1 : ∀ k ∈ ["flag_availability_range_count", "flag_availability_range_error",
      "flag_curtailment_range_count", "flag_curtailment_range_error"],
      "final_row_count" ≠ k := by decide
  have hd3 : ∀ k ∈ ["flag_availability_range_count", "flag_availability_range_error",
      "flag_curtailment_range_count", "flag_curtailment_range_error"],
      k ∉ basicHeadKeys := by decide
  simp only [refine_curtail] at hz ⊢
  rw [rget_append_left (by rw [rget_single, if_neg (hd1 _ hkmem)]),
    rget_append] at hz
  cases h4r : rget (flagFold (drop_duplicates (convertFragment df0 time_col local_tz).1
      time_col) (curtailRangeSpecs avail_col curtail_col ar cr)).2.1 s.countKey with
  | some w =>
    rw [h4r] at hz
    simp only [Option.or_some, Option.some_inj] at hz
    subst hz
    obtain ⟨hmem, hcount⟩ := flagFold_count (curtailRangeSpecs avail_col curtail_col ar cr)
      (drop_duplicates (convertFragment df0 time_col local_tz).1 time_col)
      hwfd hfreshR hdistR hkeysR (curtailRangeSpecs_lp avail_col curtail_col ar cr) s hs z h4r
    exact hcount
  | none =>
    rw [h4r] at hz
    simp only [Option.none_or] at hz
    rw [rget_none_of_keys (basicHead_keys df0 local_tz time_col time_col freq _)
      (hd3 _ hkmem)] at hz
    cases hz

theorem assetHead_keys (df0 : DataFrame) :
    ∀ p ∈ (if df0.hasCol "asset_id" then
      [("missing_asset_id_count",
        RVal.rInt ((colVals df0 "asset_id").countP (fun v => decide (v = Value.vNA)) : Int))]
      else []), p.1 ∈ ["missing_asset_id_count"] := by
  intro p hp
  by_cases hc : df0.hasCol "asset_id" = true
  · rw [if_pos hc] at hp
    simp only [List.mem_singleton] at hp
    subst hp
    simp
  · rw [if_neg hc] at hp
    cases hp

def flagNamesAll : List String :=
  ["flag_power_range", "flag_windspeed_range", "flag_temp_range",
   "flag_power_unresponsive", "flag_windspeed_unresponsive",
   "flag_energy_range", "flag_availability_range", "flag_curtailment_range",
   "flag_latitude_range", "flag_longitude_range", "flag_rated_power_range",
   "flag_winddir_range"]

theorem refine_asset_count (df0 : DataFrame) (lat lon rp : Int × Int)
    (hwf : WF df0) (h1 : "flag_latitude_range" ∉ df0.header)
    (h2 : "flag_longitude_range" ∉ df0.header)
    (h3 : "flag_rated_power_range" ∉ df0.header) :
    ∀ s ∈ assetRangeSpecs lat lon rp, ∀ z : Int,
      rget (refine_asset df0 lat lon rp).2 s.countKey = some (RVal.rInt z) →
      ((colVals (refine_asset df0 lat lon rp).1 s.fname).countP
        (fun v => decide (v = Value.vBool true)) : Int) = z := by
  have hfreshR : ∀ s ∈ assetRangeSpecs lat lon rp, s.fname ∉ df0.header := by
    intro s hs
    unfold assetRangeSpecs at hs
    simp only [List.mem_cons, List.not_mem_nil, or_false] at hs
    rcases hs with rfl | rfl | rfl <;> assumption
  have hdistR : ((assetRangeSpecs lat lon rp).map FlagSpec.fname).Nodup := by
    rw [assetRangeSpecs_fnames]
    decide
  have hkeysR : (((assetRangeSpecs lat lon rp).map FlagSpec.countKey) ++
      ((assetRangeSpecs lat lon rp).map FlagSpec.errKey)).Nodup := by
    have he : ((assetRangeSpecs lat lon rp).map FlagSpec.countKey) ++
        ((assetRangeSpecs lat lon rp).map FlagSpec.errKey) =
        ["flag_latitude_range_count", "flag_longitude_range_count",
         "flag_rated_power_range_count", "flag_latitude_range_error",
         "flag_longitude_range_error", "flag_rated_power_range_error"] := rfl
    rw [he]
    decide
  intro s hs z hz
  have hkmem := (assetRangeSpecs_keys lat lon rp s hs).1
  have hd1 : ∀ k ∈ ["flag_latitude_range_count", "flag_latitude_range_error",
      "flag_longitude_range_count", "flag_longitude_range_error",
      "flag_rated_power_range_count", "flag_rated_power_range_error"],
      "final_row_count" ≠ k := by decide
  have hd3 : ∀ k ∈ ["flag_latitude_range_count", "flag_latitude_range_error",
      "flag_longitude_range_count", "flag_longitude_range_error",
      "flag_rated_power_range_count", "flag_rated_power_range_error"],
      k ∉ (["missing_asset_id_count"] : List String) := by decide
  simp only [refine_asset] at hz ⊢
  rw [rget_append_left (by rw [rget_single, if_neg (hd1 _ hkmem)]),
    rget_append] at hz
  cases h4r : rget (flagFold df0 (assetRangeSpecs lat lon rp)).2.1 s.countKey with
  | some w =>
    rw [h4r] at hz
    simp only [Option.or_some, Option.some_inj] at hz
    subst hz
    obtain ⟨hmem, hcount⟩ := flagFold_count (assetRangeSpecs lat lon rp) df0
      hwf hfreshR hdistR hkeysR (assetRangeSpecs_lp lat lon rp) s hs z h4r
    exact hcount
  | none =>
    rw [h4r] at hz
    simp only [Option.none_or] at hz
    rw [rget_none_of_keys (assetHead_keys df0) (hd3 _ hkmem)] at hz
    cases hz

/-- C9: in every refiner (SCADA, meter, curtailment, asset, reanalysis), for each
flag column whose count field is present in the QA report (i.e. the flag step
succeeded), that count equals the number of rows marked True in the corresponding
flag column of the returned cleaned dataframe. -/
theorem flag_count_matches_flag_column (df0 : DataFrame) (local_tz : Int)
    (time_col id_col power_col windspeed_col temp_col energy_col
      avail_col curtail_col winddir_col pname : String)
    (freq : Int) (pr wr tr er ar cr lat lon rp dr : Int × Int) (thr : Nat)
    (hwf : WF df0)
    (hfresh : ∀ f ∈ flagNamesAll, f ∉ df0.header) :
    (∀ s ∈ scadaRangeSpecs power_col windspeed_col temp_col pr wr tr ++
        scadaUnrespSpecs power_col windspeed_col thr, ∀ z : Int,
      rget (refine_scada df0 local_tz time_col id_col power_col windspeed_col temp_col
        freq pr wr tr thr).2 s.countKey = some (RVal.rInt z) →
      ((colVals (refine_scada df0 local_tz time_col id_col power_col windspeed_col
        temp_col freq pr wr tr thr).1 s.fname).countP
        (fun v => decide (v = Value.vBool true)) : Int) = z) ∧
    (∀ s ∈ meterRangeSpecs energy_col er, ∀ z : Int,
      rget (refine_meter df0 local_tz time_col energy_col freq er).2 s.countKey =
        some (RVal.rInt z) →
      ((colVals (refine_meter df0 local_tz time_col energy_col freq er).1
        s.fname).countP (fun v => decide (v = Value.vBool true)) : Int) = z) ∧
    (∀ s ∈ curtailRangeSpecs avail_col curtail_col ar cr, ∀ z : Int,
      rget (refine_curtail df0 local_tz time_col avail_col curtail_col freq ar cr).2
        s.countKey = some (RVal.rInt z) →
      ((colVals (refine_curtail df0 local_tz time_col avail_col curtail_col
        freq ar cr).1 s.fname).countP
        (fun v => decide (v = Value.vBool true)) : Int) = z) ∧
    (∀ s ∈ assetRangeSpecs lat lon rp, ∀ z : Int,
      rget (refine_asset df0 lat lon rp).2 s.countKey = some (RVal.rInt z) →
      ((colVals (refine_asset df0 lat lon rp).1 s.fname).countP
        (fun v => decide (v = Value.vBool true)) : Int) = z) ∧
    (∀ s ∈ reanalysisRangeSpecs windspeed_col winddir_col temp_col wr dr tr ++
        reanalysisUnrespSpecs windspeed_col thr, ∀ z : Int,
      rget (refine_reanalysis df0 pname local_tz time_col windspeed_col winddir_col
        temp_col freq wr dr tr thr).2 s.countKey = some (RVal.rInt z) →
      ((colVals (refine_reanalysis df0 pname local_tz time_col windspeed_col winddir_col
        temp_col freq wr dr tr thr).1 s.fname).countP
        (fun v => decide (v = Value.vBool true)) : Int) = z) := by
  have hf : ∀ f ∈ flagNamesAll, f ∉ df0.header := hfresh
  simp only [flagNamesAll, List.mem_cons, List.not_mem_nil, or_false,
    forall_eq_or_imp, forall_eq] at hf
  obtain ⟨g1, g2, g3, g4, g5, g6, g7, g8, g9, g10, g11, g12⟩ := hf
  obtain ⟨hsA, hsB⟩ := refine_scada_count df0 local_tz time_col id_col power_col
    windspeed_col temp_col freq pr wr tr thr hwf g1 g2 g3 g4 g5
  obtain ⟨hrA, hrB⟩ := refine_reanalysis_count df0 pname local_tz time_col
    windspeed_col winddir_col temp_col freq wr dr tr thr hwf g2 g12 g3 g5
  refine ⟨?_, ?_, ?_, ?_, ?_⟩
  · intro s hs z hz
    rcases List.mem_append.mp hs with hs | hs
    · exact hsA s hs z hz
    · exact hsB s hs z hz
  · exact refine_meter_count df0 local_tz time_col energy_col freq er hwf g6
  · exact refine_curtail_count df0 local_tz time_col avail_col curtail_col
      freq ar cr hwf g7 g8
  · exact refine_asset_count df0 lat lon rp hwf g9 g10 g11
  · intro s hs z hz
    rcases List.mem_append.mp hs with hs | hs
    · exact hrA s hs z hz
    · exact hrB s hs z hz

def wC1DF : DataFrame :=
  ⟨["Date_time", "Wind_turbine_name"],
   [[Value.vInt 0, Value.vStr "a"], [Value.vInt 0, Value.vStr "b"]]⟩

/-- C1 counterexample: two SCADA rows share a timestamp but carry distinct
(time, identifier) keys — a (time, id)-keyed dedup would keep both (the
duplicate identification step itself counts zero duplicate keys) — yet the
refiner, which keys the drop on the time column alone, returns only one row. -/
theorem dedup_by_time_and_id_counterexample :
    countDupBy (fun r : Row => (r.getD 0 Value.vNA, r.getD 1 Value.vNA))
      wC1DF.rows = 0 ∧
    wC1DF.rows.length = 2 ∧
    (refine_scada wC1DF 0 "Date_time" "Wind_turbine_name" "P_avg" "Ws_avg" "Ot_avg"
      10 (0, 1) (0, 1) (0, 1) 3).1.rows.length = 1 := by
  decide

/-- C1 (amended): the Duplicate Resolver keys on the time column alone — not
on the (time, identifier) pair — keeping the last occurrence in original row
order: the cleaned rows (projected back to the input columns) are exactly the
converted rows deduplicated by time value keeping last, and for each time value
the surviving row is the last row of the converted frame carrying it. -/
theorem dedup_keys_on_time_keep_last (df0 : DataFrame) (local_tz : Int)
    (time_col id_col power_col windspeed_col temp_col : String)
    (freq : Int) (pr wr tr : Int × Int) (thr : Nat) (i : Nat)
    (hwf : WF df0)
    (h1 : "flag_power_range" ∉ df0.header)
    (h2 : "flag_windspeed_range" ∉ df0.header)
    (h3 : "flag_temp_range" ∉ df0.header)
    (h4 : "flag_power_unresponsive" ∉ df0.header)
    (h5 : "flag_windspeed_unresponsive" ∉ df0.header)
    (hidx : idxOf? time_col df0.header = some i) :
    (refine_scada df0 local_tz time_col id_col power_col windspeed_col temp_col
        freq pr wr tr thr).1.rows.map (fun r => r.take df0.header.length) =
      dropDupKeepLast (fun r : Row => r.getD i Value.vNA)
        (convertFragment df0 time_col local_tz).1.rows ∧
    (∀ k : Value,
      (dropDupKeepLast (fun r : Row => r.getD i Value.vNA)
        (convertFragment df0 time_col local_tz).1.rows).filter
          (fun r => decide (r.getD i Value.vNA = k)) =
      (((convertFragment df0 time_col local_tz).1.rows.filter
          (fun r => decide (r.getD i Value.vNA = k))).getLast?).toList) := by
  have hdx : idxOf? time_col (convertFragment df0 time_col local_tz).1.header =
      some i := by
    rw [convertFragment_header]
    exact hidx
  have hdd : (drop_duplicates (convertFragment df0 time_col local_tz).1 time_col).rows =
      dropDupKeepLast (fun r : Row => r.getD i Value.vNA)
        (convertFragment df0 time_col local_tz).1.rows := by
    unfold drop_duplicates
    rw [hdx]
  obtain ⟨added, hhead, hadds, hbools, hproj, hsubl, hlen⟩ :=
    refine_scada_frame df0 local_tz time_col id_col power_col windspeed_col temp_col
      freq pr wr tr thr hwf h1 h2 h3 h4 h5
  refine ⟨by rw [hproj, hdd], fun k => dropDupKeepLast_filter _ _ k⟩

theorem dedup_keys_on_time_keep_last_witness :
    WF wC1DF ∧ idxOf? "Date_time" wC1DF.header = some 0 ∧
    ((refine_scada wC1DF 0 "Date_time" "Wind_turbine_name" "P_avg" "Ws_avg" "Ot_avg"
        10 (0, 1) (0, 1) (0, 1) 3).1.rows.map (fun r => r.take wC1DF.header.length) =
      dropDupKeepLast (fun r : Row => r.getD 0 Value.vNA)
        (convertFragment wC1DF "Date_time" 0).1.rows ∧
     (∀ k : Value,
      (dropDupKeepLast (fun r : Row => r.getD 0 Value.vNA)
        (convertFragment wC1DF "Date_time" 0).1.rows).filter
          (fun r => decide (r.getD 0 Value.vNA = k)) =
      (((convertFragment wC1DF "Date_time" 0).1.rows.filter
          (fun r => decide (r.getD 0 Value.vNA = k))).getLast?).toList)) :=
  ⟨by decide, by decide,
    dedup_keys_on_time_keep_last wC1DF 0 "Date_time" "Wind_turbine_name"
      "P_avg" "Ws_avg" "Ot_avg" 10 (0, 1) (0, 1) (0, 1) 3 0
      (by decide) (by decide) (by decide) (by decide) (by decide) (by decide)
      (by decide)⟩

theorem rget_single_self (k : String) (v : RVal) : rget [(k, v)] k = some v := by
  simp [rget]

theorem rget_pair_fst {k1 k2 : String} {v1 v2 : RVal} (h : k2 ≠ k1) :
    rget [(k1, v1), (k2, v2)] k1 = some v1 := by
  simp [rget, h]

theorem rget_pair_snd {k1 k2 : String} {v1 v2 : RVal} :
    rget [(k1, v1), (k2, v2)] k2 = some v2 := by
  simp [rget]

theorem asInt?_some_eq {v : Value} {a : Int} (h : asInt? v = some a) :
    v = Value.vInt a := by
  cases v with
  | vInt n =>
    simp only [asInt?, Option.some_inj] at h
    rw [h]
  | vStr s => simp [asInt?] at h
  | vBool b => simp [asInt?] at h
  | vNA => simp [asInt?] at h

theorem pair_countDupBy_zero {rows : List Row} {i : Nat} (j : Nat)
    (hnd : (rows.map (fun r => r.getD i Value.vNA)).Nodup) :
    countDupBy (fun r : Row => (r.getD i Value.vNA, r.getD j Value.vNA)) rows = 0 := by
  apply countDupBy_eq_zero_of_nodup
  have h2 : (rows.map (fun r : Row =>
      (r.getD i Value.vNA, r.getD j Value.vNA))).map Prod.fst =
      rows.map (fun r => r.getD i Value.vNA) := by
    rw [List.map_map]
    rfl
  exact List.Nodup.of_map Prod.fst (h2 ▸ hnd)

theorem convertFragment_key_nodup {df : DataFrame} {tc : String} {tz : Int} {i : Nat}
    (hwf : WF df) (hidx : idxOf? tc df.header = some i)
    (hnd : (df.rows.map (fun r => r.getD i Value.vNA)).Nodup) :
    ((convertFragment df tc tz).1.rows.map (fun r => r.getD i Value.vNA)).Nodup := by
  unfold convertFragment
  cases hc : convert_datetime_column df tc tz with
  | error e => exact hnd
  | ok d =>
    obtain ⟨i', hidx', hhead, hrows, hall⟩ := convert_ok_spec hc
    rw [hidx] at hidx'
    injection hidx' with hii
    subst hii
    have hb : i < df.header.length := idxOf?_bound hidx
    have hmap : d.rows.map (fun r => r.getD i Value.vNA) =
        (df.rows.map (fun r => r.getD i Value.vNA)).map
          (fun v => Value.vInt ((asInt? v).getD 0 - tz)) := by
      rw [hrows, List.map_map, List.map_map]
      apply List.map_congr_left
      intro r hr
      have hlen : i < r.length := by
        rw [hwf r hr]
        exact hb
      simp only [Function.comp_apply]
      rw [List.getD_eq_getElem?_getD, List.getElem?_set_self hlen]
      rfl
    have hgoal : (d.rows.map (fun r => r.getD i Value.vNA)).Nodup := by
      rw [hmap]
      refine List.Nodup.map_on ?_ hnd
      intro x hx y hy hxy
      obtain ⟨rx, hrx, rfl⟩ := List.mem_map.mp hx
      obtain ⟨ry, hry, rfl⟩ := List.mem_map.mp hy
      have hax := List.all_eq_true.mp hall rx hrx
      have hay := List.all_eq_true.mp hall ry hry
      obtain ⟨a, ha⟩ := Option.isSome_iff_exists.mp hax
      obtain ⟨b, hb2⟩ := Option.isSome_iff_exists.mp hay
      simp only [ha, hb2, Option.getD_some] at hxy
      injection hxy with h3
      have hab : a = b := by omega
      show rx.getD i Value.vNA = ry.getD i Value.vNA
      rw [asInt?_some_eq ha, asInt?_some_eq hb2, hab]
    simpa using hgoal

theorem dup_ident_ok_spec {df : DataFrame} {tc ic : String} {d : Option Int × Option Int}
    (h : duplicate_time_identification df tc ic = Except.ok d) :
    ∃ i j, idxOf? tc df.header = some i ∧ idxOf? ic df.header = some j ∧
      d = (some ((countDupBy (fun r : Row =>
            (r.getD i Value.vNA, r.getD j Value.vNA)) df.rows : Nat) : Int),
           some ((countDupBy (fun r : Row =>
            (r.getD i Value.vNA, r.getD j Value.vNA)) df.rows : Nat) : Int)) := by
  unfold duplicate_time_identification at h
  split at h
  · next i j hi hj =>
    cases h
    exact ⟨i, j, hi, hj, rfl⟩
  · cases h

/-- C8: running the SCADA refiner a second time on its own cleaned output with
the appended flag columns stripped is a no-op at the duplicate step: the second
report carries rows_dropped_duplicates = 0, and any duplicate count the second
duplicate identification reports is 0. -/
theorem refine_scada_second_run_clean (df0 df1 : DataFrame) (local_tz : Int)
    (time_col id_col power_col windspeed_col temp_col : String)
    (freq : Int) (pr wr tr : Int × Int) (thr : Nat) (i : Nat)
    (hwf : WF df0)
    (h1 : "flag_power_range" ∉ df0.header)
    (h2 : "flag_windspeed_range" ∉ df0.header)
    (h3 : "flag_temp_range" ∉ df0.header)
    (h4 : "flag_power_unresponsive" ∉ df0.header)
    (h5 : "flag_windspeed_unresponsive" ∉ df0.header)
    (hidx : idxOf? time_col df0.header = some i)
    (hdf1 : df1 = ⟨df0.header,
      (refine_scada df0 local_tz time_col id_col power_col windspeed_col temp_col
        freq pr wr tr thr).1.rows.map (fun r => r.take df0.header.length)⟩) :
    rget (refine_scada df1 local_tz time_col id_col power_col windspeed_col temp_col
      freq pr wr tr thr).2 "rows_dropped_duplicates" = some (RVal.rInt 0) ∧
    (∀ v, rget (refine_scada df1 local_tz time_col id_col power_col windspeed_col
      temp_col freq pr wr tr thr).2 "duplicate_original_count" = some v →
      v = RVal.rInt 0) ∧
    (∀ v, rget (refine_scada df1 local_tz time_col id_col power_col windspeed_col
      temp_col freq pr wr tr thr).2 "duplicate_utc_count" = some v →
      v = RVal.rInt 0) := by
  obtain ⟨hwfd, hheadd, hsub, hlen1, hhead1⟩ :=
    convert_dedup_struct df0 local_tz time_col hwf
  obtain ⟨added, hheadf, hadds, hbools, hproj, hsubl, hlenf⟩ :=
    refine_scada_frame df0 local_tz time_col id_col power_col windspeed_col temp_col
      freq pr wr tr thr hwf h1 h2 h3 h4 h5
  have hdx1 : idxOf? time_col (convertFragment df0 time_col local_tz).1.header =
      some i := by
    rw [convertFragment_header]
    exact hidx
  have hdd1 : (drop_duplicates (convertFragment df0 time_col local_tz).1 time_col).rows =
      dropDupKeepLast (fun r : Row => r.getD i Value.vNA)
        (convertFragment df0 time_col local_tz).1.rows := by
    unfold drop_duplicates
    rw [hdx1]
  have hrows1 : df1.rows =
      (drop_duplicates (convertFragment df0 time_col local_tz).1 time_col).rows := by
    rw [hdf1]
    exact hproj
  have hhead1' : df1.header = df0.header := by
    rw [hdf1]
  have hwf1 : WF df1 := by
    intro r hr
    rw [hrows1] at hr
    rw [hhead1', ← hheadd]
    exact hwfd r hr
  have hnd1 : (df1.rows.map (fun r : Row => r.getD i Value.vNA)).Nodup := by
    rw [hrows1, hdd1]
    exact dropDupKeepLast_map_key_nodup _ _
  have hdx1' : idxOf? time_col df1.header = some i := by
    rw [hhead1']
    exact hidx
  have hdx2 : idxOf? time_col (convertFragment df1 time_col local_tz).1.header =
      some i := by
    rw [convertFragment_header]
    exact hdx1'
  have hnd2 : ((convertFragment df1 time_col local_tz).1.rows.map
      (fun r : Row => r.getD i Value.vNA)).Nodup :=
    convertFragment_key_nodup hwf1 hdx1' hnd1
  have hdd2 : (drop_duplicates (convertFragment df1 time_col local_tz).1 time_col).rows =
      (convertFragment df1 time_col local_tz).1.rows := by
    unfold drop_duplicates
    rw [hdx2]
    exact dropDupKeepLast_of_nodup hnd2
  have hsub0 : ((convertFragment df1 time_col local_tz).1.rows.length : Int) -
      ((drop_duplicates (convertFragment df1 time_col local_tz).1
        time_col).rows.length : Int) = 0 := by
    rw [hdd2]
    exact sub_self _
  have hk3 : "rows_dropped_duplicates" ∉ scadaUnrespKeys := by decide
  have hk4 : "rows_dropped_duplicates" ∉ scadaRangeKeys := by decide
  have hk5 : "rows_dropped_duplicates" ∉ ["time_gaps_original_count",
    "time_gaps_utc_count", "time_gap_timestamps_utc", "gap_check_error"] := by decide
  refine ⟨?_, ?_, ?_⟩
  · simp only [refine_scada]
    rw [rget_append_left (rget_pair_none (by decide) (by decide)),
      rget_append_left (rget_none_of_keys (flagFold_keys_sub
        (scadaUnrespSpecs_keys power_col windspeed_col thr) _) hk3),
      rget_append_left (rget_none_of_keys (flagFold_keys_sub
        (scadaRangeSpecs_keys power_col windspeed_col temp_col pr wr tr) _) hk4),
      rget_append_left (rget_none_of_keys (gapFragmentScada_keys _ _ _) hk5),
      rget_append, rget_single_self, Option.or_some, hsub0]
  · intro v hv
    have hk1 : "flag_columns_added" ≠ "duplicate_original_count" := by decide
    have hk2 : "final_row_count" ≠ "duplicate_original_count" := by decide
    have hk3' : "duplicate_original_count" ∉ scadaUnrespKeys := by decide
    have hk4' : "duplicate_original_count" ∉ scadaRangeKeys := by decide
    have hk5' : "duplicate_original_count" ∉ ["time_gaps_original_count",
      "time_gaps_utc_count", "time_gap_timestamps_utc", "gap_check_error"] := by decide
    have hk6 : "rows_dropped_duplicates" ≠ "duplicate_original_count" := by decide
    have hk7 : "duplicate_original_count" ∉
      ["datetime_converted", "datetime_error"] := by decide
    simp only [refine_scada] at hv
    rw [rget_append_left (rget_pair_none hk1 hk2),
      rget_append_left (rget_none_of_keys (flagFold_keys_sub
        (scadaUnrespSpecs_keys power_col windspeed_col thr) _) hk3'),
      rget_append_left (rget_none_of_keys (flagFold_keys_sub
        (scadaRangeSpecs_keys power_col windspeed_col temp_col pr wr tr) _) hk4'),
      rget_append_left (rget_none_of_keys (gapFragmentScada_keys _ _ _) hk5'),
      rget_append_left (by rw [rget_single, if_neg hk6]),
      rget_append, rget_none_of_keys (convertFragment_keys df1 time_col local_tz) hk7,
      Option.or_none] at hv
    cases hdti : duplicate_time_identification (convertFragment df1 time_col local_tz).1
        time_col id_col with
    | error e =>
      rw [dupFragment_error hdti, rget_single, if_neg (by decide)] at hv
      cases hv
    | ok d =>
      obtain ⟨i2, j2, hi2, hj2, hd⟩ := dup_ident_ok_spec hdti
      rw [hdx2] at hi2
      injection hi2 with hii
      subst hii
      subst hd
      have hcnt := pair_countDupBy_zero j2 hnd2
      rw [dupFragment_ok hdti, hcnt, rget_pair_fst (by decide)] at hv
      exact (Option.some_inj.mp hv).symm
  · intro v hv
    have hk1 : "flag_columns_added" ≠ "duplicate_utc_count" := by decide
    have hk2 : "final_row_count" ≠ "duplicate_utc_count" := by decide
    have hk3' : "duplicate_utc_count" ∉ scadaUnrespKeys := by decide
    have hk4' : "duplicate_utc_count" ∉ scadaRangeKeys := by decide
    have hk5' : "duplicate_utc_count" ∉ ["time_gaps_original_count",
      "time_gaps_utc_count", "time_gap_timestamps_utc", "gap_check_error"] := by decide
    have hk6 : "rows_dropped_duplicates" ≠ "duplicate_utc_count" := by decide
    have hk7 : "duplicate_utc_count" ∉
      ["datetime_converted", "datetime_error"] := by decide
    simp only [refine_scada] at hv
    rw [rget_append_left (rget_pair_none hk1 hk2),
      rget_append_left (rget_none_of_keys (flagFold_keys_sub
        (scadaUnrespSpecs_keys power_col windspeed_col thr) _) hk3'),
      rget_append_left (rget_none_of_keys (flagFold_keys_sub
        (scadaRangeSpecs_keys power_col windspeed_col temp_col pr wr tr) _) hk4'),
      rget_append_left (rget_none_of_keys (gapFragmentScada_keys _ _ _) hk5'),
      rget_append_left (by rw [rget_single, if_neg hk6]),
      rget_append, rget_none_of_keys (convertFragment_keys df1 time_col local_tz) hk7,
      Option.or_none] at hv
    cases hdti : duplicate_time_identification (convertFragment df1 time_col local_tz).1
        time_col id_col with
    | error e =>
      rw [dupFragment_error hdti, rget_single, if_neg (by decide)] at hv
      cases hv
    | ok d =>
      obtain ⟨i2, j2, hi2, hj2, hd⟩ := dup_ident_ok_spec hdti
      rw [hdx2] at hi2
      injection hi2 with hii
      subst hii
      subst hd
      have hcnt := pair_countDupBy_zero j2 hnd2
      rw [dupFragment_ok hdti, hcnt, rget_pair_snd] at hv
      exact (Option.some_inj.mp hv).symm

def wC8DF : DataFrame :=
  ⟨["Date_time", "Wind_turbine_name"], [[Value.vInt 0, Value.vStr "b"]]⟩

theorem refine_scada_second_run_clean_witness :
    WF wC1DF ∧
    idxOf? "Date_time" wC1DF.header = some 0 ∧
    wC8DF = ⟨wC1DF.header,
      (refine_scada wC1DF 0 "Date_time" "Wind_turbine_name" "P_avg" "Ws_avg" "Ot_avg"
        10 (0, 1) (0, 1) (0, 1) 3).1.rows.map (fun r => r.take wC1DF.header.length)⟩ ∧
    (rget (refine_scada wC8DF 0 "Date_time" "Wind_turbine_name" "P_avg" "Ws_avg"
      "Ot_avg" 10 (0, 1) (0, 1) (0, 1) 3).2 "rows_dropped_duplicates" =
        some (RVal.rInt 0) ∧
     (∀ v, rget (refine_scada wC8DF 0 "Date_time" "Wind_turbine_name" "P_avg" "Ws_avg"
      "Ot_avg" 10 (0, 1) (0, 1) (0, 1) 3).2 "duplicate_original_count" = some v →
      v = RVal.rInt 0) ∧
     (∀ v, rget (refine_scada wC8DF 0 "Date_time" "Wind_turbine_name" "P_avg" "Ws_avg"
      "Ot_avg" 10 (0, 1) (0, 1) (0, 1) 3).2 "duplicate_utc_count" = some v →
      v = RVal.rInt 0)) :=
  ⟨by decide, by decide, by decide,
    refine_scada_second_run_clean wC1DF wC8DF 0 "Date_time" "Wind_turbine_name"
      "P_avg" "Ws_avg" "Ot_avg" 10 (0, 1) (0, 1) (0, 1) 3 0
      (by decide) (by decide) (by decide) (by decide) (by decide) (by decide)
      (by decide) (by decide)⟩

def wRangeDF : DataFrame :=
  ⟨["t", "v"], [[Value.vInt 0, Value.vInt 5], [Value.vInt 1, Value.vInt 20]]⟩

/-- C4: on the success path of the Range Flagger with inclusive bounds
`[lower, upper]`, exactly one flag is produced per row, a row whose value lies
outside the bounds is marked True and a row whose value lies inside is marked
False, and storing the flag column leaves every existing data column unchanged:
no value is coerced into range. -/
theorem range_flag_marks_outside_bounds
    (df : DataFrame) (c fname : String) (lower upper : Int) (flags : List Bool)
    (hwf : WF df) (hfn : fname ∉ df.header) (hc : df.hasCol c = true)
    (h : range_flag (colVals df c) lower upper = Except.ok flags) :
    flags.length = df.rows.length ∧
    (∀ i : Nat, ∀ x : Int, (colVals df c)[i]? = some (Value.vInt x) →
      flags[i]? = some (decide (x < lower ∨ upper < x))) ∧
    (∀ c' ∈ df.header, colVals (setCol df fname flags) c' = colVals df c') := by
  have hlenc : flags.length = (colVals df c).length :=
    range_flag_lengthPreserving lower upper (colVals df c) flags h
  have hlen : flags.length = df.rows.length := by
    rw [hlenc, colVals_length hc]
  refine ⟨hlen, ?_, ?_⟩
  · unfold range_flag at h
    split at h
    · cases h
      next ns hns =>
        intro i x hx
        have hget := allInts?_getElem hns i
        rw [hx] at hget
        simp only [Option.bind_some, asInt?] at hget
        rw [List.getElem?_map, ← hget]
        simp [Bool.decide_or]
    · cases h
  · intro c' hc'
    refine colVals_eq_of_proj (setCol_fresh_header flags hfn) ?_ hc'
    rw [setCol_fresh_rows flags hfn]
    exact zipWith_append_map_take df.rows flags hlen
      (fun r hr => (hwf r hr).ge)

theorem range_flag_marks_outside_bounds_witness :
    WF wRangeDF ∧ "flag_v" ∉ wRangeDF.header ∧ wRangeDF.hasCol "v" = true ∧
    range_flag (colVals wRangeDF "v") 0 10 = Except.ok [false, true] ∧
    (([false, true] : List Bool).length = wRangeDF.rows.length ∧
     (∀ i : Nat, ∀ x : Int, (colVals wRangeDF "v")[i]? = some (Value.vInt x) →
       ([false, true] : List Bool)[i]? = some (decide (x < 0 ∨ 10 < x))) ∧
     (∀ c' ∈ wRangeDF.header,
       colVals (setCol wRangeDF "flag_v" [false, true]) c' = colVals wRangeDF c')) :=
  ⟨by decide, by decide, by decide, by decide,
    range_flag_marks_outside_bounds wRangeDF "v" "flag_v" 0 10
      [false, true] (by decide) (by decide) (by decide) (by decide)⟩

theorem flag_count_matches_flag_column_witness :
    WF wScadaDF ∧ (∀ f ∈ flagNamesAll, f ∉ wScadaDF.header) ∧
    ((∀ s ∈ scadaRangeSpecs "P_avg" "Ws_avg" "Ot_avg" (0, 1) (0, 1) (0, 1) ++
        scadaUnrespSpecs "P_avg" "Ws_avg" 3, ∀ z : Int,
      rget (refine_scada wScadaDF 0 "Date_time" "Wind_turbine_name" "P_avg" "Ws_avg"
        "Ot_avg" 10 (0, 1) (0, 1) (0, 1) 3).2 s.countKey = some (RVal.rInt z) →
      ((colVals (refine_scada wScadaDF 0 "Date_time" "Wind_turbine_name" "P_avg"
        "Ws_avg" "Ot_avg" 10 (0, 1) (0, 1) (0, 1) 3).1 s.fname).countP
        (fun v => decide (v = Value.vBool true)) : Int) = z) ∧
    (∀ s ∈ meterRangeSpecs "energy" (0, 1), ∀ z : Int,
      rget (refine_meter wScadaDF 0 "Date_time" "energy" 10 (0, 1)).2 s.countKey =
        some (RVal.rInt z) →
      ((colVals (refine_meter wScadaDF 0 "Date_time" "energy" 10 (0, 1)).1
        s.fname).countP (fun v => decide (v = Value.vBool true)) : Int) = z) ∧
    (∀ s ∈ curtailRangeSpecs "avail" "curt" (0, 1) (0, 1), ∀ z : Int,
      rget (refine_curtail wScadaDF 0 "Date_time" "avail" "curt" 10 (0, 1) (0, 1)).2
        s.countKey = some (RVal.rInt z) →
      ((colVals (refine_curtail wScadaDF 0 "Date_time" "avail" "curt"
        10 (0, 1) (0, 1)).1 s.fname).countP
        (fun v => decide (v = Value.vBool true)) : Int) = z) ∧
    (∀ s ∈ assetRangeSpecs (0, 1) (0, 1) (0, 1), ∀ z : Int,
      rget (refine_asset wScadaDF (0, 1) (0, 1) (0, 1)).2 s.countKey =
        some (RVal.rInt z) →
      ((colVals (refine_asset wScadaDF (0, 1) (0, 1) (0, 1)).1 s.fname).countP
        (fun v => decide (v = Value.vBool true)) : Int) = z) ∧
    (∀ s ∈ reanalysisRangeSpecs "Ws_avg" "wd" "Ot_avg" (0, 1) (0, 1) (0, 1) ++
        reanalysisUnrespSpecs "Ws_avg" 3, ∀ z : Int,
      rget (refine_reanalysis wScadaDF "era5" 0 "Date_time" "Ws_avg" "wd"
        "Ot_avg" 10 (0, 1) (0, 1) (0, 1) 3).2 s.countKey = some (RVal.rInt z) →
      ((colVals (refine_reanalysis wScadaDF "era5" 0 "Date_time" "Ws_avg" "wd"
        "Ot_avg" 10 (0, 1) (0, 1) (0, 1) 3).1 s.fname).countP
        (fun v => decide (v = Value.vBool true)) : Int) = z)) :=
  ⟨by decide, by decide,
    flag_count_matches_flag_column wScadaDF 0 "Date_time" "Wind_turbine_name"
      "P_avg" "Ws_avg" "Ot_avg" "energy" "avail" "curt" "wd" "era5" 10
      (0, 1) (0, 1) (0, 1) (0, 1) (0, 1) (0, 1) (0, 1) (0, 1) (0, 1) (0, 1) 3
      (by decide) (by decide)⟩

end WindQA
